import Mathlib

/-!
# CaptureRing: admin dashboard, shop checkout

A shallow embedding of the event handlers of the CaptureRing web application
(`src/components/AdminDashboard/ProductManagement.js`,
`src/components/AdminDashboard/Packages.js`, `src/components/Shop/CheckoutPage.js`,
`src/components/EventBooking/ServiceSelection.js`, `src/context/AuthContext.js`,
`src/components/Shop/SingleProductPage.js`).

Conventions of the embedding.

* A handler is a function from the state of the render it closes over, and from the
  answers of the remote services it awaits, to a `Run`: how the returned promise settles
  (`result`) and the effects it issued, in program order (`trace`).
* A React state setter is an effect; the next render's state is obtained by replaying the
  setters of the trace (`applyEffects`).
* Remote services (object storage, document gateway, e-mail) are not part of the
  repository; their answers are parameters (`StorageEnv`, `GatewayEnv`, `CheckoutEnv`), so
  every theorem holds for every behaviour of the services.
* JavaScript objects are ordered key/value lists with the update semantics of object
  literals (`Obj.set`, `Obj.assign`).
* A callback that runs later (a timer, the `onload` of a preview read) is an event of its
  own: `scheduledCallbacks`, `PackagesEvent.previewLoaded`.
* A handler that awaits a remote call resumes later with the values of the render it was
  started in: a removal in flight keeps that render (`PendingRemoval`), and its setters are
  applied to the state current when it settles (`ProductModalEvent.deleteSettled`).
-/

namespace CaptureRing

/-! ## JavaScript values -/

/-- Errors thrown or rejected by a remote call. -/
abbrev Err := String

/-- JavaScript numbers, as far as the handlers look at them: `NaN` or a number. -/
inductive JSNumber where
  | nan
  | num (x : Rat)
  deriving DecidableEq

/-- A file of a file input; the handlers read only `file.name`. -/
structure File where
  name : String
  deriving DecidableEq

/-- A cart line: product snapshot and quantity (the handlers read `name` and `quantity`);
the quantity is a JavaScript number. -/
structure CartItem where
  id : String
  name : String
  price : JSNumber
  quantity : JSNumber
  deriving DecidableEq

/-- The values stored in fields of the objects the handlers build. -/
inductive JSValue where
  | undefined
  | null
  | bool (b : Bool)
  | num (n : JSNumber)
  | str (s : String)
  | strs (l : List String)
  | items (l : List CartItem)
  | date (t : Nat)
  | serverTimestamp
  deriving DecidableEq

/-- JavaScript truthiness, as used by `if (x)` and `x || y`. -/
def JSValue.truthy : JSValue → Bool
  | .undefined => false
  | .null => false
  | .bool b => b
  | .num .nan => false
  | .num (.num x) => x != 0
  | .str s => s != ""
  | .strs _ => true
  | .items _ => true
  | .date _ => true
  | .serverTimestamp => true

/-- A JavaScript object: its own enumerable properties in insertion order. -/
structure Obj where
  fields : List (String × JSValue)
  deriving DecidableEq

/-- Property update on a field list: an existing key keeps its position and takes the new
value, a new key is appended. -/
def setField (k : String) (v : JSValue) : List (String × JSValue) → List (String × JSValue)
  | [] => [(k, v)]
  | (k', v') :: rest => if k' = k then (k, v) :: rest else (k', v') :: setField k v rest

/-- The object literal `{ ...o, k: v }`. -/
def Obj.set (o : Obj) (k : String) (v : JSValue) : Obj :=
  ⟨setField k v o.fields⟩

/-- Property read `o.k`: `undefined` when the key is absent. -/
def Obj.get (o : Obj) (k : String) : JSValue :=
  match o.fields.lookup k with
  | some v => v
  | none => .undefined

/-! ## Effects and runs -/

/-- A document of a query snapshot: its key (`doc.id`) and its fields (`doc.data()`). -/
structure DocSnapshot where
  id : String
  data : Obj
  deriving DecidableEq

/-- What a timer callback of the checkout page does when it fires. -/
inductive TimerAction where
  | setLoading (b : Bool)
  | setShowSnackbar (b : Bool)
  | navigate (path : String)
  deriving DecidableEq

/-- The observable effects of the handlers: remote calls, state setters, dialogs. -/
inductive Effect where
  | preventDefault
  -- object storage
  | uploadBytesResumable (path : String) (file : File)
  | uploadBytes (path : String) (file : File)
  | getDownloadURL (path : String)
  | deleteObject (url : String)
  -- document gateway
  | updateDoc (coll : String) (id : JSValue) (fields : Obj)
  | addDoc (coll : String) (fields : Obj)
  | setDoc (coll : String) (id : String) (fields : Obj)
  | getDocs (coll : String)
  | getDoc (coll : String) (id : JSValue)
  | deleteDoc (coll : String) (id : JSValue)
  -- e-mail
  | emailSend (service template : String) (params : Obj) (user : String)
  -- diagnostics and dialogs
  | consoleError (e : Err)
  | alert (msg : String)
  | confirm (msg : String)
  -- product screen
  | setUploading (b : Bool)
  | setImageFiles (files : List File)
  | setImageUrls (urls : List String)
  | onSave (data : Obj)
  | setIsModalOpen (b : Bool)
  | setEditProduct (p : Option Obj)
  | setProducts (l : List Obj)
  -- package screen
  | setPackages (l : List Obj)
  | setEditId (id : JSValue)
  | setImageFile (f : Option File)
  | setImageUrl (u : JSValue)
  | formReset (values : Option Obj)
  | setFormErrors (errors : List (String × String))
  | readAsDataURL (file : File)
  -- booking flow
  | setTeams (l : List Obj)
  | setError (msg : String)
  -- identity holder
  | setUser (u : Option Obj)
  -- checkout
  | setLoading (b : Bool)
  | setShowSnackbar (b : Bool)
  | clearCart
  | setTimeout (callback : List TimerAction) (ms : Nat)
  deriving DecidableEq

/-- How one handler invocation went: the settlement of its promise and its effects in
program order. -/
structure Run where
  result : Except Err Unit
  trace : List Effect

/-- Statements that cannot fail: they only add their effects. -/
def Run.emit (effects : List Effect) : Run :=
  ⟨.ok (), effects⟩

/-- Sequencing `await r; k`: when `r` rejects the handler stops there with that error,
otherwise it goes on with `k`. -/
def Run.andThen (r : Run) (k : Run) : Run :=
  match r.result with
  | .error e => ⟨.error e, r.trace⟩
  | .ok _ => ⟨k.result, r.trace ++ k.trace⟩

/-! ## Remote services -/

/-- Answers of the object storage. The number given to `uploadBytesResumable` and to
`getDownloadURL` is the position of the call among the uploads of one submit, so that the
storage may answer differently each time. -/
structure StorageEnv where
  uploadBytesResumable : Nat → String → File → Except Err Unit
  getDownloadURL : Nat → String → Except Err String
  uploadBytes : String → File → Except Err Unit
  deleteObject : String → Except Err Unit

/-- Answers of the document gateway (Firestore). -/
structure GatewayEnv where
  updateDoc : String → JSValue → Obj → Except Err Unit
  addDoc : String → Obj → Except Err String
  setDoc : String → String → Obj → Except Err Unit
  getDocs : String → Except Err (List DocSnapshot)
  getDoc : String → JSValue → Except Err (Option Obj)
  deleteDoc : String → String → Except Err Unit

/-- A fetched document as a record: `{ ...doc.data(), id: doc.id }`. -/
def withId (d : DocSnapshot) : Obj :=
  d.data.set "id" (.str d.id)

/-- The object spread `{ ...target, ...source }`: the properties of `source`, in order,
written over `target`. -/
def Obj.assign (target source : Obj) : Obj :=
  source.fields.foldl (fun o kv => o.set kv.1 kv.2) target

/-- The keys of an object, in order. -/
def Obj.keys (o : Obj) : List String :=
  o.fields.map Prod.fst

/-! ## Product screen: `ProductManagement.js` -/

/-- State of the `ProductManagement` component. -/
structure ProductManagementState where
  products : List Obj
  isModalOpen : Bool
  editProduct : Option Obj

/-- State of the `ProductModal` component. `name`, `price` and `description` start from the
edited record and are replaced by the input's text on change. -/
structure ProductModalState where
  name : JSValue
  price : JSValue
  description : JSValue
  imageFiles : List File
  imageUrls : List String
  uploading : Bool

/-- The function `fetchProducts`: re-list the collection into the `products` state. -/
def fetchProducts (g : GatewayEnv) : Run :=
  match g.getDocs "products" with
  | .error e => ⟨.error e, [.getDocs "products"]⟩
  | .ok docs => ⟨.ok (), [.getDocs "products", .setProducts (docs.map withId)]⟩

/-- The gateway write of `handleAddEditProduct`: `updateDoc` on `editProduct.id` when a
product is being edited, else `addDoc`. -/
def writeProduct (g : GatewayEnv) (editProduct : Option Obj) (data : Obj) : Run :=
  match editProduct with
  | some p =>
    let fields := data.set "updatedAt" .serverTimestamp
    ⟨g.updateDoc "products" (p.get "id") fields, [.updateDoc "products" (p.get "id") fields]⟩
  | none =>
    let fields := data.set "createdAt" .serverTimestamp
    ⟨(g.addDoc "products" fields).map (fun _ => ()), [.addDoc "products" fields]⟩

/-- The handler `handleAddEditProduct`, the `onSave` of the modal. -/
def handleAddEditProduct (g : GatewayEnv) (st : ProductManagementState) (data : Obj) : Run :=
  (writeProduct g st.editProduct data).andThen
    ((Run.emit [.setIsModalOpen false, .setEditProduct none]).andThen (fetchProducts g))

/-- The upload loop of `handleSubmit`, `for (const file of imageFiles)`, from the `i`-th
upload on; `newImageUrls` is the list accumulated so far. An error of the upload task logs,
resets `uploading` and rejects; an error of `getDownloadURL` logs and rejects. -/
def uploadImages (env : StorageEnv) :
    Nat → List File → List String → Except Err (List String) × List Effect
  | _, [], newImageUrls => (.ok newImageUrls, [])
  | i, file :: rest, newImageUrls =>
    let path := "productImages/" ++ file.name
    match env.uploadBytesResumable i path file with
    | .error e =>
      (.error e, [.uploadBytesResumable path file, .consoleError e, .setUploading false])
    | .ok _ =>
      match env.getDownloadURL i path with
      | .error e =>
        (.error e, [.uploadBytesResumable path file, .getDownloadURL path, .consoleError e])
      | .ok downloadURL =>
        let next := uploadImages env (i + 1) rest (newImageUrls ++ [downloadURL])
        (next.1, [.uploadBytesResumable path file, .getDownloadURL path] ++ next.2)

/-- The upload phase of `handleSubmit`: nothing when no file is selected, else the loop
between `setUploading(true)` and `setUploading(false)`. -/
def uploadPhase (env : StorageEnv) (s : ProductModalState) :
    Except Err (List String) × List Effect :=
  if s.imageFiles.length > 0 then
    match uploadImages env 0 s.imageFiles s.imageUrls with
    | (.error e, tr) => (.error e, [.setUploading true] ++ tr)
    | (.ok newImageUrls, tr) => (.ok newImageUrls, [.setUploading true] ++ tr ++ [.setUploading false])
  else
    (.ok s.imageUrls, [])

/-- The object `productData` of `handleSubmit`. -/
def productData (parseFloat : JSValue → JSNumber) (s : ProductModalState)
    (newImageUrls : List String) : Obj :=
  ⟨[("name", s.name), ("price", .num (parseFloat s.price)),
    ("description", s.description), ("imageUrls", .strs newImageUrls)]⟩

/-- The handler `ProductModal.handleSubmit`, for the props `onSave` and `onClose`. -/
def ProductModal.handleSubmit (parseFloat : JSValue → JSNumber) (env : StorageEnv)
    (onSave : Obj → Run) (onClose : List Effect) (s : ProductModalState) : Run :=
  match uploadPhase env s with
  | (.error e, tr) => ⟨.error e, [.preventDefault] ++ tr⟩
  | (.ok newImageUrls, tr) =>
    let data := productData parseFloat s newImageUrls
    (Run.emit ([.preventDefault] ++ tr ++ [.onSave data])).andThen
      ((onSave data).andThen (Run.emit onClose))

/-- The handler `ProductModal.handleRemoveImage`: the state is updated only after the
storage delete has resolved; a rejection is caught and logged. -/
def ProductModal.handleRemoveImage (env : StorageEnv) (s : ProductModalState) (url : String) :
    Run :=
  match env.deleteObject url with
  | .ok _ =>
    ⟨.ok (), [.deleteObject url, .setImageUrls (s.imageUrls.filter (fun imageUrl => imageUrl != url))]⟩
  | .error e =>
    ⟨.ok (), [.deleteObject url, .consoleError e]⟩

/-- The handler `handleDeleteProduct`, for the answer given to `window.confirm`: after the
gateway delete the record is filtered out of the in-memory list. -/
def handleDeleteProduct (g : GatewayEnv) (confirmed : Bool) (st : ProductManagementState)
    (id : String) : Run :=
  if confirmed then
    (Run.mk (g.deleteDoc "products" id)
      [.confirm "Are you sure you want to delete this product?",
       .deleteDoc "products" (.str id)]).andThen
      (Run.emit [.setProducts (st.products.filter (fun product => product.get "id" != .str id))])
  else
    Run.emit [.confirm "Are you sure you want to delete this product?"]

/-- The next render of the modal: the setters of a trace applied to its state. -/
def ProductModalState.apply (s : ProductModalState) : Effect → ProductModalState
  | .setUploading b => { s with uploading := b }
  | .setImageUrls urls => { s with imageUrls := urls }
  | _ => s

/-- The modal state after a trace. -/
def ProductModalState.applyEffects (s : ProductModalState) (tr : List Effect) :
    ProductModalState :=
  tr.foldl ProductModalState.apply s

/-- The next render of the product screen: the setters of a trace applied to its state. -/
def ProductManagementState.apply (st : ProductManagementState) :
    Effect → ProductManagementState
  | .setIsModalOpen b => { st with isModalOpen := b }
  | .setEditProduct p => { st with editProduct := p }
  | .setProducts l => { st with products := l }
  | _ => st

/-- The product screen state after a trace. -/
def ProductManagementState.applyEffects (st : ProductManagementState) (tr : List Effect) :
    ProductManagementState :=
  tr.foldl ProductManagementState.apply st

/-- The submit of the product form as the screen wires it: `onSave` is
`handleAddEditProduct` and `onClose` is `() => setIsModalOpen(false)`. -/
def submitProduct (parseFloat : JSValue → JSNumber) (env : StorageEnv) (g : GatewayEnv)
    (st : ProductManagementState) (s : ProductModalState) : Run :=
  ProductModal.handleSubmit parseFloat env (handleAddEditProduct g st) [.setIsModalOpen false] s

/-- The arguments of the calls of `onSave` in a trace. -/
def onSaveCalls (tr : List Effect) : List Obj :=
  tr.filterMap (fun e => match e with
    | .onSave data => some data
    | _ => none)

/-- The uploads started in a trace: storage paths in call order. -/
def uploadsStarted (tr : List Effect) : List String :=
  tr.filterMap (fun e => match e with
    | .uploadBytesResumable path _ => some path
    | .uploadBytes path _ => some path
    | _ => none)

/-- Whether an effect is a gateway write (`updateDoc`, `addDoc`, `setDoc`, `deleteDoc`). -/
def Effect.isGatewayWrite : Effect → Bool
  | .updateDoc _ _ _ => true
  | .addDoc _ _ => true
  | .setDoc _ _ _ => true
  | .deleteDoc _ _ => true
  | _ => false

/-- The gateway writes of a trace, in call order. -/
def gatewayWrites (tr : List Effect) : List Effect :=
  tr.filter Effect.isGatewayWrite

/-- The value of `x || fallback`. -/
def JSValue.orElse (x fallback : JSValue) : JSValue :=
  if x.truthy then x else fallback

/-- The initial state of `ProductModal` for the prop `product` (none for `null`): the
fields of the record, or empty ones; the gallery is the record's array of references, or
empty when the record has none. -/
def ProductModalState.initial (product : Option Obj) : ProductModalState :=
  match product with
  | some p =>
    { name := (p.get "name").orElse (.str "")
      price := (p.get "price").orElse (.str "")
      description := (p.get "description").orElse (.str "")
      imageFiles := []
      imageUrls := match p.get "imageUrls" with
        | .strs l => l
        | _ => []
      uploading := false }
  | none =>
    { name := .str "", price := .str "", description := .str "", imageFiles := [],
      imageUrls := [], uploading := false }

/-- The documents held by the gateway: pairs of a collection name and a document. -/
abbrev Documents := List (String × DocSnapshot)

/-- A gateway write that resolved, applied to the documents: `setDoc` replaces or creates
the document, `addDoc` creates one under the key the gateway generated, `updateDoc` writes
the given fields over those of the document, `deleteDoc` removes it. No other effect
touches the documents. -/
def commitWrite (generatedKey : String) (docs : Documents) : Effect → Documents
  | .setDoc coll id fields =>
    docs.filter (fun d => !(d.1 == coll && d.2.id == id)) ++ [(coll, ⟨id, fields⟩)]
  | .addDoc coll fields => docs ++ [(coll, ⟨generatedKey, fields⟩)]
  | .updateDoc coll (.str id) fields =>
    docs.map (fun d =>
      if d.1 == coll && d.2.id == id then (d.1, ⟨d.2.id, Obj.assign d.2.data fields⟩) else d)
  | .deleteDoc coll (.str id) => docs.filter (fun d => !(d.1 == coll && d.2.id == id))
  | _ => docs

/-- The documents after a trace whose gateway writes all resolved. -/
def documentsAfter (generatedKey : String) (docs : Documents) (tr : List Effect) : Documents :=
  tr.foldl (commitWrite generatedKey) docs

/-- A call of `handleRemoveImage` that awaits its storage delete: the state of the render
whose button was pressed, which the handler closes over, and the reference. -/
structure PendingRemoval where
  render : ProductModalState
  url : String

/-- The product modal between two events: the state of the current render and the removals
in flight, oldest first. -/
structure ProductModalSession where
  modal : ProductModalState
  pending : List PendingRemoval

/-- The events of the gallery of the product modal. Each entry of the gallery has an X
button, which is never disabled: a removal can be started while others are in flight. The
`k`-th removal in flight settles at any later time, against the answer the storage gives
it. -/
inductive ProductModalEvent where
  | removeClicked (url : String)
  | deleteSettled (k : Nat) (env : StorageEnv)

/-- One event of the gallery. Pressing the X button of `url`, which exists only while the
gallery shows `url`, starts `handleRemoveImage(url)` in the current render. When a removal
settles, the setters of its handler, computed from the render it closed over, are applied
to the current state. -/
def ProductModalSession.step (c : ProductModalSession) :
    ProductModalEvent → ProductModalSession
  | .removeClicked url =>
    if url ∈ c.modal.imageUrls then { c with pending := c.pending ++ [⟨c.modal, url⟩] } else c
  | .deleteSettled k env =>
    match c.pending[k]? with
    | some p =>
      { modal := c.modal.applyEffects (ProductModal.handleRemoveImage env p.render p.url).trace
        pending := c.pending.eraseIdx k }
    | none => c

/-- The session after a sequence of events. -/
def ProductModalSession.run (c : ProductModalSession) (events : List ProductModalEvent) :
    ProductModalSession :=
  events.foldl ProductModalSession.step c

/-- Removals made one after the other, each against its own storage answers: a button is
pressed only once the removal before it has settled. -/
def removeOneByOne (steps : List (StorageEnv × String)) : List ProductModalEvent :=
  steps.flatMap (fun step => [.removeClicked step.2, .deleteSettled 0 step.1])

/-- The modal state once the removals `steps` were made one after the other, from a render
with no removal in flight. -/
def ProductModalState.afterRemovals (s : ProductModalState)
    (steps : List (StorageEnv × String)) : ProductModalState :=
  ((ProductModalSession.mk s []).run (removeOneByOne steps)).modal

/-! ## Form validation: the `yup` schemas and the `react-hook-form` submit wrapper -/

/-- Coercions of the JavaScript runtime used when a schema casts a raw form value:
`toNumber` is the numeric reading of an input's text (`NaN` when it is not a number, in
particular for the empty text), `stringOf` is `String(v)` for a value that is not a string,
`isEmail` is the e-mail pattern of the schema library. -/
structure Coercions where
  toNumber : String → JSNumber
  stringOf : JSValue → String
  isEmail : String → Bool

/-- A field rule as the schemas of the repository build them: `yup.string()` with optional
`.email(msg)` and `.required(msg)`, or `yup.number()` with optional `.required(msg)` and
`.positive(msg)`. -/
inductive FieldSchema where
  | string (email : Option String) (required : Option String)
  | number (required : Option String) (positive : Option String)
  deriving DecidableEq

/-- The cast of a string rule: absent values stay absent, other values become strings. -/
def castString (c : Coercions) : JSValue → JSValue
  | .undefined => .undefined
  | .null => .null
  | .str s => .str s
  | v => .str (c.stringOf v)

/-- The cast of a number rule: absent values stay absent, text is read as a number. -/
def castNumber (c : Coercions) : JSValue → JSValue
  | .undefined => .undefined
  | .null => .null
  | .num n => .num n
  | .str s => .num (c.toNumber s)
  | _ => .num .nan

/-- Validation of one field: the cast value, or the message of the first failing test.
A required string must be present and non-empty; a number must not be `NaN`, a required
number must be present, a positive number must be greater than zero. -/
def validateField (c : Coercions) : FieldSchema → JSValue → Except String JSValue
  | .string email required, raw =>
    match castString c raw with
    | .str s =>
      if s = "" then
        match required with
        | some msg => .error msg
        | none => .ok (.str s)
      else
        match email with
        | some msg => if c.isEmail s then .ok (.str s) else .error msg
        | none => .ok (.str s)
    | v =>
      match required with
      | some msg => .error msg
      | none => .ok v
  | .number required positive, raw =>
    match castNumber c raw with
    | .num .nan => .error "must be a `number` type"
    | .num (.num x) =>
      match positive with
      | some msg => if 0 < x then .ok (.num (.num x)) else .error msg
      | none => .ok (.num (.num x))
    | v =>
      match required with
      | some msg => .error msg
      | none => .ok v

/-- The failing fields of a form against a schema, with their messages, in schema order. -/
def fieldErrors (c : Coercions) (schema : List (String × FieldSchema)) (values : Obj) :
    List (String × String) :=
  schema.filterMap (fun rule =>
    match validateField c rule.2 (values.get rule.1) with
    | .error msg => some (rule.1, msg)
    | .ok _ => none)

/-- The cast form: each field of the schema replaced by its cast value. -/
def castObject (c : Coercions) (schema : List (String × FieldSchema)) (values : Obj) : Obj :=
  schema.foldl (fun o rule =>
    match validateField c rule.2 (values.get rule.1) with
    | .ok v => o.set rule.1 v
    | .error _ => o) values

/-- The resolver `yupResolver(schema)`: the cast data when no field fails, else the
errors. -/
def yupResolver (c : Coercions) (schema : List (String × FieldSchema)) (values : Obj) :
    Except (List (String × String)) Obj :=
  match fieldErrors c schema values with
  | [] => .ok (castObject c schema values)
  | errs => .error errs

/-- The wrapper `handleSubmit(onSubmit)` of `useForm`: `onSubmit` runs on the resolved data
only when the resolver reports no error; otherwise the errors are attached to the form. -/
def formHandleSubmit (resolver : Obj → Except (List (String × String)) Obj)
    (onSubmit : Obj → Run) (values : Obj) : Run :=
  match resolver values with
  | .ok data => (Run.emit [.preventDefault]).andThen (onSubmit data)
  | .error errs => Run.emit [.preventDefault, .setFormErrors errs]

/-! ## Package screen: `Packages.js` -/

/-- The schema `packageSchema`. -/
def packageSchema : List (String × FieldSchema) :=
  [("title", .string none (some "Title is required")),
   ("description", .string none (some "Description is required")),
   ("price", .number (some "Price is required") (some "Price must be a positive number")),
   ("team", .string none (some "Team selection is required")),
   ("duration",
     .number (some "Duration is required") (some "Duration must be a positive number"))]

/-- State of the `Packages` component. -/
structure PackagesState where
  packages : List Obj
  teams : List Obj
  isModalOpen : Bool
  editId : JSValue
  imageFile : Option File
  imageUrl : JSValue

/-- The initial state of the `Packages` component. -/
def PackagesState.initial : PackagesState where
  packages := []
  teams := []
  isModalOpen := false
  editId := .null
  imageFile := none
  imageUrl := .null

/-- The function `openModal(packageData = null)`. -/
def Packages.openModal (packageData : Option Obj) : List Effect :=
  match packageData with
  | some p =>
    [.setEditId (p.get "id"), .setImageUrl (p.get "imageUrl"),
     .formReset (some ⟨[("title", p.get "title"), ("description", p.get "description"),
        ("price", p.get "price"), ("team", p.get "team"), ("duration", p.get "duration")]⟩),
     .setIsModalOpen true]
  | none => [.formReset none, .setImageUrl .null, .setIsModalOpen true]

/-- The function `closeModal`. -/
def Packages.closeModal : List Effect :=
  [.setIsModalOpen false, .setEditId .null, .setImageFile none, .setImageUrl .null]

/-- The image step of `onSubmit`: the current `imageUrl` when no file is selected, else the
download URL of the file uploaded to `packages/<name>`. -/
def Packages.uploadImage (env : StorageEnv) (st : PackagesState) :
    Except Err JSValue × List Effect :=
  match st.imageFile with
  | none => (.ok st.imageUrl, [])
  | some imageFile =>
    let path := "packages/" ++ imageFile.name
    match env.uploadBytes path imageFile with
    | .error e => (.error e, [.uploadBytes path imageFile])
    | .ok _ =>
      match env.getDownloadURL 0 path with
      | .error e => (.error e, [.uploadBytes path imageFile, .getDownloadURL path])
      | .ok url => (.ok (.str url), [.uploadBytes path imageFile, .getDownloadURL path])

/-- The gateway write of `onSubmit`: `updateDoc` on `editId` when it is truthy, else
`addDoc`. -/
def Packages.write (g : GatewayEnv) (editId : JSValue) (packageData : Obj) : Run :=
  if editId.truthy then
    ⟨g.updateDoc "packages" editId packageData, [.updateDoc "packages" editId packageData]⟩
  else
    ⟨(g.addDoc "packages" packageData).map (fun _ => ()), [.addDoc "packages" packageData]⟩

/-- The re-list of `onSubmit`: `getDocs` on `packages` into the `packages` state. -/
def Packages.relist (g : GatewayEnv) : Run :=
  match g.getDocs "packages" with
  | .error e => ⟨.error e, [.getDocs "packages"]⟩
  | .ok docs => ⟨.ok (), [.getDocs "packages", .setPackages (docs.map withId)]⟩

/-- The handler `Packages.onSubmit`. -/
def Packages.onSubmit (env : StorageEnv) (g : GatewayEnv) (st : PackagesState) (data : Obj) :
    Run :=
  match Packages.uploadImage env st with
  | (.error e, tr) => ⟨.error e, tr⟩
  | (.ok uploadedImageUrl, tr) =>
    let packageData := data.set "imageUrl" uploadedImageUrl
    (Run.emit tr).andThen
      ((Packages.write g st.editId packageData).andThen
        ((Packages.relist g).andThen (Run.emit Packages.closeModal)))

/-- The handler `Packages.confirmDelete`, for the answer given to `window.confirm`: after
the gateway delete the collection is re-listed. -/
def Packages.confirmDelete (g : GatewayEnv) (confirmed : Bool) (id : String) : Run :=
  if confirmed then
    (Run.mk (g.deleteDoc "packages" id)
      [.confirm "Are you sure you want to delete this package?",
       .deleteDoc "packages" (.str id)]).andThen (Packages.relist g)
  else
    Run.emit [.confirm "Are you sure you want to delete this package?"]

/-- The function `fetchData` of the mount effect of `Packages`: list `packages`, then list
`teams`. -/
def Packages.fetchData (g : GatewayEnv) : Run :=
  (Packages.relist g).andThen
    (match g.getDocs "teams" with
     | .error e => ⟨.error e, [.getDocs "teams"]⟩
     | .ok docs => ⟨.ok (), [.getDocs "teams", .setTeams (docs.map withId)]⟩)

/-- The submit of the package form: `handleSubmit(onSubmit)` with the schema resolver. -/
def Packages.submitForm (c : Coercions) (env : StorageEnv) (g : GatewayEnv)
    (st : PackagesState) (values : Obj) : Run :=
  formHandleSubmit (yupResolver c packageSchema) (Packages.onSubmit env g st) values

/-- The next render of the package screen: the setters of a trace applied to its state. -/
def PackagesState.apply (st : PackagesState) : Effect → PackagesState
  | .setPackages l => { st with packages := l }
  | .setTeams l => { st with teams := l }
  | .setIsModalOpen b => { st with isModalOpen := b }
  | .setEditId id => { st with editId := id }
  | .setImageFile f => { st with imageFile := f }
  | .setImageUrl u => { st with imageUrl := u }
  | _ => st

/-- The package screen state after a trace. -/
def PackagesState.applyEffects (st : PackagesState) (tr : List Effect) : PackagesState :=
  tr.foldl PackagesState.apply st

/-- The handler `handleImageChange`, for the first file of the input (none when the
selection is empty): the file is stored and a preview read is started; with no file
`readAsDataURL` throws. -/
def Packages.handleImageChange (file : Option File) : Run :=
  match file with
  | some f => ⟨.ok (), [.setImageFile (some f), .readAsDataURL f]⟩
  | none => ⟨.error "TypeError", [.setImageFile none]⟩

/-- The callback `reader.onload` of a preview read: the data URL becomes `imageUrl`. -/
def Packages.previewLoaded (result : String) : List Effect :=
  [.setImageUrl (.str result)]

/-- The package controller between two events: the component state and the preview reads
that were started and have not completed. -/
structure PackagesController where
  state : PackagesState
  pendingReads : List File

/-- The events of the package screen. A submit or a delete acts on the state when it
settles; `closure` is the state of the render in which the submit was started. The file
input exists only while the modal is open; a preview read completes at any later time. -/
inductive PackagesEvent where
  | openModal (packageData : Option Obj)
  | closeModal
  | imageChange (file : Option File)
  | previewLoaded (file : File) (result : String)
  | submitSettled (env : StorageEnv) (g : GatewayEnv) (closure : PackagesState) (data : Obj)
  | deleteSettled (g : GatewayEnv) (confirmed : Bool) (id : String)
  | dataFetched (g : GatewayEnv)

/-- One event of the package screen. -/
def PackagesController.step (c : PackagesController) : PackagesEvent → PackagesController
  | .openModal packageData =>
    { c with state := c.state.applyEffects (Packages.openModal packageData) }
  | .closeModal => { c with state := c.state.applyEffects Packages.closeModal }
  | .imageChange file =>
    if c.state.isModalOpen then
      { state := c.state.applyEffects (Packages.handleImageChange file).trace
        pendingReads := match file with
          | some f => c.pendingReads ++ [f]
          | none => c.pendingReads }
    else c
  | .previewLoaded file result =>
    if file ∈ c.pendingReads then
      { state := c.state.applyEffects (Packages.previewLoaded result)
        pendingReads := c.pendingReads.erase file }
    else c
  | .submitSettled env g closure data =>
    { c with state := c.state.applyEffects (Packages.onSubmit env g closure data).trace }
  | .deleteSettled g confirmed id =>
    { c with state := c.state.applyEffects (Packages.confirmDelete g confirmed id).trace }
  | .dataFetched g => { c with state := c.state.applyEffects (Packages.fetchData g).trace }

/-- The controller after a sequence of events from the initial state. -/
def PackagesController.run (events : List PackagesEvent) : PackagesController :=
  events.foldl PackagesController.step ⟨PackagesState.initial, []⟩

/-- The fields a gateway write carries. -/
def Effect.writtenFields : Effect → Option Obj
  | .updateDoc _ _ fields => some fields
  | .addDoc _ fields => some fields
  | .setDoc _ _ fields => some fields
  | _ => none

/-- The records written to the gateway in a trace, in call order. -/
def recordsWritten (tr : List Effect) : List Obj :=
  tr.filterMap Effect.writtenFields

/-! ## Booking flow: `ServiceSelection.js` -/

/-- State of the `ServiceSelection` component. -/
structure ServiceSelectionState where
  packages : List Obj
  teams : List Obj
  selectedTeam : String
  loading : Bool
  error : Option String

/-- The initial state of the `ServiceSelection` component. -/
def ServiceSelectionState.initial : ServiceSelectionState where
  packages := []
  teams := []
  selectedTeam := "All"
  loading := true
  error := none

/-- A fetched document as a record of the booking flow: `{ id: doc.id, ...doc.data() }`. -/
def ServiceSelection.record (d : DocSnapshot) : Obj :=
  Obj.assign ⟨[("id", .str d.id)]⟩ d.data

/-- The `try` block of `fetchData`: list `packages`, then list `teams`. -/
def ServiceSelection.tryBlock (g : GatewayEnv) : Run :=
  (match g.getDocs "packages" with
   | .error e => Run.mk (.error e) [.getDocs "packages"]
   | .ok docs =>
     Run.mk (.ok ()) [.getDocs "packages", .setPackages (docs.map ServiceSelection.record)]).andThen
    (match g.getDocs "teams" with
     | .error e => ⟨.error e, [.getDocs "teams"]⟩
     | .ok docs => ⟨.ok (), [.getDocs "teams", .setTeams (docs.map ServiceSelection.record)]⟩)

/-- The function `fetchData` of `ServiceSelection`: the `try` block, the `catch` that sets
the error message and logs, and the `finally` that leaves the loading state. -/
def ServiceSelection.fetchData (g : GatewayEnv) : Run :=
  let body := ServiceSelection.tryBlock g
  match body.result with
  | .ok _ => ⟨.ok (), body.trace ++ [.setLoading false]⟩
  | .error e =>
    ⟨.ok (), body.trace ++ [.setError "Failed to load data", .consoleError e, .setLoading false]⟩

/-- The next render of the booking step: the setters of a trace applied to its state. -/
def ServiceSelectionState.apply (st : ServiceSelectionState) : Effect → ServiceSelectionState
  | .setPackages l => { st with packages := l }
  | .setTeams l => { st with teams := l }
  | .setLoading b => { st with loading := b }
  | .setError msg => { st with error := some msg }
  | _ => st

/-- The booking step state after a trace. -/
def ServiceSelectionState.applyEffects (st : ServiceSelectionState) (tr : List Effect) :
    ServiceSelectionState :=
  tr.foldl ServiceSelectionState.apply st

/-! ## Identity holder: `AuthContext.js` -/

/-- State of the `AuthProvider` component. -/
structure AuthState where
  user : Option Obj
  loading : Bool

/-- The initial state of the `AuthProvider` component. -/
def AuthState.initial : AuthState where
  user := none
  loading := true

/-- The callback given to `onAuthStateChanged`, for the identity the provider reports
(none for `null`): the profile lookup under `users/<uid>`, the merge, and `setLoading(false)`
in every case. -/
def AuthProvider.onAuthStateChanged (g : GatewayEnv) (user : Option Obj) : Run :=
  match user with
  | some user =>
    match g.getDoc "users" (user.get "uid") with
    | .ok (some data) =>
      ⟨.ok (), [.getDoc "users" (user.get "uid"), .setUser (some (Obj.assign user data)),
        .setLoading false]⟩
    | .ok none =>
      ⟨.ok (), [.getDoc "users" (user.get "uid"), .setUser (some user), .setLoading false]⟩
    | .error e =>
      ⟨.ok (), [.getDoc "users" (user.get "uid"), .consoleError e, .setLoading false]⟩
  | none => ⟨.ok (), [.setUser none, .setLoading false]⟩

/-- The next render of the provider: the setters of a trace applied to its state. -/
def AuthState.apply (st : AuthState) : Effect → AuthState
  | .setUser u => { st with user := u }
  | .setLoading b => { st with loading := b }
  | _ => st

/-- The provider state after a trace. -/
def AuthState.applyEffects (st : AuthState) (tr : List Effect) : AuthState :=
  tr.foldl AuthState.apply st

/-- The render guard of `AuthProvider`, `{!loading && children}`: whether the children are
rendered. -/
def AuthProvider.childrenRendered (st : AuthState) : Bool :=
  !st.loading

/-- The provider state after a sequence of auth-state reports, each processed to its end
against the answers the gateway gives at that time. -/
def AuthState.afterReports (st : AuthState) (reports : List (GatewayEnv × Option Obj)) :
    AuthState :=
  reports.foldl
    (fun cur report =>
      cur.applyEffects (AuthProvider.onAuthStateChanged report.1 report.2).trace) st

/-! ## Product page: `SingleProductPage.js` -/

/-- The call `arr.indexOf(x)` on an array of strings: the first index of the value, `-1`
when it is absent (`undefined`, here none, is never an element). -/
def jsIndexOf (arr : List String) (x : Option String) : Int :=
  match x with
  | some s => if s ∈ arr then (arr.indexOf s : Int) else -1
  | none => -1

/-- The remainder `a % n` of two integers: `NaN` (none) for `n = 0`, else the remainder
with the sign of `a`. -/
def jsRem (a n : Int) : Option Int :=
  if n = 0 then none else some (a.tmod n)

/-- The read `arr[i]`: `undefined` (none) when `i` is `NaN`, negative or past the end. -/
def jsElementAt (arr : List String) (i : Option Int) : Option String :=
  match i with
  | some (.ofNat k) => arr[k]?
  | _ => none

/-- The initial `selectedImage`, `product?.imageUrls?.[0]`. -/
def SingleProductPage.initialImage (imageUrls : List String) : Option String :=
  imageUrls[0]?

/-- The value the next button passes to `setSelectedImage`:
`imageUrls[(imageUrls.indexOf(selectedImage) + 1) % imageUrls.length]`. -/
def SingleProductPage.nextImage (imageUrls : List String) (selectedImage : Option String) :
    Option String :=
  jsElementAt imageUrls (jsRem (jsIndexOf imageUrls selectedImage + 1) imageUrls.length)

/-- The value the previous button passes to `setSelectedImage`:
`imageUrls[(imageUrls.indexOf(selectedImage) - 1 + imageUrls.length) % imageUrls.length]`. -/
def SingleProductPage.previousImage (imageUrls : List String)
    (selectedImage : Option String) : Option String :=
  jsElementAt imageUrls
    (jsRem (jsIndexOf imageUrls selectedImage - 1 + imageUrls.length) imageUrls.length)

/-- The images shown while the next button is pressed `presses` times: the selected image
before each press. -/
def SingleProductPage.shownWhilePressingNext (imageUrls : List String)
    (selectedImage : Option String) (presses : Nat) : List (Option String) :=
  (List.range presses).map (fun k => (SingleProductPage.nextImage imageUrls)^[k] selectedImage)

/-! ## Checkout: `CheckoutPage.js` -/

/-- What the checkout handler gets from outside the component: the generated order id, the
clock, the gateway, the e-mail service, and `String(v)` for a value that is not a string
(the text a template literal gives for it, for a number such as `1e21` the text "1e+21"). -/
structure CheckoutEnv where
  generateOrderId : String
  now : Nat
  gateway : GatewayEnv
  emailSend : String → String → Obj → String → Except Err Unit
  stringOf : JSValue → String

/-- A value inside a template literal: a string is itself. -/
def templateText (env : CheckoutEnv) : JSValue → String
  | .str s => s
  | v => env.stringOf v

/-- The object `orderData` of `onSubmit`. -/
def orderData (env : CheckoutEnv) (cart : List CartItem) (total : JSNumber) (data : Obj) : Obj :=
  ((((data.set "id" (.str env.generateOrderId)).set "items" (.items cart)).set "total"
    (.num total)).set "createdAt" (.date env.now)).set "status" (.str "pending")

/-- The object `templateParams` of `onSubmit`. The quantity of a cart line is a number
inside a template literal, so it is rendered by `String(v)`. -/
def templateParams (env : CheckoutEnv) (cart : List CartItem) (total : JSNumber) (data : Obj) :
    Obj :=
  ⟨[("to_name", data.get "fullName"),
    ("to_email", data.get "email"),
    ("to_shop", .str "capturerings653@gmail.com"),
    ("from_name", .str "Capture Shop"),
    ("order_id", .str env.generateOrderId),
    ("order_details",
      .str (", ".intercalate
        (cart.map (fun item =>
          item.name ++ " (" ++ templateText env (.num item.quantity) ++ ")")))),
    ("total_amount", .num total),
    ("shipping_address",
      .str (templateText env (data.get "address") ++ ", " ++ templateText env (data.get "city")
        ++ ", " ++ templateText env (data.get "postalCode") ++ ", "
        ++ templateText env (data.get "country")))]⟩

/-- The body of the `try` block of `onSubmit`. -/
def CheckoutPage.tryBlock (env : CheckoutEnv) (cart : List CartItem) (total : JSNumber)
    (data : Obj) : Run :=
  let order := orderData env cart total data
  let params := templateParams env cart total data
  (Run.mk (env.gateway.setDoc "orders" env.generateOrderId order)
      [.setDoc "orders" env.generateOrderId order]).andThen
    ((Run.mk (env.emailSend "service_ofg7xdi" "template_xnlq0us" params "6bpGDIQwa7yR3Jokb")
        [.emailSend "service_ofg7xdi" "template_xnlq0us" params "6bpGDIQwa7yR3Jokb"]).andThen
      (Run.emit
        [.clearCart,
         .setTimeout [.setLoading false, .setShowSnackbar true, .navigate "/shop"] 3000,
         .alert "Order placed successfully! Check your email for confirmation."]))

/-- The handler `CheckoutPage.onSubmit`, for the cart of the render and
`total = calculateTotal()`: `setLoading(true)`, the `try` block, and the `catch` that logs
and alerts. -/
def CheckoutPage.onSubmit (env : CheckoutEnv) (calculateTotal : List CartItem → JSNumber)
    (cart : List CartItem) (data : Obj) : Run :=
  let body := CheckoutPage.tryBlock env cart (calculateTotal cart) data
  match body.result with
  | .ok _ => ⟨.ok (), [.setLoading true] ++ body.trace⟩
  | .error e =>
    ⟨.ok (), [.setLoading true] ++ body.trace
      ++ [.consoleError e,
          .alert "There was an error processing your order. Please try again."]⟩

/-- The outcome of the order persistence of a submit. -/
def CheckoutPage.persisted (env : CheckoutEnv) (calculateTotal : List CartItem → JSNumber)
    (cart : List CartItem) (data : Obj) : Except Err Unit :=
  env.gateway.setDoc "orders" env.generateOrderId
    (orderData env cart (calculateTotal cart) data)

/-- The outcome of the notification of a submit. -/
def CheckoutPage.notified (env : CheckoutEnv) (calculateTotal : List CartItem → JSNumber)
    (cart : List CartItem) (data : Obj) : Except Err Unit :=
  env.emailSend "service_ofg7xdi" "template_xnlq0us"
    (templateParams env cart (calculateTotal cart) data) "6bpGDIQwa7yR3Jokb"

/-- The effect `setDoc(doc(db, 'orders', orderId), orderData)` of a submit. -/
def CheckoutPage.persistEffect (env : CheckoutEnv) (calculateTotal : List CartItem → JSNumber)
    (cart : List CartItem) (data : Obj) : Effect :=
  .setDoc "orders" env.generateOrderId (orderData env cart (calculateTotal cart) data)

/-- The effect `emailjs.send(...)` of a submit. -/
def CheckoutPage.notifyEffect (env : CheckoutEnv) (calculateTotal : List CartItem → JSNumber)
    (cart : List CartItem) (data : Obj) : Effect :=
  .emailSend "service_ofg7xdi" "template_xnlq0us"
    (templateParams env cart (calculateTotal cart) data) "6bpGDIQwa7yR3Jokb"

/-- The timer of the success path: after 3000 ms, leave the loading state, show the
snackbar and navigate to the shop. -/
def CheckoutPage.scheduledNavigation : Effect :=
  .setTimeout [.setLoading false, .setShowSnackbar true, .navigate "/shop"] 3000

/-- The alert of the `catch` block. -/
def CheckoutPage.errorAlert : Effect :=
  .alert "There was an error processing your order. Please try again."

/-- The alert of the success path. -/
def CheckoutPage.successAlert : Effect :=
  .alert "Order placed successfully! Check your email for confirmation."

/-- The cart after a trace: emptied by `clearCart`, else as it was. -/
def cartAfter (cart : List CartItem) (tr : List Effect) : List CartItem :=
  if Effect.clearCart ∈ tr then [] else cart

/-- The schema `schema` of the checkout page. -/
def CheckoutPage.schema : List (String × FieldSchema) :=
  [("fullName", .string none (some "Full name is required")),
   ("email", .string (some "Invalid email") (some "Email is required")),
   ("address", .string none (some "Address is required")),
   ("city", .string none (some "City is required")),
   ("postalCode", .string none (some "Postal code is required")),
   ("country", .string none (some "Country is required")),
   ("paymentMethod", .string none (some "Payment method is required")),
   ("cardNumber", .string none (some "Card number is required")),
   ("expiryDate", .string none (some "Expiry date is required")),
   ("cvv", .string none (some "CVV is required")),
   ("shippingMethod", .string none (some "Shipping method is required"))]

/-- The submit of the checkout form: `handleSubmit(onSubmit)` with the schema resolver. -/
def CheckoutPage.submitForm (c : Coercions) (env : CheckoutEnv)
    (calculateTotal : List CartItem → JSNumber) (cart : List CartItem) (values : Obj) : Run :=
  formHandleSubmit (yupResolver c CheckoutPage.schema)
    (CheckoutPage.onSubmit env calculateTotal cart) values

/-- The template parameters of the e-mails sent in a trace, in call order. -/
def emailsSent (tr : List Effect) : List Obj :=
  tr.filterMap (fun e => match e with
    | .emailSend _ _ params _ => some params
    | _ => none)

/-- State of the `CheckoutPage` component. -/
structure CheckoutState where
  loading : Bool
  showSnackbar : Bool

/-- The initial state of the `CheckoutPage` component. -/
def CheckoutState.initial : CheckoutState where
  loading := false
  showSnackbar := false

/-- The next render of the checkout page: the setters of a trace applied to its state. A
timer only gets scheduled; its callback runs when it fires. -/
def CheckoutState.apply (st : CheckoutState) : Effect → CheckoutState
  | .setLoading b => { st with loading := b }
  | .setShowSnackbar b => { st with showSnackbar := b }
  | _ => st

/-- The checkout state after a trace. -/
def CheckoutState.applyEffects (st : CheckoutState) (tr : List Effect) : CheckoutState :=
  tr.foldl CheckoutState.apply st

/-- One action of a timer callback applied to the checkout state. -/
def CheckoutState.applyTimerAction (st : CheckoutState) : TimerAction → CheckoutState
  | .setLoading b => { st with loading := b }
  | .setShowSnackbar b => { st with showSnackbar := b }
  | .navigate _ => st

/-- The callbacks of the timers scheduled in a trace, in scheduling order. -/
def scheduledCallbacks (tr : List Effect) : List TimerAction :=
  tr.flatMap (fun e => match e with
    | .setTimeout callback _ => callback
    | _ => [])

/-- The checkout state once the handler has settled and every timer it scheduled has
fired. -/
def CheckoutState.afterTimers (st : CheckoutState) (tr : List Effect) : CheckoutState :=
  (scheduledCallbacks tr).foldl CheckoutState.applyTimerAction (st.applyEffects tr)

/-! ## Sample inputs -/

/-- A storage in which every call succeeds; the download URL of a path is the path behind
a fixed prefix. -/
def reliableStorage : StorageEnv where
  uploadBytesResumable := fun _ _ _ => .ok ()
  getDownloadURL := fun _ path => .ok ("https://cdn.test/" ++ path)
  uploadBytes := fun _ _ => .ok ()
  deleteObject := fun _ => .ok ()

/-- A storage that rejects every delete. -/
def readOnlyStorage : StorageEnv where
  uploadBytesResumable := fun _ _ _ => .ok ()
  getDownloadURL := fun _ path => .ok ("https://cdn.test/" ++ path)
  uploadBytes := fun _ _ => .ok ()
  deleteObject := fun _ => .error "storage/unauthorized"

/-- A storage whose second upload task of a submit reports an error. -/
def flakyStorage : StorageEnv where
  uploadBytesResumable := fun i _ _ => if i = 1 then .error "storage/canceled" else .ok ()
  getDownloadURL := fun _ path => .ok ("https://cdn.test/" ++ path)
  uploadBytes := fun _ _ => .ok ()
  deleteObject := fun _ => .ok ()

/-- A gateway in which every call succeeds and the collections are empty. -/
def reliableGateway : GatewayEnv where
  updateDoc := fun _ _ _ => .ok ()
  addDoc := fun _ _ => .ok "generated-key"
  setDoc := fun _ _ _ => .ok ()
  getDocs := fun _ => .ok []
  getDoc := fun _ _ => .ok none
  deleteDoc := fun _ _ => .ok ()

/-- The values of `parseFloat` on the sample inputs: the empty text is `NaN`. -/
def sampleParseFloat : JSValue → JSNumber
  | .num n => n
  | .str s => if s = "100" then .num 100 else .nan
  | _ => .nan

/-- A product modal showing a gallery of two images, no file selected. -/
def ringModal : ProductModalState where
  name := .str "Ring A"
  price := .str "100"
  description := .str "A ring"
  imageFiles := []
  imageUrls := ["https://cdn.test/productImages/a.png", "https://cdn.test/productImages/b.png"]
  uploading := false

/-- A gateway that rejects every update of a document. -/
def lockedGateway : GatewayEnv where
  updateDoc := fun _ _ _ => .error "permission-denied"
  addDoc := fun _ _ => .ok "generated-key"
  setDoc := fun _ _ _ => .ok ()
  getDocs := fun _ => .ok []
  getDoc := fun _ _ => .ok none
  deleteDoc := fun _ _ => .ok ()

/-- The product screen with the modal open in create mode. -/
def createScreen : ProductManagementState where
  products := []
  isModalOpen := true
  editProduct := none

/-- The product screen with the modal open on the record `p1`. -/
def editScreen : ProductManagementState where
  products := []
  isModalOpen := true
  editProduct := some ⟨[("name", .str "Ring A"), ("id", .str "p1")]⟩

/-- The text `String(v)` on the numbers of the sample carts. -/
def sampleStringOf : JSValue → String
  | .num (.num x) =>
    if x = 2 then "2" else if x = 1000000000000000000000 then "1e+21" else ""
  | _ => ""

/-- An e-mail service and gateway that accept everything. -/
def reliableCheckout : CheckoutEnv where
  generateOrderId := "ORD-1"
  now := 0
  gateway := reliableGateway
  emailSend := fun _ _ _ _ => .ok ()
  stringOf := sampleStringOf

/-- A checkout environment whose e-mail service rejects the notification. -/
def mailDown : CheckoutEnv where
  generateOrderId := "ORD-2"
  now := 0
  gateway := reliableGateway
  emailSend := fun _ _ _ _ => .error "The user ID is invalid"
  stringOf := sampleStringOf

/-- A checkout environment whose gateway rejects the order. -/
def gatewayDown : CheckoutEnv where
  generateOrderId := "ORD-3"
  now := 0
  gateway := { reliableGateway with setDoc := fun _ _ _ => .error "unavailable" }
  emailSend := fun _ _ _ _ => .ok ()
  stringOf := sampleStringOf

/-- The cart of the example scenario: two units of "Ring A" at 100. -/
def ringCart : List CartItem :=
  [{ id := "p1", name := "Ring A", price := .num 100, quantity := .num 2 }]

/-- A cart with a line whose quantity is `1e21`. -/
def bulkCart : List CartItem :=
  [{ id := "p1", name := "Ring A", price := .num 100, quantity := .num 2 },
   { id := "p9", name := "Big", price := .num 1, quantity := .num 1000000000000000000000 }]

/-- The total of the sample cart. -/
def ringTotal : List CartItem → JSNumber :=
  fun _ => .num 200

/-- The total of the cart `bulkCart`. -/
def bulkTotal : List CartItem → JSNumber :=
  fun _ => .num 1000000000000000000200

/-- A filled checkout form. -/
def ringOrderForm : Obj :=
  ⟨[("fullName", .str "Ada"), ("email", .str "ada@example.org"), ("address", .str "1 Main St"),
    ("city", .str "Paris"), ("postalCode", .str "75001"), ("country", .str "FR"),
    ("paymentMethod", .str "credit"), ("cardNumber", .str "4111"), ("expiryDate", .str "12/30"),
    ("cvv", .str "123"), ("shippingMethod", .str "standard")]⟩

/-- The package screen with the modal open on the record `pkg1`, no file selected. -/
def editPackageScreen : PackagesState where
  packages := []
  teams := []
  isModalOpen := true
  editId := .str "pkg1"
  imageFile := none
  imageUrl := .str "https://cdn.test/packages/gold.png"

/-- The package screen with the modal open in create mode, no file selected. -/
def createPackageScreen : PackagesState where
  packages := []
  teams := []
  isModalOpen := true
  editId := .null
  imageFile := none
  imageUrl := .null

/-- The validated data of the example scenario. -/
def goldPackage : Obj :=
  ⟨[("title", .str "Gold Package"), ("description", .str "All day"), ("price", .num (.num 500)),
    ("team", .str "Team A"), ("duration", .num (.num 2))]⟩

/-- The numeric reading of the sample texts; any other text, the empty one included, is
`NaN`. The e-mail pattern is given on the sample texts only. -/
def sampleCoercions : Coercions where
  toNumber := fun s => if s = "500" then .num 500 else if s = "2" then .num 2 else .nan
  stringOf := fun _ => "[object]"
  isEmail := fun s => s == "ada@example.org"

/-- The package form of the example scenario as typed, with the title left empty. -/
def untitledPackageForm : Obj :=
  ⟨[("title", .str ""), ("description", .str "All day"), ("price", .str "500"),
    ("team", .str "Team A"), ("duration", .str "2")]⟩

/-- A product modal in which name and price were left empty. -/
def blankModal : ProductModalState where
  name := .str ""
  price := .str ""
  description := .str ""
  imageFiles := []
  imageUrls := []
  uploading := false

/-- The product screen with two records in memory and the modal closed. -/
def twoProductsScreen : ProductManagementState where
  products :=
    [⟨[("name", .str "Ring A"), ("id", .str "p1")]⟩, ⟨[("name", .str "Ring B"), ("id", .str "p2")]⟩]
  isModalOpen := false
  editProduct := none

/-- A gateway whose `products` collection holds a record added by another session. -/
def sharedGateway : GatewayEnv where
  updateDoc := fun _ _ _ => .ok ()
  addDoc := fun _ _ => .ok "generated-key"
  setDoc := fun _ _ _ => .ok ()
  getDocs := fun _ => .ok [⟨"p2", ⟨[("name", .str "Ring B")]⟩⟩, ⟨"p3", ⟨[("name", .str "Ring C")]⟩⟩]
  getDoc := fun _ _ => .ok none
  deleteDoc := fun _ _ => .ok ()

/-- A package document whose data holds a field named `id`. -/
def legacyPackageDoc : DocSnapshot where
  id := "k1"
  data := ⟨[("title", .str "Gold Package"), ("id", .str "legacy-7")]⟩

/-- A gateway whose collections hold the one document `legacyPackageDoc`. -/
def legacyGateway : GatewayEnv where
  updateDoc := fun _ _ _ => .ok ()
  addDoc := fun _ _ => .ok "generated-key"
  setDoc := fun _ _ _ => .ok ()
  getDocs := fun _ => .ok [legacyPackageDoc]
  getDoc := fun _ _ => .ok none
  deleteDoc := fun _ _ => .ok ()

/-- A storage that takes the upload but rejects the resolution of the download URL. -/
def urlDownStorage : StorageEnv where
  uploadBytesResumable := fun _ _ _ => .ok ()
  getDownloadURL := fun _ _ => .error "storage/retry-limit-exceeded"
  uploadBytes := fun _ _ => .ok ()
  deleteObject := fun _ => .ok ()

/-- A selected image file. -/
def goldPhoto : File := ⟨"gold.png"⟩

/-- The create form is opened, `gold.png` is selected, its preview read completes, and the
selection is then emptied (the file dialog is opened again and dismissed). -/
def clearedSelection : List PackagesEvent :=
  [.openModal none, .imageChange (some goldPhoto),
    .previewLoaded goldPhoto "data:image/png;base64,iVBORw0KGgo=", .imageChange none]

/-- The create form is opened, `gold.png` is selected, the modal is closed and the create
form opened again before the preview read completes. -/
def reopenedBeforePreview : List PackagesEvent :=
  [.openModal none, .imageChange (some goldPhoto), .closeModal, .openModal none,
    .previewLoaded goldPhoto "data:image/png;base64,iVBORw0KGgo="]

/-- A stored package record with an image reference. -/
def goldRecord : Obj :=
  ⟨[("title", .str "Gold Package"), ("description", .str "All day"), ("price", .num (.num 500)),
    ("team", .str "Team A"), ("duration", .num (.num 2)),
    ("imageUrl", .str "https://cdn.test/packages/gold.png"), ("id", .str "pkg1")]⟩

/-- An identity as the provider reports it. -/
def adaIdentity : Obj :=
  ⟨[("uid", .str "u1"), ("email", .str "ada@example.org"), ("displayName", .null)]⟩

/-- A gateway holding a profile for every user, with its own `email` and a `role`. -/
def profileGateway : GatewayEnv where
  updateDoc := fun _ _ _ => .ok ()
  addDoc := fun _ _ => .ok "generated-key"
  setDoc := fun _ _ _ => .ok ()
  getDocs := fun _ => .ok []
  getDoc := fun _ _ => .ok (some ⟨[("email", .str "ada@shop.test"), ("role", .str "admin")]⟩)
  deleteDoc := fun _ _ => .ok ()

/-- The stored product `p1`, with a gallery of two images. -/
def ringDoc : DocSnapshot where
  id := "p1"
  data := ⟨[("name", .str "Ring A"), ("price", .num (.num 100)),
    ("imageUrls", .strs ["https://cdn.test/productImages/a.png",
      "https://cdn.test/productImages/b.png"])]⟩

/-- A gateway whose profile lookup throws. -/
def profileDownGateway : GatewayEnv where
  updateDoc := fun _ _ _ => .ok ()
  addDoc := fun _ _ => .ok "generated-key"
  setDoc := fun _ _ _ => .ok ()
  getDocs := fun _ => .ok []
  getDoc := fun _ _ => .error "unavailable"
  deleteDoc := fun _ _ => .ok ()

/-- The checkout form filled for PayPal: the card inputs are not shown and their fields are
absent. -/
def paypalOrderForm : Obj :=
  ⟨[("fullName", .str "Ada"), ("email", .str "ada@example.org"), ("address", .str "1 Main St"),
    ("city", .str "Paris"), ("postalCode", .str "75001"), ("country", .str "FR"),
    ("paymentMethod", .str "paypal"), ("shippingMethod", .str "standard")]⟩

/-- A gallery of three images. -/
def ringGallery : List String :=
  ["a.png", "b.png", "c.png"]

/-! ## Objects: lemmas -/

theorem lookup_setField_self (k : String) (v : JSValue) (l : List (String × JSValue)) :
    (setField k v l).lookup k = some v := by
  induction l with
  | nil => simp [setField, List.lookup]
  | cons hd tl ih =>
    obtain ⟨k', v'⟩ := hd
    by_cases h : k' = k
    · simp [setField, h, List.lookup]
    · have hne : (k == k') = false := by
        simpa using fun heq : k = k' => h heq.symm
      simp [setField, h, List.lookup, hne, ih]

theorem lookup_setField_ne (k k' : String) (v : JSValue) (l : List (String × JSValue))
    (h : k' ≠ k) : (setField k v l).lookup k' = l.lookup k' := by
  induction l with
  | nil =>
    have hne : (k' == k) = false := by simpa using h
    simp [setField, List.lookup, hne]
  | cons hd tl ih =>
    obtain ⟨k'', v''⟩ := hd
    by_cases h2 : k'' = k
    · subst h2
      have hne : (k' == k'') = false := by simpa using h
      simp [setField, List.lookup, hne]
    · by_cases h3 : k' = k''
      · subst h3
        simp [setField, h2, List.lookup]
      · have hne : (k' == k'') = false := by simpa using h3
        simp [setField, h2, List.lookup, hne, ih]

/-- Reading the key just written gives the written value, whatever the object held. -/
theorem Obj.get_set_self (o : Obj) (k : String) (v : JSValue) : (o.set k v).get k = v := by
  simp [Obj.get, Obj.set, lookup_setField_self]

/-- Writing a key leaves the other keys as they were. -/
theorem Obj.get_set_ne (o : Obj) (k k' : String) (v : JSValue) (h : k' ≠ k) :
    (o.set k v).get k' = o.get k' := by
  simp [Obj.get, Obj.set, lookup_setField_ne k k' v o.fields h]

theorem foldl_set_get_of_not_mem (l : List (String × JSValue)) :
    ∀ (t : Obj) (k : String), k ∉ l.map Prod.fst →
      (l.foldl (fun o kv => o.set kv.1 kv.2) t).get k = t.get k := by
  induction l with
  | nil => intro t k _; rfl
  | cons hd tl ih =>
    intro t k hk
    simp only [List.map_cons, List.mem_cons, not_or] at hk
    rw [List.foldl_cons, ih (t.set hd.1 hd.2) k hk.2, Obj.get_set_ne t hd.1 k hd.2 hk.1]

theorem foldl_set_get_of_mem (l : List (String × JSValue)) :
    ∀ (t : Obj) (k : String), (l.map Prod.fst).Nodup → k ∈ l.map Prod.fst →
      (l.foldl (fun o kv => o.set kv.1 kv.2) t).get k = (Obj.mk l).get k := by
  induction l with
  | nil => intro t k _ hk; simp at hk
  | cons hd tl ih =>
    intro t k hnd hk
    obtain ⟨k0, v0⟩ := hd
    simp only [List.map_cons, List.nodup_cons] at hnd
    by_cases hkk : k = k0
    · subst hkk
      rw [List.foldl_cons, foldl_set_get_of_not_mem tl _ k hnd.1, Obj.get_set_self]
      simp [Obj.get, List.lookup]
    · have hmem : k ∈ tl.map Prod.fst := by
        simp only [List.map_cons, List.mem_cons] at hk
        exact hk.resolve_left hkk
      have hne : (k == k0) = false := by simpa using hkk
      rw [List.foldl_cons, ih (t.set k0 v0) k hnd.2 hmem]
      simp [Obj.get, List.lookup, hne]

/-- In `{ ...target, ...source }` a key of `source` carries the value of `source`. -/
theorem Obj.assign_get_of_mem (target source : Obj) (k : String)
    (hnd : source.keys.Nodup) (hk : k ∈ source.keys) :
    (Obj.assign target source).get k = source.get k :=
  foldl_set_get_of_mem source.fields target k hnd hk

/-- In `{ ...target, ...source }` a key absent from `source` carries the value of
`target`. -/
theorem Obj.assign_get_of_not_mem (target source : Obj) (k : String)
    (hk : k ∉ source.keys) :
    (Obj.assign target source).get k = target.get k :=
  foldl_set_get_of_not_mem source.fields target k hk

/-! ## Product screen: lemmas -/

theorem onSaveCalls_append (a b : List Effect) :
    onSaveCalls (a ++ b) = onSaveCalls a ++ onSaveCalls b := by
  simp [onSaveCalls, List.filterMap_append]

theorem uploadsStarted_append (a b : List Effect) :
    uploadsStarted (a ++ b) = uploadsStarted a ++ uploadsStarted b := by
  simp [uploadsStarted, List.filterMap_append]

theorem gatewayWrites_append (a b : List Effect) :
    gatewayWrites (a ++ b) = gatewayWrites a ++ gatewayWrites b := by
  simp [gatewayWrites, List.filter_append]

theorem uploadImages_taskError (env : StorageEnv) (i : Nat) (f : File) (rest : List File)
    (acc : List String) (e : Err)
    (h : env.uploadBytesResumable i ("productImages/" ++ f.name) f = .error e) :
    uploadImages env i (f :: rest) acc
      = (.error e, [.uploadBytesResumable ("productImages/" ++ f.name) f, .consoleError e,
          .setUploading false]) := by
  simp [uploadImages, h]

theorem uploadImages_urlError (env : StorageEnv) (i : Nat) (f : File) (rest : List File)
    (acc : List String) (e : Err)
    (h : env.uploadBytesResumable i ("productImages/" ++ f.name) f = .ok ())
    (h' : env.getDownloadURL i ("productImages/" ++ f.name) = .error e) :
    uploadImages env i (f :: rest) acc
      = (.error e, [.uploadBytesResumable ("productImages/" ++ f.name) f,
          .getDownloadURL ("productImages/" ++ f.name), .consoleError e]) := by
  simp [uploadImages, h, h']

theorem uploadImages_step (env : StorageEnv) (i : Nat) (f : File) (rest : List File)
    (acc : List String) (u : String)
    (h : env.uploadBytesResumable i ("productImages/" ++ f.name) f = .ok ())
    (h' : env.getDownloadURL i ("productImages/" ++ f.name) = .ok u) :
    uploadImages env i (f :: rest) acc
      = ((uploadImages env (i + 1) rest (acc ++ [u])).1,
          [.uploadBytesResumable ("productImages/" ++ f.name) f,
            .getDownloadURL ("productImages/" ++ f.name)]
            ++ (uploadImages env (i + 1) rest (acc ++ [u])).2) := by
  simp [uploadImages, h, h']

/-- The upload loop never calls `onSave` and never writes to the gateway. -/
theorem uploadImages_no_save (env : StorageEnv) (files : List File) :
    ∀ (i : Nat) (acc : List String),
      onSaveCalls (uploadImages env i files acc).2 = [] ∧
      gatewayWrites (uploadImages env i files acc).2 = [] := by
  induction files with
  | nil => intro i acc; simp [uploadImages, onSaveCalls, gatewayWrites]
  | cons f rest ih =>
    intro i acc
    cases hu : env.uploadBytesResumable i ("productImages/" ++ f.name) f with
    | error e =>
      rw [uploadImages_taskError env i f rest acc e hu]
      simp [onSaveCalls, gatewayWrites, Effect.isGatewayWrite]
    | ok _ =>
      cases hd : env.getDownloadURL i ("productImages/" ++ f.name) with
      | error e =>
        rw [uploadImages_urlError env i f rest acc e hu hd]
        simp [onSaveCalls, gatewayWrites, Effect.isGatewayWrite]
      | ok u =>
        have h := ih (i + 1) (acc ++ [u])
        rw [uploadImages_step env i f rest acc u hu hd]
        simp only [onSaveCalls_append, gatewayWrites_append, h.1, h.2]
        simp [onSaveCalls, gatewayWrites, Effect.isGatewayWrite]

/-- When every upload of the loop succeeds, the loop returns the accumulated list followed
by the download URLs, and has started one upload per file, in order. -/
theorem uploadImages_ok (env : StorageEnv) (files : List File) :
    ∀ (i : Nat) (acc urls : List String),
      urls.length = files.length →
      (∀ j f, files[j]? = some f →
        env.uploadBytesResumable (i + j) ("productImages/" ++ f.name) f = .ok ()) →
      (∀ j f u, files[j]? = some f → urls[j]? = some u →
        env.getDownloadURL (i + j) ("productImages/" ++ f.name) = .ok u) →
      (uploadImages env i files acc).1 = .ok (acc ++ urls) ∧
      uploadsStarted (uploadImages env i files acc).2
        = files.map (fun f => "productImages/" ++ f.name) := by
  induction files with
  | nil =>
    intro i acc urls hlen _ _
    have : urls = [] := List.length_eq_zero.mp (by simpa using hlen)
    subst this
    simp [uploadImages, uploadsStarted]
  | cons f rest ih =>
    intro i acc urls hlen hup hurl
    cases urls with
    | nil => simp at hlen
    | cons u us =>
      have hu := hup 0 f (by simp)
      have hd := hurl 0 f u (by simp) (by simp)
      simp only [Nat.add_zero] at hu hd
      have hrest := ih (i + 1) (acc ++ [u]) us (by simpa using hlen)
        (fun j g hg => by
          have := hup (j + 1) g (by simpa using hg)
          simpa [Nat.add_assoc, Nat.add_comm 1 j] using this)
        (fun j g v hg hv => by
          have := hurl (j + 1) g v (by simpa using hg) (by simpa using hv)
          simpa [Nat.add_assoc, Nat.add_comm 1 j] using this)
      rw [uploadImages_step env i f rest acc u hu hd]
      simp only [uploadsStarted_append, hrest.1, hrest.2]
      simp [uploadsStarted]

theorem Run.emit_andThen (a : List Effect) (k : Run) :
    (Run.emit a).andThen k = ⟨k.result, a ++ k.trace⟩ := by
  simp [Run.emit, Run.andThen]

/-- The upload phase never calls `onSave` and never writes to the gateway. -/
theorem uploadPhase_no_save (env : StorageEnv) (s : ProductModalState) :
    onSaveCalls (uploadPhase env s).2 = [] ∧ gatewayWrites (uploadPhase env s).2 = [] := by
  have h := uploadImages_no_save env s.imageFiles 0 s.imageUrls
  unfold uploadPhase
  split
  · split
    · next e tr heq =>
      rw [heq] at h
      simp only [onSaveCalls_append, gatewayWrites_append, h.1, h.2]
      simp [onSaveCalls, gatewayWrites, Effect.isGatewayWrite]
    · next l tr heq =>
      rw [heq] at h
      simp only [onSaveCalls_append, gatewayWrites_append, h.1, h.2]
      simp [onSaveCalls, gatewayWrites, Effect.isGatewayWrite]
  · simp [onSaveCalls, gatewayWrites]

/-- When every upload succeeds, the upload phase returns the gallery followed by the
download URLs and has started one upload per selected file, in order. -/
theorem uploadPhase_ok (env : StorageEnv) (s : ProductModalState) (urls : List String)
    (hlen : urls.length = s.imageFiles.length)
    (hup : ∀ i f, s.imageFiles[i]? = some f →
      env.uploadBytesResumable i ("productImages/" ++ f.name) f = .ok ())
    (hurl : ∀ i f u, s.imageFiles[i]? = some f → urls[i]? = some u →
      env.getDownloadURL i ("productImages/" ++ f.name) = .ok u) :
    (uploadPhase env s).1 = .ok (s.imageUrls ++ urls) ∧
    uploadsStarted (uploadPhase env s).2
      = s.imageFiles.map (fun f => "productImages/" ++ f.name) := by
  have h := uploadImages_ok env s.imageFiles 0 s.imageUrls urls hlen
    (fun j f hf => by simpa using hup j f hf)
    (fun j f u hf hu => by simpa using hurl j f u hf hu)
  unfold uploadPhase
  split
  · split
    · next e tr heq => rw [heq] at h; simp at h
    · next l tr heq =>
      rw [heq] at h
      simp only [uploadsStarted_append, h.2]
      simp only [Except.ok.injEq] at h
      simp [uploadsStarted, h.1]
  · next hno =>
    have hnil : s.imageFiles = [] := by
      cases hf : s.imageFiles with
      | nil => rfl
      | cons a l => simp [hf] at hno
    have : urls = [] := List.length_eq_zero.mp (by simpa [hnil] using hlen)
    simp [hnil, this, uploadsStarted]

theorem handleSubmit_of_upload_ok (parseFloat : JSValue → JSNumber) (env : StorageEnv)
    (onSave : Obj → Run) (onClose : List Effect) (s : ProductModalState)
    (l : List String) (h : (uploadPhase env s).1 = .ok l) :
    ProductModal.handleSubmit parseFloat env onSave onClose s
      = ⟨((onSave (productData parseFloat s l)).andThen (Run.emit onClose)).result,
          [.preventDefault] ++ (uploadPhase env s).2 ++ [.onSave (productData parseFloat s l)]
            ++ ((onSave (productData parseFloat s l)).andThen (Run.emit onClose)).trace⟩ := by
  unfold ProductModal.handleSubmit
  cases hp : uploadPhase env s with
  | mk r tr =>
    rw [hp] at h
    simp only at h
    subst h
    simp [Run.emit_andThen]

theorem handleSubmit_of_upload_error (parseFloat : JSValue → JSNumber) (env : StorageEnv)
    (onSave : Obj → Run) (onClose : List Effect) (s : ProductModalState)
    (e : Err) (h : (uploadPhase env s).1 = .error e) :
    ProductModal.handleSubmit parseFloat env onSave onClose s
      = ⟨.error e, [.preventDefault] ++ (uploadPhase env s).2⟩ := by
  unfold ProductModal.handleSubmit
  cases hp : uploadPhase env s with
  | mk r tr =>
    rw [hp] at h
    simp only at h
    subst h
    simp

/-- The gallery after `handleRemoveImage`: filtered when the storage delete resolved,
unchanged when it rejected. -/
theorem handleRemoveImage_imageUrls (env : StorageEnv) (s : ProductModalState) (url : String) :
    (s.applyEffects (ProductModal.handleRemoveImage env s url).trace).imageUrls
      = match env.deleteObject url with
        | .ok _ => s.imageUrls.filter (fun imageUrl => imageUrl != url)
        | .error _ => s.imageUrls := by
  unfold ProductModal.handleRemoveImage
  cases env.deleteObject url <;>
    simp [ProductModalState.applyEffects, ProductModalState.apply]

theorem handleRemoveImage_imageFiles (env : StorageEnv) (s : ProductModalState) (url : String) :
    (s.applyEffects (ProductModal.handleRemoveImage env s url).trace).imageFiles
      = s.imageFiles := by
  unfold ProductModal.handleRemoveImage
  cases env.deleteObject url <;>
    simp [ProductModalState.applyEffects, ProductModalState.apply]

/-- The setters of a removal applied to any later state: the gallery becomes that of the
render the handler closed over, filtered, when the storage delete resolved, and stays as it
is when the delete rejected; the selected files are not touched. -/
theorem handleRemoveImage_settled (env : StorageEnv) (st render : ProductModalState)
    (url : String) :
    (st.applyEffects (ProductModal.handleRemoveImage env render url).trace).imageUrls
      = (match env.deleteObject url with
        | .ok _ => render.imageUrls.filter (fun imageUrl => imageUrl != url)
        | .error _ => st.imageUrls) ∧
    (st.applyEffects (ProductModal.handleRemoveImage env render url).trace).imageFiles
      = st.imageFiles := by
  unfold ProductModal.handleRemoveImage
  cases env.deleteObject url <;>
    simp [ProductModalState.applyEffects, ProductModalState.apply]

theorem ProductModalSession.step_imageFiles (c : ProductModalSession)
    (e : ProductModalEvent) : (c.step e).modal.imageFiles = c.modal.imageFiles := by
  cases e with
  | removeClicked url =>
    simp only [ProductModalSession.step]
    split <;> rfl
  | deleteSettled k env =>
    simp only [ProductModalSession.step]
    split
    · exact (handleRemoveImage_settled env c.modal _ _).2
    · rfl

theorem ProductModalSession.run_imageFiles (events : List ProductModalEvent) :
    ∀ c : ProductModalSession, (c.run events).modal.imageFiles = c.modal.imageFiles := by
  induction events with
  | nil => intro c; rfl
  | cons e rest ih =>
    intro c
    have h := ih (c.step e)
    simp only [ProductModalSession.run, List.foldl_cons] at h ⊢
    rw [h, ProductModalSession.step_imageFiles]

/-- One event keeps a reference out: when neither the gallery nor the render of any removal
in flight shows it, the same holds after the event. -/
theorem ProductModalSession.step_excludes (c : ProductModalSession) (e : ProductModalEvent)
    (r : String) (hm : r ∉ c.modal.imageUrls)
    (hp : ∀ q ∈ c.pending, r ∉ q.render.imageUrls) :
    r ∉ (c.step e).modal.imageUrls ∧ ∀ q ∈ (c.step e).pending, r ∉ q.render.imageUrls := by
  cases e with
  | removeClicked url =>
    simp only [ProductModalSession.step]
    split
    · refine ⟨hm, ?_⟩
      intro q hq
      rcases List.mem_append.mp hq with hq | hq
      · exact hp q hq
      · simp only [List.mem_singleton] at hq
        subst hq
        exact hm
    · exact ⟨hm, hp⟩
  | deleteSettled k env =>
    simp only [ProductModalSession.step]
    split
    · next p hk =>
      have hpm : p ∈ c.pending := List.getElem?_mem hk
      refine ⟨?_, fun q hq => hp q (List.mem_of_mem_eraseIdx hq)⟩
      rw [(handleRemoveImage_settled env c.modal p.render p.url).1]
      cases env.deleteObject p.url with
      | error e => exact hm
      | ok _ =>
        intro hmem
        exact hp p hpm (List.mem_filter.mp hmem).1
    · exact ⟨hm, hp⟩

/-- A reference that neither the gallery nor the render of any removal in flight shows stays
out of the gallery, whatever removals are started and settled afterwards. -/
theorem ProductModalSession.run_excludes (events : List ProductModalEvent) :
    ∀ (c : ProductModalSession) (r : String), r ∉ c.modal.imageUrls →
      (∀ q ∈ c.pending, r ∉ q.render.imageUrls) → r ∉ (c.run events).modal.imageUrls := by
  induction events with
  | nil => intro c r hm _; exact hm
  | cons e rest ih =>
    intro c r hm hp
    have h := ProductModalSession.step_excludes c e r hm hp
    exact ih (c.step e) r h.1 h.2

/-- One removal made alone, pressed with nothing in flight and settled before anything else
happens: the handler runs on the current render, and nothing is left in flight. -/
theorem removeOneByOne_step (s : ProductModalState) (env : StorageEnv) (url : String) :
    ((ProductModalSession.mk s []).step (.removeClicked url)).step (.deleteSettled 0 env)
      = ⟨if url ∈ s.imageUrls then
            s.applyEffects (ProductModal.handleRemoveImage env s url).trace
          else s, []⟩ := by
  by_cases h : url ∈ s.imageUrls
  · simp [ProductModalSession.step, h]
  · simp [ProductModalSession.step, h]

theorem afterRemovals_cons (s : ProductModalState) (step : StorageEnv × String)
    (rest : List (StorageEnv × String)) :
    s.afterRemovals (step :: rest)
      = (if step.2 ∈ s.imageUrls then
            s.applyEffects (ProductModal.handleRemoveImage step.1 s step.2).trace
          else s).afterRemovals rest := by
  simp only [ProductModalState.afterRemovals, removeOneByOne, List.flatMap_cons,
    ProductModalSession.run, List.foldl_append, List.foldl_cons, List.foldl_nil]
  rw [removeOneByOne_step]

theorem afterRemovals_imageFiles (s : ProductModalState) (steps : List (StorageEnv × String)) :
    (s.afterRemovals steps).imageFiles = s.imageFiles :=
  ProductModalSession.run_imageFiles _ _

/-- Removals made one after the other only shrink the gallery: what is left was there
before and was not the target of any removal whose storage delete resolved. -/
theorem afterRemovals_mem (steps : List (StorageEnv × String)) :
    ∀ (s : ProductModalState) (x : String), x ∈ (s.afterRemovals steps).imageUrls →
      x ∈ s.imageUrls ∧
      ∀ step ∈ steps, ¬ (step.2 = x ∧ step.1.deleteObject x = .ok ()) := by
  induction steps with
  | nil => intro s x hx; exact ⟨hx, by simp⟩
  | cons step rest ih =>
    intro s x hx
    rw [afterRemovals_cons] at hx
    by_cases hin : step.2 ∈ s.imageUrls
    · rw [if_pos hin] at hx
      have h := ih _ x hx
      rw [handleRemoveImage_imageUrls] at h
      obtain ⟨hmem, hrest⟩ := h
      cases hd : step.1.deleteObject step.2 with
      | error e =>
        rw [hd] at hmem
        refine ⟨hmem, ?_⟩
        intro st hst
        rcases List.mem_cons.mp hst with rfl | hst
        · rintro ⟨rfl, hok⟩
          rw [hd] at hok
          cases hok
        · exact hrest st hst
      | ok _ =>
        rw [hd] at hmem
        simp only [List.mem_filter, bne_iff_ne, ne_eq] at hmem
        refine ⟨hmem.1, ?_⟩
        intro st hst
        rcases List.mem_cons.mp hst with rfl | hst
        · rintro ⟨heq, _⟩
          exact hmem.2 heq.symm
        · exact hrest st hst
    · rw [if_neg hin] at hx
      obtain ⟨hmem, hrest⟩ := ih s x hx
      refine ⟨hmem, ?_⟩
      intro st hst
      rcases List.mem_cons.mp hst with rfl | hst
      · rintro ⟨heq, _⟩
        exact hin (heq ▸ hmem)
      · exact hrest st hst

theorem fetchProducts_no_save (g : GatewayEnv) :
    onSaveCalls (fetchProducts g).trace = [] ∧ uploadsStarted (fetchProducts g).trace = [] ∧
    gatewayWrites (fetchProducts g).trace = [] := by
  unfold fetchProducts
  cases g.getDocs "products" <;>
    simp [onSaveCalls, uploadsStarted, gatewayWrites, Effect.isGatewayWrite]

theorem writeProduct_no_save (g : GatewayEnv) (p : Option Obj) (data : Obj) :
    onSaveCalls (writeProduct g p data).trace = [] ∧
    uploadsStarted (writeProduct g p data).trace = [] := by
  unfold writeProduct
  cases p <;> simp [onSaveCalls, uploadsStarted]

/-- The handler `handleAddEditProduct` unfolded: the write, then the two setters, then the
re-list; a failed write stops it. -/
theorem handleAddEditProduct_eq (g : GatewayEnv) (st : ProductManagementState) (data : Obj) :
    handleAddEditProduct g st data
      = match (writeProduct g st.editProduct data).result with
        | .error e => ⟨.error e, (writeProduct g st.editProduct data).trace⟩
        | .ok _ => ⟨(fetchProducts g).result,
            (writeProduct g st.editProduct data).trace
              ++ ([.setIsModalOpen false, .setEditProduct none] ++ (fetchProducts g).trace)⟩ := by
  simp [handleAddEditProduct, Run.andThen, Run.emit]

theorem handleAddEditProduct_no_save (g : GatewayEnv) (st : ProductManagementState)
    (data : Obj) :
    onSaveCalls (handleAddEditProduct g st data).trace = [] ∧
    uploadsStarted (handleAddEditProduct g st data).trace = [] := by
  rw [handleAddEditProduct_eq]
  have hw := writeProduct_no_save g st.editProduct data
  have hf := fetchProducts_no_save g
  cases (writeProduct g st.editProduct data).result with
  | error e => exact hw
  | ok _ =>
    simp only [onSaveCalls_append, uploadsStarted_append, hw.1, hw.2, hf.1, hf.2.1]
    simp [onSaveCalls, uploadsStarted]

/-! ## Product screen: claims -/

/-- C1: when all uploads of the selected files succeed, the first (and only) call of
`onSave` made by `ProductModal.handleSubmit` carries as `imageUrls` the current gallery,
unchanged and in order, followed by the download URLs of the new files in selection order,
one per file; a non-empty gallery keeps its first element. -/
theorem handleSubmit_appends_download_urls (parseFloat : JSValue → JSNumber)
    (env : StorageEnv) (onSave : Obj → Run) (onClose : List Effect) (s : ProductModalState)
    (urls : List String)
    (hlen : urls.length = s.imageFiles.length)
    (hup : ∀ i f, s.imageFiles[i]? = some f →
      env.uploadBytesResumable i ("productImages/" ++ f.name) f = .ok ())
    (hurl : ∀ i f u, s.imageFiles[i]? = some f → urls[i]? = some u →
      env.getDownloadURL i ("productImages/" ++ f.name) = .ok u) :
    (onSaveCalls (ProductModal.handleSubmit parseFloat env onSave onClose s).trace).head?
      = some (productData parseFloat s (s.imageUrls ++ urls)) ∧
    (productData parseFloat s (s.imageUrls ++ urls)).get "imageUrls"
      = .strs (s.imageUrls ++ urls) ∧
    (s.imageUrls ++ urls).take s.imageUrls.length = s.imageUrls ∧
    (s.imageUrls ++ urls).drop s.imageUrls.length = urls ∧
    (s.imageUrls ≠ [] → (s.imageUrls ++ urls).head? = s.imageUrls.head?) := by
  have hp := uploadPhase_ok env s urls hlen hup hurl
  refine ⟨?_, ?_, ?_, ?_, ?_⟩
  · rw [handleSubmit_of_upload_ok parseFloat env onSave onClose s _ hp.1]
    simp only [onSaveCalls_append, (uploadPhase_no_save env s).1]
    simp [onSaveCalls]
  · simp [productData, Obj.get, List.lookup]
  · simp
  · simp
  · intro hne
    cases h : s.imageUrls with
    | nil => exact absurd h hne
    | cons a l => simp

/-- The loop stops at the first failing file: it returns that error and has started the
uploads of the files up to and including the failing one, and no other. -/
theorem uploadImages_first_failure (env : StorageEnv) (files : List File) :
    ∀ (i : Nat) (acc : List String) (k : Nat) (f : File) (e : Err),
      files[k]? = some f →
      (∀ j g, j < k → files[j]? = some g →
        env.uploadBytesResumable (i + j) ("productImages/" ++ g.name) g = .ok () ∧
        ∃ u, env.getDownloadURL (i + j) ("productImages/" ++ g.name) = .ok u) →
      (env.uploadBytesResumable (i + k) ("productImages/" ++ f.name) f = .error e ∨
        (env.uploadBytesResumable (i + k) ("productImages/" ++ f.name) f = .ok () ∧
          env.getDownloadURL (i + k) ("productImages/" ++ f.name) = .error e)) →
      (uploadImages env i files acc).1 = .error e ∧
      uploadsStarted (uploadImages env i files acc).2
        = (files.take (k + 1)).map (fun f => "productImages/" ++ f.name) := by
  induction files with
  | nil => intro i acc k f e hk; simp at hk
  | cons g rest ih =>
    intro i acc k f e hk hbefore hfail
    cases k with
    | zero =>
      have hfg : g = f := by simpa using hk
      subst hfg
      simp only [Nat.add_zero] at hfail
      rcases hfail with h | ⟨h, h'⟩
      · rw [uploadImages_taskError env i g rest acc e h]
        simp [uploadsStarted]
      · rw [uploadImages_urlError env i g rest acc e h h']
        simp [uploadsStarted]
    | succ k =>
      obtain ⟨hu, u, hd⟩ := hbefore 0 g (Nat.succ_pos k) (by simp)
      simp only [Nat.add_zero] at hu hd
      have hrest := ih (i + 1) (acc ++ [u]) k f e (by simpa using hk)
        (fun j g' hj hg' => by
          have := hbefore (j + 1) g' (Nat.succ_lt_succ hj) (by simpa using hg')
          simpa [Nat.add_assoc, Nat.add_comm 1 j] using this)
        (by simpa [Nat.add_assoc, Nat.add_comm 1 k] using hfail)
      rw [uploadImages_step env i g rest acc u hu hd]
      simp only [uploadsStarted_append, hrest.1, hrest.2]
      simp [uploadsStarted]

/-- C1, witness: a gallery of two images and two selected files on the working storage. -/
theorem handleSubmit_appends_download_urls_witness :
    (onSaveCalls (ProductModal.handleSubmit sampleParseFloat reliableStorage
        (handleAddEditProduct reliableGateway createScreen) [.setIsModalOpen false]
        { ringModal with imageFiles := [⟨"c.png"⟩, ⟨"d.png"⟩] }).trace).head?
      = some (productData sampleParseFloat { ringModal with imageFiles := [⟨"c.png"⟩, ⟨"d.png"⟩] }
          (ringModal.imageUrls ++ ["https://cdn.test/productImages/c.png",
            "https://cdn.test/productImages/d.png"])) :=
  (handleSubmit_appends_download_urls sampleParseFloat reliableStorage
    (handleAddEditProduct reliableGateway createScreen) [.setIsModalOpen false]
    { ringModal with imageFiles := [⟨"c.png"⟩, ⟨"d.png"⟩] }
    ["https://cdn.test/productImages/c.png", "https://cdn.test/productImages/d.png"]
    rfl (fun _ _ _ => rfl)
    (fun i f u hf hu => by
      match i with
      | 0 =>
        simp only [List.getElem?_cons_zero, Option.some.injEq] at hf hu
        subst hf hu
        rfl
      | 1 =>
        simp only [List.getElem?_cons_succ, List.getElem?_cons_zero, Option.some.injEq] at hf hu
        subst hf hu
        rfl
      | n + 2 => simp at hf)).1

/-- C2 (amended): when the storage delete of a removal resolves, `handleRemoveImage` sets
the gallery to that of the render it was started in, without the reference. Provided no
other removal in flight was started in a render that still showed the reference, it stays
out of the gallery whatever removals are started and settled afterwards, and the list a
later submit passes to `onSave` is that gallery followed by the new download URLs, so it
contains the reference only if a newly uploaded file resolves to it. When the storage
delete rejects, the handler still settles without error but leaves the gallery as it was. -/
theorem removed_image_not_resubmitted (parseFloat : JSValue → JSNumber)
    (env env' : StorageEnv) (onSave : Obj → Run) (onClose : List Effect)
    (c : ProductModalSession) (k : Nat) (p : PendingRemoval)
    (later : List ProductModalEvent) (s2 : ProductModalState) (urls : List String)
    (hp : c.pending[k]? = some p) :
    (env.deleteObject p.url = .ok () →
      (ProductModal.handleRemoveImage env p.render p.url).trace
        = [.deleteObject p.url,
            .setImageUrls (p.render.imageUrls.filter (fun imageUrl => imageUrl != p.url))] ∧
      (c.step (.deleteSettled k env)).modal.imageUrls
        = p.render.imageUrls.filter (fun imageUrl => imageUrl != p.url) ∧
      p.url ∉ (c.step (.deleteSettled k env)).modal.imageUrls ∧
      ((∀ q ∈ c.pending.eraseIdx k, p.url ∉ q.render.imageUrls) →
        s2.imageUrls = ((c.step (.deleteSettled k env)).run later).modal.imageUrls →
        urls.length = s2.imageFiles.length →
        (∀ i f, s2.imageFiles[i]? = some f →
          env'.uploadBytesResumable i ("productImages/" ++ f.name) f = .ok ()) →
        (∀ i f u, s2.imageFiles[i]? = some f → urls[i]? = some u →
          env'.getDownloadURL i ("productImages/" ++ f.name) = .ok u) →
        p.url ∉ urls →
        (onSaveCalls (ProductModal.handleSubmit parseFloat env' onSave onClose s2).trace).head?
          = some (productData parseFloat s2 (s2.imageUrls ++ urls)) ∧
        (productData parseFloat s2 (s2.imageUrls ++ urls)).get "imageUrls"
          = .strs (s2.imageUrls ++ urls) ∧
        p.url ∉ s2.imageUrls ++ urls)) ∧
    (∀ e, env.deleteObject p.url = .error e →
      (ProductModal.handleRemoveImage env p.render p.url).result = .ok () ∧
      (ProductModal.handleRemoveImage env p.render p.url).trace
        = [.deleteObject p.url, .consoleError e] ∧
      (c.step (.deleteSettled k env)).modal.imageUrls = c.modal.imageUrls) := by
  have hstep : (c.step (.deleteSettled k env)).modal.imageUrls
      = (match env.deleteObject p.url with
        | .ok _ => p.render.imageUrls.filter (fun imageUrl => imageUrl != p.url)
        | .error _ => c.modal.imageUrls) ∧
      (c.step (.deleteSettled k env)).pending = c.pending.eraseIdx k := by
    simp only [ProductModalSession.step, hp]
    exact ⟨(handleRemoveImage_settled env c.modal p.render p.url).1, trivial⟩
  constructor
  · intro hdel
    have hgal : (c.step (.deleteSettled k env)).modal.imageUrls
        = p.render.imageUrls.filter (fun imageUrl => imageUrl != p.url) := by
      rw [hstep.1, hdel]
    have hout : p.url ∉ (c.step (.deleteSettled k env)).modal.imageUrls := by
      rw [hgal]
      simp
    refine ⟨by simp [ProductModal.handleRemoveImage, hdel], hgal, hout, ?_⟩
    intro hothers hs2 hlen hup hurl hr
    have h1 := handleSubmit_appends_download_urls parseFloat env' onSave onClose s2 urls
      hlen hup hurl
    refine ⟨h1.1, h1.2.1, ?_⟩
    intro hmem
    rcases List.mem_append.mp hmem with hm | hm
    · rw [hs2] at hm
      exact ProductModalSession.run_excludes later _ p.url hout
        (by rw [hstep.2]; exact hothers) hm
    · exact hr hm
  · intro e hdel
    refine ⟨?_, ?_, ?_⟩
    · simp [ProductModal.handleRemoveImage, hdel]
    · simp [ProductModal.handleRemoveImage, hdel]
    · rw [hstep.1, hdel]

/-- C2, witness: the X button of the first image of the sample gallery is pressed and its
delete resolves; afterwards the second image is removed on a storage that rejects the
delete, and the form is submitted. -/
theorem removed_image_not_resubmitted_witness :
    (productData sampleParseFloat ringModal
        (["https://cdn.test/productImages/b.png"] ++ [])).get "imageUrls"
      = .strs (["https://cdn.test/productImages/b.png"] ++ []) ∧
    "https://cdn.test/productImages/a.png"
      ∉ ["https://cdn.test/productImages/b.png"] ++ ([] : List String) :=
  have h := ((removed_image_not_resubmitted sampleParseFloat reliableStorage reliableStorage
      (handleAddEditProduct reliableGateway editScreen) [.setIsModalOpen false]
      ((ProductModalSession.mk ringModal []).step
        (.removeClicked "https://cdn.test/productImages/a.png"))
      0 ⟨ringModal, "https://cdn.test/productImages/a.png"⟩
      [.removeClicked "https://cdn.test/productImages/b.png", .deleteSettled 0 readOnlyStorage]
      { ringModal with imageUrls := ["https://cdn.test/productImages/b.png"] } []
      rfl).1 rfl).2.2.2
    (by intro q hq; simp [ProductModalSession.step, ringModal] at hq)
    rfl rfl (by intro i f h; simp [ringModal] at h) (by intro i f u h; simp [ringModal] at h)
    (by simp)
  ⟨h.2.1, h.2.2⟩

/-- Two removals in flight at once: both X buttons of the sample gallery are pressed before
either storage delete has resolved, and both deletes resolve. Each handler filters the
gallery of the render it was started in, so the removal that settles last sets the gallery
to `[a.png]`, and that is the list the submit passes to `onSave`. -/
theorem overlapping_removals_keep_first_image :
    ((ProductModalSession.mk ringModal []).run
        [.removeClicked "https://cdn.test/productImages/a.png",
          .removeClicked "https://cdn.test/productImages/b.png",
          .deleteSettled 0 reliableStorage, .deleteSettled 0 reliableStorage]).modal.imageUrls
      = ["https://cdn.test/productImages/a.png"] ∧
    (onSaveCalls (submitProduct sampleParseFloat reliableStorage reliableGateway editScreen
        ((ProductModalSession.mk ringModal []).run
          [.removeClicked "https://cdn.test/productImages/a.png",
            .removeClicked "https://cdn.test/productImages/b.png",
            .deleteSettled 0 reliableStorage, .deleteSettled 0 reliableStorage]).modal).trace).map
        (fun data => data.get "imageUrls")
      = [.strs ["https://cdn.test/productImages/a.png"]] := by
  constructor <;> rfl

/-- C2, counterexample: the storage rejects the delete of the first image; the handler
settles without error, and the submit that follows passes a list that still contains the
removed reference. -/
theorem removed_image_resubmitted_when_delete_fails :
    (ProductModal.handleRemoveImage readOnlyStorage ringModal
        "https://cdn.test/productImages/a.png").result = .ok () ∧
    (onSaveCalls (submitProduct sampleParseFloat reliableStorage reliableGateway editScreen
        (ringModal.applyEffects
          (ProductModal.handleRemoveImage readOnlyStorage ringModal
            "https://cdn.test/productImages/a.png").trace)).trace).map
        (fun data => data.get "imageUrls")
      = [.strs ["https://cdn.test/productImages/a.png",
          "https://cdn.test/productImages/b.png"]] := by
  constructor <;> rfl

/-- C3: when the upload of the `k`-th selected file is the first to fail, by an error of the
upload task or of the download-URL resolution, `ProductModal.handleSubmit` rejects with
that error, has started the uploads of the files up to the failing one and of no later
file, and never calls `onSave`, so no gateway write is issued. -/
theorem handleSubmit_aborts_on_upload_failure (parseFloat : JSValue → JSNumber)
    (env : StorageEnv) (onSave : Obj → Run) (onClose : List Effect) (s : ProductModalState)
    (k : Nat) (f : File) (e : Err)
    (hk : s.imageFiles[k]? = some f)
    (hbefore : ∀ j g, j < k → s.imageFiles[j]? = some g →
      env.uploadBytesResumable j ("productImages/" ++ g.name) g = .ok () ∧
      ∃ u, env.getDownloadURL j ("productImages/" ++ g.name) = .ok u)
    (hfail : env.uploadBytesResumable k ("productImages/" ++ f.name) f = .error e ∨
      (env.uploadBytesResumable k ("productImages/" ++ f.name) f = .ok () ∧
        env.getDownloadURL k ("productImages/" ++ f.name) = .error e)) :
    (ProductModal.handleSubmit parseFloat env onSave onClose s).result = .error e ∧
    uploadsStarted (ProductModal.handleSubmit parseFloat env onSave onClose s).trace
      = (s.imageFiles.take (k + 1)).map (fun f => "productImages/" ++ f.name) ∧
    onSaveCalls (ProductModal.handleSubmit parseFloat env onSave onClose s).trace = [] ∧
    gatewayWrites (ProductModal.handleSubmit parseFloat env onSave onClose s).trace = [] := by
  have hloop := uploadImages_first_failure env s.imageFiles 0 s.imageUrls k f e hk
    (fun j g hj hg => by simpa using hbefore j g hj hg) (by simpa using hfail)
  have hpos : s.imageFiles.length > 0 := by
    cases hf : s.imageFiles with
    | nil => simp [hf] at hk
    | cons a l => simp
  have hphase : (uploadPhase env s).1 = .error e ∧
      uploadsStarted (uploadPhase env s).2
        = (s.imageFiles.take (k + 1)).map (fun f => "productImages/" ++ f.name) := by
    unfold uploadPhase
    rw [if_pos hpos]
    split
    · next e' tr heq =>
      rw [heq] at hloop
      simp only [uploadsStarted_append, hloop.2]
      simp only [Except.error.injEq] at hloop
      simp [uploadsStarted, hloop.1]
    · next l tr heq => rw [heq] at hloop; simp at hloop
  have hno := uploadPhase_no_save env s
  rw [handleSubmit_of_upload_error parseFloat env onSave onClose s e hphase.1]
  refine ⟨rfl, ?_, ?_, ?_⟩
  · simp only [uploadsStarted_append, hphase.2]
    simp [uploadsStarted]
  · simp only [onSaveCalls_append, hno.1]
    simp [onSaveCalls]
  · simp only [gatewayWrites_append, hno.2]
    simp [gatewayWrites, Effect.isGatewayWrite]

/-- C3, witness: three files are selected and the upload task of the second reports an
error. -/
theorem handleSubmit_aborts_on_upload_failure_witness :
    (ProductModal.handleSubmit sampleParseFloat flakyStorage
        (handleAddEditProduct reliableGateway createScreen) [.setIsModalOpen false]
        { ringModal with imageFiles := [⟨"c.png"⟩, ⟨"d.png"⟩, ⟨"e.png"⟩] }).result
      = .error "storage/canceled" ∧
    uploadsStarted (ProductModal.handleSubmit sampleParseFloat flakyStorage
        (handleAddEditProduct reliableGateway createScreen) [.setIsModalOpen false]
        { ringModal with imageFiles := [⟨"c.png"⟩, ⟨"d.png"⟩, ⟨"e.png"⟩] }).trace
      = ["productImages/c.png", "productImages/d.png"] :=
  have h := handleSubmit_aborts_on_upload_failure sampleParseFloat flakyStorage
    (handleAddEditProduct reliableGateway createScreen) [.setIsModalOpen false]
    { ringModal with imageFiles := [⟨"c.png"⟩, ⟨"d.png"⟩, ⟨"e.png"⟩] } 1 ⟨"d.png"⟩
    "storage/canceled" rfl
    (fun j g hj hg => by
      have hj0 : j = 0 := by omega
      subst hj0
      simp only [List.getElem?_cons_zero, Option.some.injEq] at hg
      subst hg
      exact ⟨rfl, _, rfl⟩)
    (Or.inl rfl)
  ⟨h.1, h.2.1⟩

/-- C4 (amended): after every image of the gallery has been removed, one removal after the
other and each with a storage delete that resolved, and with no file selected, the submit of
the product form starts no upload, calls `onSave` exactly once with `imageUrls` the empty
list, and settles as `onSave` does: without error when the gateway write and the re-list
succeed, with the gateway's error when one of them fails. -/
theorem submit_after_removing_all_images (parseFloat : JSValue → JSNumber)
    (env : StorageEnv) (g : GatewayEnv) (st : ProductManagementState) (s : ProductModalState)
    (steps : List (StorageEnv × String))
    (hfiles : s.imageFiles = [])
    (hall : ∀ u ∈ s.imageUrls, ∃ step ∈ steps, step.2 = u ∧ step.1.deleteObject u = .ok ()) :
    (s.afterRemovals steps).imageUrls = [] ∧
    uploadsStarted (submitProduct parseFloat env g st (s.afterRemovals steps)).trace = [] ∧
    onSaveCalls (submitProduct parseFloat env g st (s.afterRemovals steps)).trace
      = [productData parseFloat (s.afterRemovals steps) []] ∧
    (productData parseFloat (s.afterRemovals steps) []).get "imageUrls" = .strs [] ∧
    (submitProduct parseFloat env g st (s.afterRemovals steps)).result
      = (handleAddEditProduct g st (productData parseFloat (s.afterRemovals steps) [])).result ∧
    ((writeProduct g st.editProduct (productData parseFloat (s.afterRemovals steps) [])).result
        = .ok () →
      (fetchProducts g).result = .ok () →
      (submitProduct parseFloat env g st (s.afterRemovals steps)).result = .ok ()) ∧
    (∀ e,
      (writeProduct g st.editProduct (productData parseFloat (s.afterRemovals steps) [])).result
        = .error e →
      (submitProduct parseFloat env g st (s.afterRemovals steps)).result = .error e) ∧
    (∀ e,
      (writeProduct g st.editProduct (productData parseFloat (s.afterRemovals steps) [])).result
        = .ok () →
      (fetchProducts g).result = .error e →
      (submitProduct parseFloat env g st (s.afterRemovals steps)).result = .error e) := by
  have hurls : (s.afterRemovals steps).imageUrls = [] := by
    apply List.eq_nil_iff_forall_not_mem.mpr
    intro x hx
    obtain ⟨hmem, hnot⟩ := afterRemovals_mem steps s x hx
    obtain ⟨step, hstep, h1, h2⟩ := hall x hmem
    exact hnot step hstep ⟨h1, h2⟩
  have hf : (s.afterRemovals steps).imageFiles = [] := by
    rw [afterRemovals_imageFiles, hfiles]
  have hphase : uploadPhase env (s.afterRemovals steps) = (.ok [], []) := by
    simp [uploadPhase, hf, hurls]
  have hsave := handleAddEditProduct_no_save g st
    (productData parseFloat (s.afterRemovals steps) [])
  have hsub : submitProduct parseFloat env g st (s.afterRemovals steps)
      = ⟨(handleAddEditProduct g st (productData parseFloat (s.afterRemovals steps) [])).result,
          [.preventDefault, .onSave (productData parseFloat (s.afterRemovals steps) [])]
            ++ ((handleAddEditProduct g st
                  (productData parseFloat (s.afterRemovals steps) [])).andThen
                (Run.emit [.setIsModalOpen false])).trace⟩ := by
    unfold submitProduct
    rw [handleSubmit_of_upload_ok parseFloat env _ _ _ [] (by rw [hphase])]
    rw [hphase]
    simp [Run.andThen, Run.emit]
    cases (handleAddEditProduct g st (productData parseFloat (s.afterRemovals steps) [])).result
      <;> rfl
  have htr : ∀ r : Run, onSaveCalls r.trace = [] → uploadsStarted r.trace = [] →
      onSaveCalls (r.andThen (Run.emit [.setIsModalOpen false])).trace = [] ∧
      uploadsStarted (r.andThen (Run.emit [.setIsModalOpen false])).trace = [] := by
    intro r h1 h2
    unfold Run.andThen
    cases r.result with
    | error e => exact ⟨h1, h2⟩
    | ok _ =>
      simp only [onSaveCalls_append, uploadsStarted_append, h1, h2]
      simp [Run.emit, onSaveCalls, uploadsStarted]
  have htr' := htr _ hsave.1 hsave.2
  refine ⟨hurls, ?_, ?_, ?_, ?_, ?_, ?_, ?_⟩
  · rw [hsub]
    simp only [uploadsStarted_append, htr'.2]
    simp [uploadsStarted]
  · rw [hsub]
    simp only [onSaveCalls_append, htr'.1]
    simp [onSaveCalls]
  · simp [productData, Obj.get, List.lookup]
  · rw [hsub]
  · intro hw hfetch
    rw [hsub, handleAddEditProduct_eq]
    simp only [hw, hfetch]
  · intro e hw
    rw [hsub, handleAddEditProduct_eq]
    simp only [hw]
  · intro e hw hfetch
    rw [hsub, handleAddEditProduct_eq]
    simp only [hw, hfetch]

/-- C4, witness: both images of the sample gallery are removed on the working storage, one
after the other, and the form is submitted in edit mode. -/
theorem submit_after_removing_all_images_witness :
    onSaveCalls (submitProduct sampleParseFloat reliableStorage reliableGateway editScreen
        (ringModal.afterRemovals
          [(reliableStorage, "https://cdn.test/productImages/a.png"),
            (reliableStorage, "https://cdn.test/productImages/b.png")])).trace
      = [productData sampleParseFloat (ringModal.afterRemovals
          [(reliableStorage, "https://cdn.test/productImages/a.png"),
            (reliableStorage, "https://cdn.test/productImages/b.png")]) []] ∧
    (submitProduct sampleParseFloat reliableStorage reliableGateway editScreen
        (ringModal.afterRemovals
          [(reliableStorage, "https://cdn.test/productImages/a.png"),
            (reliableStorage, "https://cdn.test/productImages/b.png")])).result = .ok () :=
  have h := submit_after_removing_all_images sampleParseFloat reliableStorage reliableGateway
    editScreen ringModal
    [(reliableStorage, "https://cdn.test/productImages/a.png"),
      (reliableStorage, "https://cdn.test/productImages/b.png")]
    rfl
    (by
      intro u hu
      simp only [ringModal, List.mem_cons, List.mem_singleton, List.not_mem_nil, or_false] at hu
      rcases hu with rfl | rfl
      · exact ⟨_, List.mem_cons_self _ _, rfl, rfl⟩
      · exact ⟨_, List.mem_cons_of_mem _ (List.mem_cons_self _ _), rfl, rfl⟩)
  ⟨h.2.2.1, h.2.2.2.2.2.1 rfl rfl⟩

/-- C4, counterexample: both images of the sample gallery are removed, one after the other,
no file is selected, and the gateway rejects the update of the record. The gallery is
empty, no upload is started and `onSave` is called with the empty list, but the submit
does not complete without error: it rejects with the error of the gateway. -/
theorem empty_gallery_submit_rejects_with_gateway :
    (ringModal.afterRemovals
        [(reliableStorage, "https://cdn.test/productImages/a.png"),
          (reliableStorage, "https://cdn.test/productImages/b.png")]).imageUrls = [] ∧
    (ringModal.afterRemovals
        [(reliableStorage, "https://cdn.test/productImages/a.png"),
          (reliableStorage, "https://cdn.test/productImages/b.png")]).imageFiles = [] ∧
    uploadsStarted (submitProduct sampleParseFloat reliableStorage lockedGateway editScreen
        (ringModal.afterRemovals
          [(reliableStorage, "https://cdn.test/productImages/a.png"),
            (reliableStorage, "https://cdn.test/productImages/b.png")])).trace = [] ∧
    (onSaveCalls (submitProduct sampleParseFloat reliableStorage lockedGateway editScreen
        (ringModal.afterRemovals
          [(reliableStorage, "https://cdn.test/productImages/a.png"),
            (reliableStorage, "https://cdn.test/productImages/b.png")])).trace).map
        (fun data => data.get "imageUrls") = [.strs []] ∧
    (submitProduct sampleParseFloat reliableStorage lockedGateway editScreen
        (ringModal.afterRemovals
          [(reliableStorage, "https://cdn.test/productImages/a.png"),
            (reliableStorage, "https://cdn.test/productImages/b.png")])).result
      = .error "permission-denied" ∧
    (submitProduct sampleParseFloat reliableStorage lockedGateway editScreen
        (ringModal.afterRemovals
          [(reliableStorage, "https://cdn.test/productImages/a.png"),
            (reliableStorage, "https://cdn.test/productImages/b.png")])).result
      ≠ .ok () := by
  refine ⟨rfl, rfl, rfl, rfl, rfl, ?_⟩
  intro h
  cases h

/-! ## Checkout: claims -/

/-- The three shapes of a run of `CheckoutPage.onSubmit`. -/
theorem onSubmit_trace (env : CheckoutEnv) (calculateTotal : List CartItem → JSNumber)
    (cart : List CartItem) (data : Obj) :
    (CheckoutPage.onSubmit env calculateTotal cart data).trace
      = match CheckoutPage.persisted env calculateTotal cart data with
        | .error e =>
          [.setLoading true, CheckoutPage.persistEffect env calculateTotal cart data,
            .consoleError e, CheckoutPage.errorAlert]
        | .ok _ =>
          match CheckoutPage.notified env calculateTotal cart data with
          | .error e =>
            [.setLoading true, CheckoutPage.persistEffect env calculateTotal cart data,
              CheckoutPage.notifyEffect env calculateTotal cart data,
              .consoleError e, CheckoutPage.errorAlert]
          | .ok _ =>
            [.setLoading true, CheckoutPage.persistEffect env calculateTotal cart data,
              CheckoutPage.notifyEffect env calculateTotal cart data,
              .clearCart, CheckoutPage.scheduledNavigation, CheckoutPage.successAlert] := by
  unfold CheckoutPage.onSubmit CheckoutPage.tryBlock CheckoutPage.persisted
    CheckoutPage.notified
  cases h1 : env.gateway.setDoc "orders" env.generateOrderId
      (orderData env cart (calculateTotal cart) data) with
  | error e => simp [Run.andThen, h1, CheckoutPage.persistEffect, CheckoutPage.errorAlert]
  | ok _ =>
    cases h2 : env.emailSend "service_ofg7xdi" "template_xnlq0us"
        (templateParams env cart (calculateTotal cart) data) "6bpGDIQwa7yR3Jokb" with
    | error e =>
      simp [Run.andThen, Run.emit, h1, h2, CheckoutPage.persistEffect,
        CheckoutPage.notifyEffect, CheckoutPage.errorAlert]
    | ok _ =>
      simp [Run.andThen, Run.emit, h1, h2, CheckoutPage.persistEffect,
        CheckoutPage.notifyEffect, CheckoutPage.scheduledNavigation,
        CheckoutPage.successAlert]

/-- The only gateway write of a checkout submit is the `setDoc` of the order record. -/
theorem order_fields_written (env : CheckoutEnv) (calculateTotal : List CartItem → JSNumber)
    (cart : List CartItem) (data : Obj) :
    gatewayWrites (CheckoutPage.onSubmit env calculateTotal cart data).trace
      = [.setDoc "orders" env.generateOrderId
          (orderData env cart (calculateTotal cart) data)] := by
  rw [onSubmit_trace]
  cases CheckoutPage.persisted env calculateTotal cart data with
  | error e =>
    simp [gatewayWrites, Effect.isGatewayWrite, CheckoutPage.persistEffect,
      CheckoutPage.errorAlert]
  | ok _ =>
    cases CheckoutPage.notified env calculateTotal cart data <;>
      simp [gatewayWrites, Effect.isGatewayWrite, CheckoutPage.persistEffect,
        CheckoutPage.notifyEffect, CheckoutPage.errorAlert,
        CheckoutPage.scheduledNavigation, CheckoutPage.successAlert]

/-- C5: `CheckoutPage.onSubmit` persists the order, then sends the notification, then
clears the cart, then schedules the navigation, each only after the earlier ones
succeeded: `clearCart` and the navigation timer are issued if and only if both the
persistence and the notification succeed; when either fails the cart is untouched, no
navigation is scheduled, the error alert is shown exactly once, and neither remote call is
issued a second time. -/
theorem checkout_effects_in_order (env : CheckoutEnv)
    (calculateTotal : List CartItem → JSNumber) (cart : List CartItem) (data : Obj) :
    ((CheckoutPage.persisted env calculateTotal cart data = .ok () ∧
        CheckoutPage.notified env calculateTotal cart data = .ok ()) →
      (CheckoutPage.onSubmit env calculateTotal cart data).trace
        = [.setLoading true, CheckoutPage.persistEffect env calculateTotal cart data,
            CheckoutPage.notifyEffect env calculateTotal cart data,
            .clearCart, CheckoutPage.scheduledNavigation, CheckoutPage.successAlert]) ∧
    (∀ e, CheckoutPage.persisted env calculateTotal cart data = .error e →
      (CheckoutPage.onSubmit env calculateTotal cart data).trace
        = [.setLoading true, CheckoutPage.persistEffect env calculateTotal cart data,
            .consoleError e, CheckoutPage.errorAlert]) ∧
    (∀ e, CheckoutPage.persisted env calculateTotal cart data = .ok () →
      CheckoutPage.notified env calculateTotal cart data = .error e →
      (CheckoutPage.onSubmit env calculateTotal cart data).trace
        = [.setLoading true, CheckoutPage.persistEffect env calculateTotal cart data,
            CheckoutPage.notifyEffect env calculateTotal cart data,
            .consoleError e, CheckoutPage.errorAlert]) ∧
    (Effect.clearCart ∈ (CheckoutPage.onSubmit env calculateTotal cart data).trace ↔
      (CheckoutPage.persisted env calculateTotal cart data = .ok () ∧
        CheckoutPage.notified env calculateTotal cart data = .ok ())) ∧
    (CheckoutPage.scheduledNavigation ∈ (CheckoutPage.onSubmit env calculateTotal cart data).trace ↔
      (CheckoutPage.persisted env calculateTotal cart data = .ok () ∧
        CheckoutPage.notified env calculateTotal cart data = .ok ())) ∧
    (CheckoutPage.notifyEffect env calculateTotal cart data
        ∈ (CheckoutPage.onSubmit env calculateTotal cart data).trace ↔
      CheckoutPage.persisted env calculateTotal cart data = .ok ()) ∧
    (¬ (CheckoutPage.persisted env calculateTotal cart data = .ok () ∧
        CheckoutPage.notified env calculateTotal cart data = .ok ()) →
      cartAfter cart (CheckoutPage.onSubmit env calculateTotal cart data).trace = cart ∧
      (CheckoutPage.onSubmit env calculateTotal cart data).trace.count CheckoutPage.errorAlert
        = 1 ∧
      (CheckoutPage.onSubmit env calculateTotal cart data).trace.count
        (CheckoutPage.persistEffect env calculateTotal cart data) = 1 ∧
      (CheckoutPage.onSubmit env calculateTotal cart data).trace.count
        (CheckoutPage.notifyEffect env calculateTotal cart data) ≤ 1) := by
  have htr := onSubmit_trace env calculateTotal cart data
  cases h1 : CheckoutPage.persisted env calculateTotal cart data with
  | error e =>
    rw [h1] at htr
    simp only at htr
    rw [htr]
    simp [cartAfter, CheckoutPage.persistEffect, CheckoutPage.notifyEffect,
      CheckoutPage.errorAlert, CheckoutPage.scheduledNavigation]
  | ok u =>
    cases h2 : CheckoutPage.notified env calculateTotal cart data with
    | error e =>
      rw [h1, h2] at htr
      simp only at htr
      rw [htr]
      simp [cartAfter, CheckoutPage.persistEffect, CheckoutPage.notifyEffect,
        CheckoutPage.errorAlert, CheckoutPage.scheduledNavigation]
    | ok u' =>
      rw [h1, h2] at htr
      simp only at htr
      rw [htr]
      simp [cartAfter, CheckoutPage.persistEffect, CheckoutPage.notifyEffect,
        CheckoutPage.errorAlert, CheckoutPage.scheduledNavigation, CheckoutPage.successAlert]

/-- C5, witness: the example scenario, with gateway and e-mail service both accepting. -/
theorem checkout_effects_in_order_witness :
    (CheckoutPage.onSubmit reliableCheckout ringTotal ringCart ringOrderForm).trace
      = [.setLoading true, CheckoutPage.persistEffect reliableCheckout ringTotal ringCart
            ringOrderForm,
          CheckoutPage.notifyEffect reliableCheckout ringTotal ringCart ringOrderForm,
          .clearCart, CheckoutPage.scheduledNavigation, CheckoutPage.successAlert] :=
  (checkout_effects_in_order reliableCheckout ringTotal ringCart ringOrderForm).1 ⟨rfl, rfl⟩

/-- C6: for every form data and every cart, the only gateway write of
`CheckoutPage.onSubmit` is a `setDoc` on `orders` under the generated order id, and the
record it writes has `id` that same order id, `items` the cart, `total` the value of
`calculateTotal()` for the cart, `createdAt` the current date and `status` "pending",
whatever fields the form data holds under these five keys. -/
theorem order_record_fields (env : CheckoutEnv) (calculateTotal : List CartItem → JSNumber)
    (cart : List CartItem) (data : Obj) :
    gatewayWrites (CheckoutPage.onSubmit env calculateTotal cart data).trace
      = [.setDoc "orders" env.generateOrderId (orderData env cart (calculateTotal cart) data)] ∧
    (orderData env cart (calculateTotal cart) data).get "id" = .str env.generateOrderId ∧
    (orderData env cart (calculateTotal cart) data).get "items" = .items cart ∧
    (orderData env cart (calculateTotal cart) data).get "total" = .num (calculateTotal cart) ∧
    (orderData env cart (calculateTotal cart) data).get "createdAt" = .date env.now ∧
    (orderData env cart (calculateTotal cart) data).get "status" = .str "pending" := by
  refine ⟨?_, ?_, ?_, ?_, ?_, ?_⟩
  · rw [onSubmit_trace]
    cases CheckoutPage.persisted env calculateTotal cart data with
    | error e =>
      simp [gatewayWrites, Effect.isGatewayWrite, CheckoutPage.persistEffect,
        CheckoutPage.errorAlert]
    | ok _ =>
      cases CheckoutPage.notified env calculateTotal cart data <;>
        simp [gatewayWrites, Effect.isGatewayWrite, CheckoutPage.persistEffect,
          CheckoutPage.notifyEffect, CheckoutPage.errorAlert,
          CheckoutPage.scheduledNavigation, CheckoutPage.successAlert]
  · unfold orderData
    rw [Obj.get_set_ne _ _ _ _ (by decide), Obj.get_set_ne _ _ _ _ (by decide),
      Obj.get_set_ne _ _ _ _ (by decide), Obj.get_set_ne _ _ _ _ (by decide),
      Obj.get_set_self]
  · unfold orderData
    rw [Obj.get_set_ne _ _ _ _ (by decide), Obj.get_set_ne _ _ _ _ (by decide),
      Obj.get_set_ne _ _ _ _ (by decide), Obj.get_set_self]
  · unfold orderData
    rw [Obj.get_set_ne _ _ _ _ (by decide), Obj.get_set_ne _ _ _ _ (by decide),
      Obj.get_set_self]
  · unfold orderData
    rw [Obj.get_set_ne _ _ _ _ (by decide), Obj.get_set_self]
  · unfold orderData
    rw [Obj.get_set_self]

/-! ## Admin screens: submit -/

theorem Packages.uploadImage_no_write (env : StorageEnv) (st : PackagesState) :
    gatewayWrites (Packages.uploadImage env st).2 = [] := by
  unfold Packages.uploadImage
  cases st.imageFile with
  | none => simp [gatewayWrites]
  | some f =>
    simp only
    cases env.uploadBytes ("packages/" ++ f.name) f with
    | error e => simp [gatewayWrites, Effect.isGatewayWrite]
    | ok _ =>
      cases env.getDownloadURL 0 ("packages/" ++ f.name) <;>
        simp [gatewayWrites, Effect.isGatewayWrite]

/-- A successful run of `Packages.onSubmit`: the image step, then the write, then the
re-list, then `closeModal`. -/
theorem Packages.onSubmit_ok (env : StorageEnv) (g : GatewayEnv) (st : PackagesState)
    (data : Obj) (h : (Packages.onSubmit env g st data).result = .ok ()) :
    ∃ url docs,
      (Packages.uploadImage env st).1 = .ok url ∧
      (Packages.write g st.editId (data.set "imageUrl" url)).result = .ok () ∧
      g.getDocs "packages" = .ok docs ∧
      (Packages.onSubmit env g st data).trace
        = (Packages.uploadImage env st).2
          ++ (Packages.write g st.editId (data.set "imageUrl" url)).trace
          ++ [.getDocs "packages", .setPackages (docs.map withId)]
          ++ Packages.closeModal := by
  unfold Packages.onSubmit at h ⊢
  cases hu : Packages.uploadImage env st with
  | mk r tr =>
    cases r with
    | error e => simp [hu] at h
    | ok url =>
      simp only [hu, Run.emit_andThen] at h ⊢
      cases hw : (Packages.write g st.editId (data.set "imageUrl" url)).result with
      | error e => simp [Run.andThen, hw] at h
      | ok _ =>
        cases hd : g.getDocs "packages" with
        | error e => simp [Run.andThen, hw, Packages.relist, hd] at h
        | ok docs =>
          refine ⟨url, docs, rfl, hw, rfl, ?_⟩
          simp [Run.andThen, Run.emit, hw, Packages.relist, hd]

/-- A successful run of `handleAddEditProduct`: the write, then the two setters that close
the modal, then the re-list. -/
theorem handleAddEditProduct_ok (g : GatewayEnv) (st : ProductManagementState) (data : Obj)
    (h : (handleAddEditProduct g st data).result = .ok ()) :
    ∃ docs,
      (writeProduct g st.editProduct data).result = .ok () ∧
      g.getDocs "products" = .ok docs ∧
      (handleAddEditProduct g st data).trace
        = (writeProduct g st.editProduct data).trace
          ++ [.setIsModalOpen false, .setEditProduct none, .getDocs "products",
              .setProducts (docs.map withId)] := by
  rw [handleAddEditProduct_eq] at h ⊢
  cases hw : (writeProduct g st.editProduct data).result with
  | error e => simp [hw] at h
  | ok _ =>
    simp only [hw] at h ⊢
    cases hd : g.getDocs "products" with
    | error e => simp [fetchProducts, hd] at h
    | ok docs => exact ⟨docs, trivial, rfl, by simp [fetchProducts, hd]⟩

/-- A successful submit of the product form: the uploads, the call of `onSave`, the run of
`handleAddEditProduct`, then `onClose`. -/
theorem submitProduct_ok (parseFloat : JSValue → JSNumber) (env : StorageEnv) (g : GatewayEnv)
    (st : ProductManagementState) (s : ProductModalState)
    (h : (submitProduct parseFloat env g st s).result = .ok ()) :
    ∃ newImageUrls docs,
      (uploadPhase env s).1 = .ok newImageUrls ∧
      (writeProduct g st.editProduct (productData parseFloat s newImageUrls)).result = .ok () ∧
      g.getDocs "products" = .ok docs ∧
      (submitProduct parseFloat env g st s).trace
        = [.preventDefault] ++ (uploadPhase env s).2
          ++ [.onSave (productData parseFloat s newImageUrls)]
          ++ (writeProduct g st.editProduct (productData parseFloat s newImageUrls)).trace
          ++ [.setIsModalOpen false, .setEditProduct none, .getDocs "products",
              .setProducts (docs.map withId)]
          ++ [.setIsModalOpen false] := by
  unfold submitProduct at h ⊢
  cases hr : (uploadPhase env s).1 with
  | error e =>
    rw [handleSubmit_of_upload_error parseFloat env _ _ s e hr] at h
    simp at h
  | ok l =>
    rw [handleSubmit_of_upload_ok parseFloat env _ _ s l hr] at h ⊢
    simp only at h
    have hsave : (handleAddEditProduct g st (productData parseFloat s l)).result = .ok () := by
      cases hs : (handleAddEditProduct g st (productData parseFloat s l)).result with
      | error e => simp [Run.andThen, hs] at h
      | ok _ => rfl
    obtain ⟨docs, hw, hd, htr⟩ := handleAddEditProduct_ok g st _ hsave
    refine ⟨l, docs, rfl, hw, hd, ?_⟩
    simp [Run.andThen, Run.emit, hsave, htr]

/-- C7: on both admin screens a successful submit issues exactly one gateway write. On the
package screen it is an `updateDoc` on `editId` when `editId` is the key of a record (a
document key is a non-empty string, hence truthy), and an `addDoc` when `editId` is null;
on the product screen it is an `updateDoc` on `editProduct.id` when a product is being
edited, and an `addDoc` when none is. -/
theorem submit_issues_one_gateway_write :
    (∀ (env : StorageEnv) (g : GatewayEnv) (st : PackagesState) (data : Obj) (id : String),
      st.editId = .str id → id ≠ "" →
      (Packages.onSubmit env g st data).result = .ok () →
      ∃ url, gatewayWrites (Packages.onSubmit env g st data).trace
        = [.updateDoc "packages" (.str id) (data.set "imageUrl" url)]) ∧
    (∀ (env : StorageEnv) (g : GatewayEnv) (st : PackagesState) (data : Obj),
      st.editId = .null →
      (Packages.onSubmit env g st data).result = .ok () →
      ∃ url, gatewayWrites (Packages.onSubmit env g st data).trace
        = [.addDoc "packages" (data.set "imageUrl" url)]) ∧
    (∀ (parseFloat : JSValue → JSNumber) (env : StorageEnv) (g : GatewayEnv)
      (st : ProductManagementState) (s : ProductModalState) (p : Obj),
      st.editProduct = some p →
      (submitProduct parseFloat env g st s).result = .ok () →
      ∃ newImageUrls, gatewayWrites (submitProduct parseFloat env g st s).trace
        = [.updateDoc "products" (p.get "id")
            ((productData parseFloat s newImageUrls).set "updatedAt" .serverTimestamp)]) ∧
    (∀ (parseFloat : JSValue → JSNumber) (env : StorageEnv) (g : GatewayEnv)
      (st : ProductManagementState) (s : ProductModalState),
      st.editProduct = none →
      (submitProduct parseFloat env g st s).result = .ok () →
      ∃ newImageUrls, gatewayWrites (submitProduct parseFloat env g st s).trace
        = [.addDoc "products"
            ((productData parseFloat s newImageUrls).set "createdAt" .serverTimestamp)]) := by
  refine ⟨?_, ?_, ?_, ?_⟩
  · intro env g st data id hid hne hok
    obtain ⟨url, docs, _, _, _, htr⟩ := Packages.onSubmit_ok env g st data hok
    refine ⟨url, ?_⟩
    rw [htr]
    simp only [gatewayWrites_append, Packages.uploadImage_no_write]
    simp [gatewayWrites, Effect.isGatewayWrite, Packages.write, Packages.closeModal, hid,
      JSValue.truthy, hne]
  · intro env g st data hid hok
    obtain ⟨url, docs, _, _, _, htr⟩ := Packages.onSubmit_ok env g st data hok
    refine ⟨url, ?_⟩
    rw [htr]
    simp only [gatewayWrites_append, Packages.uploadImage_no_write]
    simp [gatewayWrites, Effect.isGatewayWrite, Packages.write, Packages.closeModal, hid,
      JSValue.truthy]
  · intro parseFloat env g st s p hp hok
    obtain ⟨l, docs, _, _, _, htr⟩ := submitProduct_ok parseFloat env g st s hok
    refine ⟨l, ?_⟩
    rw [htr]
    simp only [gatewayWrites_append, (uploadPhase_no_save env s).2]
    simp [gatewayWrites, Effect.isGatewayWrite, writeProduct, hp]
  · intro parseFloat env g st s hp hok
    obtain ⟨l, docs, _, _, _, htr⟩ := submitProduct_ok parseFloat env g st s hok
    refine ⟨l, ?_⟩
    rw [htr]
    simp only [gatewayWrites_append, (uploadPhase_no_save env s).2]
    simp [gatewayWrites, Effect.isGatewayWrite, writeProduct, hp]

/-- C7, witness: the package form is submitted in edit mode on the record `pkg1` with
working services. -/
theorem submit_issues_one_gateway_write_witness :
    ∃ url, gatewayWrites
        (Packages.onSubmit reliableStorage reliableGateway editPackageScreen goldPackage).trace
      = [.updateDoc "packages" (.str "pkg1") (goldPackage.set "imageUrl" url)] :=
  submit_issues_one_gateway_write.1 reliableStorage reliableGateway editPackageScreen
    goldPackage "pkg1" rfl (by decide) rfl

/-- C8 (amended): a successful submit of the package form performs, in this order, the
image step, the gateway write, the re-list of `packages`, and only then `closeModal`.
A successful submit of the product form performs, in this order, the uploads, the gateway
write, the setters that close the modal (`setIsModalOpen(false)`, `setEditProduct(null)`),
then the re-list of `products`, and last the modal's `onClose`. -/
theorem submit_step_order :
    (∀ (env : StorageEnv) (g : GatewayEnv) (st : PackagesState) (data : Obj),
      (Packages.onSubmit env g st data).result = .ok () →
      ∃ (w : Effect) (docs : List DocSnapshot),
        w.isGatewayWrite = true ∧
        (Packages.onSubmit env g st data).trace
          = (Packages.uploadImage env st).2
            ++ [w, .getDocs "packages", .setPackages (docs.map withId),
                .setIsModalOpen false, .setEditId .null, .setImageFile none,
                .setImageUrl .null]) ∧
    (∀ (parseFloat : JSValue → JSNumber) (env : StorageEnv) (g : GatewayEnv)
      (st : ProductManagementState) (s : ProductModalState),
      (submitProduct parseFloat env g st s).result = .ok () →
      ∃ (data : Obj) (w : Effect) (docs : List DocSnapshot),
        w.isGatewayWrite = true ∧
        (submitProduct parseFloat env g st s).trace
          = [.preventDefault] ++ (uploadPhase env s).2
            ++ [.onSave data, w, .setIsModalOpen false, .setEditProduct none,
                .getDocs "products", .setProducts (docs.map withId),
                .setIsModalOpen false]) := by
  constructor
  · intro env g st data hok
    obtain ⟨url, docs, _, _, _, htr⟩ := Packages.onSubmit_ok env g st data hok
    by_cases ht : st.editId.truthy = true
    · refine ⟨.updateDoc "packages" st.editId (data.set "imageUrl" url), docs, rfl, ?_⟩
      rw [htr]
      simp [Packages.write, ht, Packages.closeModal]
    · refine ⟨.addDoc "packages" (data.set "imageUrl" url), docs, rfl, ?_⟩
      rw [htr]
      simp [Packages.write, ht, Packages.closeModal]
  · intro parseFloat env g st s hok
    obtain ⟨l, docs, _, _, _, htr⟩ := submitProduct_ok parseFloat env g st s hok
    cases hp : st.editProduct with
    | none =>
      refine ⟨productData parseFloat s l,
        .addDoc "products" ((productData parseFloat s l).set "createdAt" .serverTimestamp),
        docs, rfl, ?_⟩
      rw [htr]
      simp [writeProduct, hp]
    | some p =>
      refine ⟨productData parseFloat s l,
        .updateDoc "products" (p.get "id")
          ((productData parseFloat s l).set "updatedAt" .serverTimestamp),
        docs, rfl, ?_⟩
      rw [htr]
      simp [writeProduct, hp]

/-- C8, witness: the product form is submitted in create mode with working services. -/
theorem submit_step_order_witness :
    ∃ (data : Obj) (w : Effect) (docs : List DocSnapshot),
      w.isGatewayWrite = true ∧
      (submitProduct sampleParseFloat reliableStorage reliableGateway createScreen
          ringModal).trace
        = [.preventDefault] ++ (uploadPhase reliableStorage ringModal).2
          ++ [.onSave data, w, .setIsModalOpen false, .setEditProduct none,
              .getDocs "products", .setProducts (docs.map withId),
              .setIsModalOpen false] :=
  submit_step_order.2 sampleParseFloat reliableStorage reliableGateway createScreen
    ringModal rfl

/-- C8, counterexample: in a successful submit of the product form the modal is closed
before the list is re-fetched: `setIsModalOpen(false)` comes before `getDocs`, and the
screen state at the moment of the re-list already has the modal closed. -/
theorem product_modal_closed_before_relist :
    (submitProduct sampleParseFloat reliableStorage reliableGateway createScreen
        ringModal).result = .ok () ∧
    (submitProduct sampleParseFloat reliableStorage reliableGateway createScreen
        ringModal).trace
      = [.preventDefault,
          .onSave (productData sampleParseFloat ringModal ringModal.imageUrls),
          .addDoc "products"
            ((productData sampleParseFloat ringModal ringModal.imageUrls).set "createdAt"
              .serverTimestamp),
          .setIsModalOpen false, .setEditProduct none,
          .getDocs "products", .setProducts [], .setIsModalOpen false] ∧
    List.indexOf (Effect.setIsModalOpen false)
        (submitProduct sampleParseFloat reliableStorage reliableGateway createScreen
          ringModal).trace
      < List.indexOf (Effect.getDocs "products")
        (submitProduct sampleParseFloat reliableStorage reliableGateway createScreen
          ringModal).trace ∧
    (createScreen.applyEffects
        ((submitProduct sampleParseFloat reliableStorage reliableGateway createScreen
          ringModal).trace.takeWhile (fun e => e != Effect.getDocs "products"))).isModalOpen
      = false := by
  refine ⟨rfl, rfl, ?_, ?_⟩
  · decide
  · decide

/-! ## Validation -/

/-- A form passes the resolver exactly when every rule of the schema accepts its field. -/
theorem yupResolver_ok_iff (c : Coercions) (schema : List (String × FieldSchema))
    (values : Obj) :
    (∃ data, yupResolver c schema values = .ok data) ↔
      ∀ rule ∈ schema, ∃ v, validateField c rule.2 (values.get rule.1) = .ok v := by
  have hnil : fieldErrors c schema values = [] ↔
      ∀ rule ∈ schema, ∃ v, validateField c rule.2 (values.get rule.1) = .ok v := by
    unfold fieldErrors
    rw [List.filterMap_eq_nil_iff]
    constructor
    · intro h rule hr
      have := h rule hr
      cases hv : validateField c rule.2 (values.get rule.1) with
      | error m => simp [hv] at this
      | ok v => exact ⟨v, rfl⟩
    · intro h rule hr
      obtain ⟨v, hv⟩ := h rule hr
      simp [hv]
  rw [← hnil]
  unfold yupResolver
  cases hfe : fieldErrors c schema values with
  | nil => simp
  | cons a l => simp

/-- A required string rule accepts exactly the values whose cast is a non-empty string. -/
theorem validateField_required_string (c : Coercions) (msg : String) (raw v : JSValue) :
    validateField c (.string none (some msg)) raw = .ok v ↔
      ∃ s, castString c raw = .str s ∧ s ≠ "" ∧ v = .str s := by
  cases hc : castString c raw with
  | str s =>
    by_cases hs : s = ""
    · simp [validateField, hc, hs]
    · simp [validateField, hc, hs, eq_comm]
  | _ => simp [validateField, hc]

/-- A required positive number rule accepts exactly the values whose cast is a number
greater than zero. -/
theorem validateField_required_positive (c : Coercions) (msg msg' : String)
    (raw v : JSValue) :
    validateField c (.number (some msg) (some msg')) raw = .ok v ↔
      ∃ x, castNumber c raw = .num (.num x) ∧ 0 < x ∧ v = .num (.num x) := by
  cases hc : castNumber c raw with
  | num n =>
    cases n with
    | nan => simp [validateField, hc]
    | num x =>
      by_cases hx : 0 < x
      · simp [validateField, hc, hx, eq_comm]
      · simp [validateField, hc, hx]
  | _ => simp [validateField, hc]

/-- The package schema accepts a form exactly when title, description and team cast to
non-empty strings and price and duration cast to numbers greater than zero. -/
theorem packageSchema_ok_iff (c : Coercions) (values : Obj) :
    (∃ data, yupResolver c packageSchema values = .ok data) ↔
      (∃ s, castString c (values.get "title") = .str s ∧ s ≠ "") ∧
      (∃ s, castString c (values.get "description") = .str s ∧ s ≠ "") ∧
      (∃ x, castNumber c (values.get "price") = .num (.num x) ∧ 0 < x) ∧
      (∃ s, castString c (values.get "team") = .str s ∧ s ≠ "") ∧
      (∃ x, castNumber c (values.get "duration") = .num (.num x) ∧ 0 < x) := by
  rw [yupResolver_ok_iff]
  simp only [packageSchema, List.mem_cons, List.mem_singleton, List.not_mem_nil, or_false,
    forall_eq_or_imp, forall_eq, validateField_required_string,
    validateField_required_positive]
  constructor
  · rintro ⟨⟨_, s1, h1, n1, _⟩, ⟨_, s2, h2, n2, _⟩, ⟨_, x3, h3, p3, _⟩, ⟨_, s4, h4, n4, _⟩,
      ⟨_, x5, h5, p5, _⟩⟩
    exact ⟨⟨s1, h1, n1⟩, ⟨s2, h2, n2⟩, ⟨x3, h3, p3⟩, ⟨s4, h4, n4⟩, ⟨x5, h5, p5⟩⟩
  · rintro ⟨⟨s1, h1, n1⟩, ⟨s2, h2, n2⟩, ⟨x3, h3, p3⟩, ⟨s4, h4, n4⟩, ⟨x5, h5, p5⟩⟩
    exact ⟨⟨_, s1, h1, n1, rfl⟩, ⟨_, s2, h2, n2, rfl⟩, ⟨_, x3, h3, p3, rfl⟩,
      ⟨_, s4, h4, n4, rfl⟩, ⟨_, x5, h5, p5, rfl⟩⟩

/-- The data the package schema resolves to: the form with the five fields replaced by
their cast values. -/
theorem packageSchema_data (c : Coercions) (values data : Obj)
    (h : yupResolver c packageSchema values = .ok data) :
    ∃ s1 s2 x3 s4 x5,
      s1 ≠ "" ∧ s2 ≠ "" ∧ 0 < x3 ∧ s4 ≠ "" ∧ 0 < x5 ∧
      data = ((((values.set "title" (.str s1)).set "description" (.str s2)).set "price"
        (.num (.num x3))).set "team" (.str s4)).set "duration" (.num (.num x5)) := by
  have hall := (yupResolver_ok_iff c packageSchema values).mp ⟨data, h⟩
  simp only [packageSchema, List.mem_cons, List.mem_singleton, List.not_mem_nil, or_false,
    forall_eq_or_imp, forall_eq, validateField_required_string,
    validateField_required_positive] at hall
  obtain ⟨⟨v1, s1, h1, n1, e1⟩, ⟨v2, s2, h2, n2, e2⟩, ⟨v3, x3, h3, p3, e3⟩,
    ⟨v4, s4, h4, n4, e4⟩, ⟨v5, x5, h5, p5, e5⟩⟩ := hall
  have f1 := (validateField_required_string c "Title is required" (values.get "title")
    (.str s1)).mpr ⟨s1, h1, n1, rfl⟩
  have f2 := (validateField_required_string c "Description is required"
    (values.get "description") (.str s2)).mpr ⟨s2, h2, n2, rfl⟩
  have f3 := (validateField_required_positive c "Price is required"
    "Price must be a positive number" (values.get "price") (.num (.num x3))).mpr
    ⟨x3, h3, p3, rfl⟩
  have f4 := (validateField_required_string c "Team selection is required"
    (values.get "team") (.str s4)).mpr ⟨s4, h4, n4, rfl⟩
  have f5 := (validateField_required_positive c "Duration is required"
    "Duration must be a positive number" (values.get "duration") (.num (.num x5))).mpr
    ⟨x5, h5, p5, rfl⟩
  refine ⟨s1, s2, x3, s4, x5, n1, n2, p3, n4, p5, ?_⟩
  have hfe : fieldErrors c packageSchema values = [] := by
    simp [fieldErrors, packageSchema, f1, f2, f3, f4, f5]
  have hdata : yupResolver c packageSchema values
      = .ok (castObject c packageSchema values) := by
    simp [yupResolver, hfe]
  rw [hdata] at h
  simp only [Except.ok.injEq] at h
  rw [← h]
  simp [castObject, packageSchema, f1, f2, f3, f4, f5]

/-- C9: a package form that violates `packageSchema` (title, description or team not a
non-empty string, price or duration not a number greater than zero) never reaches
`Packages.onSubmit`: the submit only attaches the errors, starts no upload, issues no
`addDoc` or `updateDoc`, and leaves the modal as it was; and `onSubmit` runs only on data
whose title, description and team are non-empty strings and whose price and duration are
numbers greater than zero. -/
theorem invalid_package_form_not_submitted (c : Coercions) (env : StorageEnv)
    (g : GatewayEnv) (st : PackagesState) (values : Obj) :
    ((∃ data, yupResolver c packageSchema values = .ok data) ↔
      (∃ s, castString c (values.get "title") = .str s ∧ s ≠ "") ∧
      (∃ s, castString c (values.get "description") = .str s ∧ s ≠ "") ∧
      (∃ x, castNumber c (values.get "price") = .num (.num x) ∧ 0 < x) ∧
      (∃ s, castString c (values.get "team") = .str s ∧ s ≠ "") ∧
      (∃ x, castNumber c (values.get "duration") = .num (.num x) ∧ 0 < x)) ∧
    (∀ errs, yupResolver c packageSchema values = .error errs →
      (Packages.submitForm c env g st values).trace
        = [.preventDefault, .setFormErrors errs] ∧
      uploadsStarted (Packages.submitForm c env g st values).trace = [] ∧
      gatewayWrites (Packages.submitForm c env g st values).trace = [] ∧
      (st.applyEffects (Packages.submitForm c env g st values).trace).isModalOpen
        = st.isModalOpen) ∧
    (∀ data, yupResolver c packageSchema values = .ok data →
      (Packages.submitForm c env g st values).trace
        = .preventDefault :: (Packages.onSubmit env g st data).trace ∧
      (∃ s, data.get "title" = .str s ∧ s ≠ "") ∧
      (∃ s, data.get "description" = .str s ∧ s ≠ "") ∧
      (∃ x, data.get "price" = .num (.num x) ∧ 0 < x) ∧
      (∃ s, data.get "team" = .str s ∧ s ≠ "") ∧
      (∃ x, data.get "duration" = .num (.num x) ∧ 0 < x)) := by
  refine ⟨packageSchema_ok_iff c values, ?_, ?_⟩
  · intro errs herr
    have htr : (Packages.submitForm c env g st values).trace
        = [.preventDefault, .setFormErrors errs] := by
      simp [Packages.submitForm, formHandleSubmit, herr, Run.emit]
    rw [htr]
    refine ⟨rfl, ?_, ?_, ?_⟩
    · simp [uploadsStarted]
    · simp [gatewayWrites, Effect.isGatewayWrite]
    · simp [PackagesState.applyEffects, PackagesState.apply]
  · intro data hok
    obtain ⟨s1, s2, x3, s4, x5, n1, n2, p3, n4, p5, hdata⟩ :=
      packageSchema_data c values data hok
    refine ⟨?_, ⟨s1, ?_, n1⟩, ⟨s2, ?_, n2⟩, ⟨x3, ?_, p3⟩, ⟨s4, ?_, n4⟩, ⟨x5, ?_, p5⟩⟩
    · simp [Packages.submitForm, formHandleSubmit, hok, Run.emit_andThen]
    · rw [hdata, Obj.get_set_ne _ _ _ _ (by decide), Obj.get_set_ne _ _ _ _ (by decide),
        Obj.get_set_ne _ _ _ _ (by decide), Obj.get_set_ne _ _ _ _ (by decide),
        Obj.get_set_self]
    · rw [hdata, Obj.get_set_ne _ _ _ _ (by decide), Obj.get_set_ne _ _ _ _ (by decide),
        Obj.get_set_ne _ _ _ _ (by decide), Obj.get_set_self]
    · rw [hdata, Obj.get_set_ne _ _ _ _ (by decide), Obj.get_set_ne _ _ _ _ (by decide),
        Obj.get_set_self]
    · rw [hdata, Obj.get_set_ne _ _ _ _ (by decide), Obj.get_set_self]
    · rw [hdata, Obj.get_set_self]

/-- C9, witness: the package form of the example scenario with the title left empty. -/
theorem invalid_package_form_not_submitted_witness :
    (Packages.submitForm sampleCoercions reliableStorage reliableGateway createPackageScreen
        untitledPackageForm).trace
      = [.preventDefault, .setFormErrors [("title", "Title is required")]] ∧
    gatewayWrites (Packages.submitForm sampleCoercions reliableStorage reliableGateway
        createPackageScreen untitledPackageForm).trace = [] :=
  have h := (invalid_package_form_not_submitted sampleCoercions reliableStorage
    reliableGateway createPackageScreen untitledPackageForm).2.1
    [("title", "Title is required")] rfl
  ⟨h.1, h.2.2.1⟩

/-! ## Product form: no validation -/

/-- The gateway writes of `handleAddEditProduct` are its one write, issued first whatever
follows. -/
theorem handleAddEditProduct_writes (g : GatewayEnv) (st : ProductManagementState)
    (data : Obj) :
    gatewayWrites (handleAddEditProduct g st data).trace
      = (writeProduct g st.editProduct data).trace := by
  have hw : gatewayWrites (writeProduct g st.editProduct data).trace
      = (writeProduct g st.editProduct data).trace := by
    unfold writeProduct
    cases st.editProduct <;> simp [gatewayWrites, Effect.isGatewayWrite]
  rw [handleAddEditProduct_eq]
  cases (writeProduct g st.editProduct data).result with
  | error e => exact hw
  | ok _ =>
    simp only [gatewayWrites_append, hw, (fetchProducts_no_save g).2.2]
    simp [gatewayWrites, Effect.isGatewayWrite]

/-- C10 (amended): the product form has no required-field check. For every name, price
and description, empty ones included, and whenever the uploads of the selected files
succeed, the submit calls `onSave` exactly once, with the name as entered and the price
`parseFloat(price)`, and the gateway create (or update, in edit mode) is issued. -/
theorem product_form_submits_without_validation (parseFloat : JSValue → JSNumber)
    (env : StorageEnv) (g : GatewayEnv) (st : ProductManagementState) (s : ProductModalState)
    (urls : List String)
    (hlen : urls.length = s.imageFiles.length)
    (hup : ∀ i f, s.imageFiles[i]? = some f →
      env.uploadBytesResumable i ("productImages/" ++ f.name) f = .ok ())
    (hurl : ∀ i f u, s.imageFiles[i]? = some f → urls[i]? = some u →
      env.getDownloadURL i ("productImages/" ++ f.name) = .ok u) :
    onSaveCalls (submitProduct parseFloat env g st s).trace
      = [productData parseFloat s (s.imageUrls ++ urls)] ∧
    (productData parseFloat s (s.imageUrls ++ urls)).get "name" = s.name ∧
    (productData parseFloat s (s.imageUrls ++ urls)).get "price" = .num (parseFloat s.price) ∧
    gatewayWrites (submitProduct parseFloat env g st s).trace
      = (writeProduct g st.editProduct (productData parseFloat s (s.imageUrls ++ urls))).trace ∧
    (st.editProduct = none →
      gatewayWrites (submitProduct parseFloat env g st s).trace
        = [.addDoc "products"
            ((productData parseFloat s (s.imageUrls ++ urls)).set "createdAt"
              .serverTimestamp)]) := by
  have hp := uploadPhase_ok env s urls hlen hup hurl
  have hno := uploadPhase_no_save env s
  have hsave := handleAddEditProduct_no_save g st
    (productData parseFloat s (s.imageUrls ++ urls))
  have hwr := handleAddEditProduct_writes g st
    (productData parseFloat s (s.imageUrls ++ urls))
  have htail : ∀ r : Run,
      onSaveCalls (r.andThen (Run.emit [.setIsModalOpen false])).trace = onSaveCalls r.trace ∧
      gatewayWrites (r.andThen (Run.emit [.setIsModalOpen false])).trace
        = gatewayWrites r.trace := by
    intro r
    unfold Run.andThen
    cases r.result with
    | error e => exact ⟨rfl, rfl⟩
    | ok _ =>
      simp [onSaveCalls_append, gatewayWrites_append, Run.emit, onSaveCalls, gatewayWrites,
        Effect.isGatewayWrite]
  have hcalls : onSaveCalls (submitProduct parseFloat env g st s).trace
      = [productData parseFloat s (s.imageUrls ++ urls)] := by
    unfold submitProduct
    rw [handleSubmit_of_upload_ok parseFloat env _ _ s _ hp.1]
    simp only [onSaveCalls_append, hno.1, (htail _).1, hsave.1]
    simp [onSaveCalls]
  have hwrites : gatewayWrites (submitProduct parseFloat env g st s).trace
      = (writeProduct g st.editProduct
          (productData parseFloat s (s.imageUrls ++ urls))).trace := by
    unfold submitProduct
    rw [handleSubmit_of_upload_ok parseFloat env _ _ s _ hp.1]
    simp only [gatewayWrites_append, hno.2, (htail _).2, hwr]
    simp [gatewayWrites, Effect.isGatewayWrite]
  refine ⟨hcalls, ?_, ?_, hwrites, ?_⟩
  · simp [productData, Obj.get, List.lookup]
  · simp [productData, Obj.get, List.lookup]
  · intro hnone
    rw [hwrites]
    simp [writeProduct, hnone]

/-- C10, witness: the product form is submitted in create mode with name and price left
empty. -/
theorem product_form_submits_without_validation_witness :
    onSaveCalls (submitProduct sampleParseFloat reliableStorage reliableGateway createScreen
        blankModal).trace
      = [productData sampleParseFloat blankModal (blankModal.imageUrls ++ [])] :=
  (product_form_submits_without_validation sampleParseFloat reliableStorage reliableGateway
    createScreen blankModal [] rfl
    (fun i f h => by simp [blankModal] at h)
    (fun i f u h => by simp [blankModal] at h)).1

/-- C10, counterexample: with an empty name and an empty price the submit of the product
form calls `onSave` with name "" and price `NaN`, and the gateway create is issued. -/
theorem blank_product_reaches_gateway :
    (onSaveCalls (submitProduct sampleParseFloat reliableStorage reliableGateway createScreen
        blankModal).trace).map (fun data => (data.get "name", data.get "price"))
      = [(.str "", .num .nan)] ∧
    gatewayWrites (submitProduct sampleParseFloat reliableStorage reliableGateway createScreen
        blankModal).trace
      = [.addDoc "products"
          ⟨[("name", .str ""), ("price", .num .nan), ("description", .str ""),
            ("imageUrls", .strs []), ("createdAt", .serverTimestamp)]⟩] := by
  constructor <;> rfl

/-! ## List screens: refresh after a write, injected id -/

theorem packagesState_applyEffects_append (st : PackagesState) (a b : List Effect) :
    st.applyEffects (a ++ b) = (st.applyEffects a).applyEffects b := by
  simp [PackagesState.applyEffects, List.foldl_append]

theorem productScreen_applyEffects_append (st : ProductManagementState)
    (a b : List Effect) :
    st.applyEffects (a ++ b) = (st.applyEffects a).applyEffects b := by
  simp [ProductManagementState.applyEffects, List.foldl_append]

/-- The image step of `onSubmit` sets no state of the package screen. -/
theorem Packages.uploadImage_state (env : StorageEnv) (st st' : PackagesState) :
    st'.applyEffects (Packages.uploadImage env st).2 = st' := by
  unfold Packages.uploadImage
  cases st.imageFile with
  | none => rfl
  | some f =>
    simp only
    cases env.uploadBytes ("packages/" ++ f.name) f with
    | error e => rfl
    | ok _ => cases env.getDownloadURL 0 ("packages/" ++ f.name) <;> rfl

/-- The gateway write of `onSubmit` is one effect, and sets no state. -/
theorem Packages.write_state (g : GatewayEnv) (editId : JSValue) (data : Obj)
    (st' : PackagesState) :
    st'.applyEffects (Packages.write g editId data).trace = st' := by
  unfold Packages.write
  split <;> rfl

theorem writeProduct_state (g : GatewayEnv) (p : Option Obj) (data : Obj)
    (st' : ProductManagementState) :
    st'.applyEffects (writeProduct g p data).trace = st' := by
  unfold writeProduct
  cases p <;> rfl

/-- A successful run of `Packages.confirmDelete`: the confirmation, the delete, then the
re-list. -/
theorem Packages.confirmDelete_ok (g : GatewayEnv) (id : String)
    (h : (Packages.confirmDelete g true id).result = .ok ()) :
    ∃ docs, g.getDocs "packages" = .ok docs ∧
      (Packages.confirmDelete g true id).trace
        = [.confirm "Are you sure you want to delete this package?",
            .deleteDoc "packages" (.str id), .getDocs "packages",
            .setPackages (docs.map withId)] := by
  simp only [Packages.confirmDelete, if_true] at h ⊢
  cases hd : g.deleteDoc "packages" id with
  | error e => simp [Run.andThen, hd] at h
  | ok _ =>
    cases hg : g.getDocs "packages" with
    | error e => simp [Run.andThen, hd, Packages.relist, hg] at h
    | ok docs => exact ⟨docs, rfl, by simp [Run.andThen, hd, Packages.relist, hg]⟩

/-- A successful run of `handleDeleteProduct`: the confirmation, the delete, then the local
filter of the in-memory list; the collection is not listed. -/
theorem handleDeleteProduct_ok (g : GatewayEnv) (st : ProductManagementState) (id : String)
    (h : (handleDeleteProduct g true st id).result = .ok ()) :
    (handleDeleteProduct g true st id).trace
      = [.confirm "Are you sure you want to delete this product?",
          .deleteDoc "products" (.str id),
          .setProducts (st.products.filter (fun product => product.get "id" != .str id))] := by
  simp only [handleDeleteProduct, if_true] at h ⊢
  cases hd : g.deleteDoc "products" id with
  | error e => simp [Run.andThen, hd] at h
  | ok _ => simp [Run.andThen, Run.emit, hd]

/-- C11 (amended): after a successful create or update on either admin screen, and after a
successful delete on the package screen, the write is followed by a `getDocs` of the
whole collection and the in-memory list becomes the result of that fetch. After a
successful delete on the product screen no fetch is made: the in-memory list becomes the
previous list without the records whose id is the deleted one. -/
theorem list_after_successful_write :
    (∀ (env : StorageEnv) (g : GatewayEnv) (st : PackagesState) (data : Obj),
      (Packages.onSubmit env g st data).result = .ok () →
      ∃ (w : Effect) (docs : List DocSnapshot),
        w.isGatewayWrite = true ∧ g.getDocs "packages" = .ok docs ∧
        (Packages.onSubmit env g st data).trace
          = (Packages.uploadImage env st).2
            ++ [w, .getDocs "packages", .setPackages (docs.map withId)]
            ++ Packages.closeModal ∧
        (st.applyEffects (Packages.onSubmit env g st data).trace).packages
          = docs.map withId) ∧
    (∀ (g : GatewayEnv) (st : PackagesState) (id : String),
      (Packages.confirmDelete g true id).result = .ok () →
      ∃ docs : List DocSnapshot, g.getDocs "packages" = .ok docs ∧
        (Packages.confirmDelete g true id).trace
          = [.confirm "Are you sure you want to delete this package?",
              .deleteDoc "packages" (.str id), .getDocs "packages",
              .setPackages (docs.map withId)] ∧
        (st.applyEffects (Packages.confirmDelete g true id).trace).packages
          = docs.map withId) ∧
    (∀ (g : GatewayEnv) (st : ProductManagementState) (data : Obj),
      (handleAddEditProduct g st data).result = .ok () →
      ∃ (w : Effect) (docs : List DocSnapshot),
        w.isGatewayWrite = true ∧ g.getDocs "products" = .ok docs ∧
        (handleAddEditProduct g st data).trace
          = [w, .setIsModalOpen false, .setEditProduct none, .getDocs "products",
              .setProducts (docs.map withId)] ∧
        (st.applyEffects (handleAddEditProduct g st data).trace).products
          = docs.map withId) ∧
    (∀ (g : GatewayEnv) (st : ProductManagementState) (id : String),
      (handleDeleteProduct g true st id).result = .ok () →
      (handleDeleteProduct g true st id).trace
        = [.confirm "Are you sure you want to delete this product?",
            .deleteDoc "products" (.str id),
            .setProducts (st.products.filter (fun product => product.get "id" != .str id))] ∧
      (st.applyEffects (handleDeleteProduct g true st id).trace).products
        = st.products.filter (fun product => product.get "id" != .str id)) := by
  refine ⟨?_, ?_, ?_, ?_⟩
  · intro env g st data hok
    obtain ⟨url, docs, _, _, hd, htr⟩ := Packages.onSubmit_ok env g st data hok
    have hstate : (st.applyEffects (Packages.onSubmit env g st data).trace).packages
        = docs.map withId := by
      rw [htr]
      simp only [packagesState_applyEffects_append, Packages.uploadImage_state,
        Packages.write_state]
      simp [PackagesState.applyEffects, PackagesState.apply, Packages.closeModal]
    by_cases ht : st.editId.truthy = true
    · refine ⟨.updateDoc "packages" st.editId (data.set "imageUrl" url), docs, rfl, hd, ?_,
        hstate⟩
      rw [htr]
      simp [Packages.write, ht]
    · refine ⟨.addDoc "packages" (data.set "imageUrl" url), docs, rfl, hd, ?_, hstate⟩
      rw [htr]
      simp [Packages.write, ht]
  · intro g st id hok
    obtain ⟨docs, hd, htr⟩ := Packages.confirmDelete_ok g id hok
    refine ⟨docs, hd, htr, ?_⟩
    rw [htr]
    simp [PackagesState.applyEffects, PackagesState.apply]
  · intro g st data hok
    obtain ⟨docs, _, hd, htr⟩ := handleAddEditProduct_ok g st data hok
    have hstate : (st.applyEffects (handleAddEditProduct g st data).trace).products
        = docs.map withId := by
      rw [htr]
      simp only [productScreen_applyEffects_append, writeProduct_state]
      simp [ProductManagementState.applyEffects, ProductManagementState.apply]
    cases hp : st.editProduct with
    | none =>
      refine ⟨.addDoc "products" (data.set "createdAt" .serverTimestamp), docs, rfl, hd, ?_,
        hstate⟩
      rw [htr]
      simp [writeProduct, hp]
    | some p =>
      refine ⟨.updateDoc "products" (p.get "id") (data.set "updatedAt" .serverTimestamp),
        docs, rfl, hd, ?_, hstate⟩
      rw [htr]
      simp [writeProduct, hp]
  · intro g st id hok
    have htr := handleDeleteProduct_ok g st id hok
    refine ⟨htr, ?_⟩
    rw [htr]
    simp [ProductManagementState.applyEffects, ProductManagementState.apply]

/-- C11, witness: a package is deleted, with working services. -/
theorem list_after_successful_write_witness :
    ∃ docs : List DocSnapshot, reliableGateway.getDocs "packages" = .ok docs ∧
      (Packages.confirmDelete reliableGateway true "pkg1").trace
        = [.confirm "Are you sure you want to delete this package?",
            .deleteDoc "packages" (.str "pkg1"), .getDocs "packages",
            .setPackages (docs.map withId)] ∧
      (editPackageScreen.applyEffects
          (Packages.confirmDelete reliableGateway true "pkg1").trace).packages
        = docs.map withId :=
  list_after_successful_write.2.1 reliableGateway editPackageScreen "pkg1" rfl

/-- C11, counterexample: the product `p1` is deleted while the collection holds `p2` and a
record `p3` added elsewhere. The delete succeeds, no `getDocs` is issued, and the in-memory
list is the previous list without `p1`, not the fetched collection. -/
theorem product_delete_patches_list_locally :
    (handleDeleteProduct sharedGateway true twoProductsScreen "p1").result = .ok () ∧
    Effect.getDocs "products"
      ∉ (handleDeleteProduct sharedGateway true twoProductsScreen "p1").trace ∧
    (twoProductsScreen.applyEffects
        (handleDeleteProduct sharedGateway true twoProductsScreen "p1").trace).products
      = [⟨[("name", .str "Ring B"), ("id", .str "p2")]⟩] ∧
    (twoProductsScreen.applyEffects
        (handleDeleteProduct sharedGateway true twoProductsScreen "p1").trace).products
      ≠ (match sharedGateway.getDocs "products" with
          | .ok docs => docs.map withId
          | .error _ => []) := by
  refine ⟨rfl, by decide, by decide, by decide⟩

/-- On the admin screens the record of a document carries the document key as `id`,
whatever the document data holds. -/
theorem withId_id (d : DocSnapshot) : (withId d).get "id" = .str d.id := by
  simp [withId, Obj.get_set_self]

/-- C12, the failing input: a `packages` document with key `k1` whose data has a field
`id`. The admin screens give the record the id `k1`; the booking flow, which spreads the
data after the key, gives it the id stored in the data. -/
theorem booking_record_id_overridden :
    (withId legacyPackageDoc).get "id" = .str "k1" ∧
    (ServiceSelection.record legacyPackageDoc).get "id" = .str "legacy-7" ∧
    ((ServiceSelectionState.initial.applyEffects
        (ServiceSelection.fetchData legacyGateway).trace).packages.map
        (fun pkg => pkg.get "id")) = [.str "legacy-7"] ∧
    ((PackagesState.initial.applyEffects
        (Packages.fetchData legacyGateway).trace).packages.map
        (fun pkg => pkg.get "id")) = [.str "k1"] := by
  refine ⟨by decide, by decide, by decide, by decide⟩

/-! ## Busy flags -/

/-- Whenever the persistence or the notification fails, the loading flag set at the start of
`CheckoutPage.onSubmit` is never reset. -/
theorem checkout_loading_after_failure (env : CheckoutEnv)
    (calculateTotal : List CartItem → JSNumber) (cart : List CartItem) (data : Obj)
    (st : CheckoutState)
    (h : ¬ (CheckoutPage.persisted env calculateTotal cart data = .ok () ∧
        CheckoutPage.notified env calculateTotal cart data = .ok ())) :
    (st.afterTimers (CheckoutPage.onSubmit env calculateTotal cart data).trace).loading
      = true := by
  have htr := onSubmit_trace env calculateTotal cart data
  cases h1 : CheckoutPage.persisted env calculateTotal cart data with
  | error e =>
    rw [h1] at htr
    simp only at htr
    rw [htr]
    simp [CheckoutState.afterTimers, CheckoutState.applyEffects, CheckoutState.apply,
      scheduledCallbacks, CheckoutPage.persistEffect, CheckoutPage.errorAlert]
  | ok u =>
    cases h2 : CheckoutPage.notified env calculateTotal cart data with
    | error e =>
      rw [h1, h2] at htr
      simp only at htr
      rw [htr]
      simp [CheckoutState.afterTimers, CheckoutState.applyEffects, CheckoutState.apply,
        scheduledCallbacks, CheckoutPage.persistEffect, CheckoutPage.notifyEffect,
        CheckoutPage.errorAlert]
    | ok u' => exact absurd ⟨by rw [h1], by rw [h2]⟩ h

/-- When the first failure of the upload loop is a rejected download URL, the loop has
called no setter of the modal. -/
theorem uploadImages_url_failure_state (env : StorageEnv) (files : List File) :
    ∀ (i : Nat) (acc : List String) (k : Nat) (f : File) (e : Err) (s : ProductModalState),
      files[k]? = some f →
      (∀ j g, j < k → files[j]? = some g →
        env.uploadBytesResumable (i + j) ("productImages/" ++ g.name) g = .ok () ∧
        ∃ u, env.getDownloadURL (i + j) ("productImages/" ++ g.name) = .ok u) →
      env.uploadBytesResumable (i + k) ("productImages/" ++ f.name) f = .ok () →
      env.getDownloadURL (i + k) ("productImages/" ++ f.name) = .error e →
      (uploadImages env i files acc).1 = .error e ∧
      s.applyEffects (uploadImages env i files acc).2 = s := by
  induction files with
  | nil => intro i acc k f e s hk; simp at hk
  | cons g rest ih =>
    intro i acc k f e s hk hbefore hup hurl
    cases k with
    | zero =>
      have hfg : g = f := by simpa using hk
      subst hfg
      simp only [Nat.add_zero] at hup hurl
      rw [uploadImages_urlError env i g rest acc e hup hurl]
      exact ⟨rfl, rfl⟩
    | succ k =>
      obtain ⟨hu, u, hd⟩ := hbefore 0 g (Nat.succ_pos k) (by simp)
      simp only [Nat.add_zero] at hu hd
      have hrest := ih (i + 1) (acc ++ [u]) k f e s (by simpa using hk)
        (fun j g' hj hg' => by
          have := hbefore (j + 1) g' (Nat.succ_lt_succ hj) (by simpa using hg')
          simpa [Nat.add_assoc, Nat.add_comm 1 j] using this)
        (by simpa [Nat.add_assoc, Nat.add_comm 1 k] using hup)
        (by simpa [Nat.add_assoc, Nat.add_comm 1 k] using hurl)
      rw [uploadImages_step env i g rest acc u hu hd]
      refine ⟨hrest.1, ?_⟩
      have h2 := hrest.2
      simp only [ProductModalState.applyEffects, List.foldl_append] at h2 ⊢
      simpa [ProductModalState.apply] using h2

/-- Whenever the first failing upload of a submit fails at the resolution of the download
URL, `ProductModal.handleSubmit` terminates with the uploading flag true. -/
theorem handleSubmit_uploading_after_url_failure (parseFloat : JSValue → JSNumber)
    (env : StorageEnv) (onSave : Obj → Run) (onClose : List Effect) (s : ProductModalState)
    (k : Nat) (f : File) (e : Err)
    (hk : s.imageFiles[k]? = some f)
    (hbefore : ∀ j g, j < k → s.imageFiles[j]? = some g →
      env.uploadBytesResumable j ("productImages/" ++ g.name) g = .ok () ∧
      ∃ u, env.getDownloadURL j ("productImages/" ++ g.name) = .ok u)
    (hup : env.uploadBytesResumable k ("productImages/" ++ f.name) f = .ok ())
    (hurl : env.getDownloadURL k ("productImages/" ++ f.name) = .error e) :
    (ProductModal.handleSubmit parseFloat env onSave onClose s).result = .error e ∧
    (s.applyEffects (ProductModal.handleSubmit parseFloat env onSave onClose s).trace).uploading
      = true := by
  have hloop := uploadImages_url_failure_state env s.imageFiles 0 s.imageUrls k f e
    { s with uploading := true } hk
    (fun j g hj hg => by simpa using hbefore j g hj hg) (by simpa using hup)
    (by simpa using hurl)
  have hpos : s.imageFiles.length > 0 := by
    cases hf : s.imageFiles with
    | nil => simp [hf] at hk
    | cons a l => simp
  have hphase : uploadPhase env s
      = (.error e, [.setUploading true] ++ (uploadImages env 0 s.imageFiles s.imageUrls).2) := by
    unfold uploadPhase
    rw [if_pos hpos]
    split
    · next e' tr heq =>
      rw [heq] at hloop
      simp only [Except.error.injEq] at hloop
      rw [heq, hloop.1]
    · next l tr heq => rw [heq] at hloop; simp at hloop
  have hres : (uploadPhase env s).1 = .error e := by rw [hphase]
  rw [handleSubmit_of_upload_error parseFloat env onSave onClose s e hres, hphase]
  refine ⟨rfl, ?_⟩
  have h2 := hloop.2
  simp only [ProductModalState.applyEffects, List.foldl_append, List.foldl_cons,
    List.foldl_nil] at h2 ⊢
  simp only [ProductModalState.apply]
  rw [h2]

/-- C13, the failing input: the gateway rejects the order (and likewise when the e-mail
service rejects the notification). `setLoading(true)` is the only setter of the run and no
timer is scheduled, so the loading flag is still true after the handler has settled, and
stays true: the button "Place Order" remains disabled. On the success path the flag is
reset by the timer. -/
theorem checkout_loading_stuck_after_failure :
    (CheckoutPage.onSubmit gatewayDown ringTotal ringCart ringOrderForm).trace
      = [.setLoading true,
          CheckoutPage.persistEffect gatewayDown ringTotal ringCart ringOrderForm,
          .consoleError "unavailable", CheckoutPage.errorAlert] ∧
    (CheckoutState.initial.afterTimers
        (CheckoutPage.onSubmit gatewayDown ringTotal ringCart ringOrderForm).trace).loading
      = true ∧
    (CheckoutState.initial.afterTimers
        (CheckoutPage.onSubmit mailDown ringTotal ringCart ringOrderForm).trace).loading
      = true ∧
    (CheckoutState.initial.afterTimers
        (CheckoutPage.onSubmit reliableCheckout ringTotal ringCart ringOrderForm).trace).loading
      = false := by
  refine ⟨rfl, rfl, rfl, rfl⟩

/-- C14, the failing input: one file is selected, its upload completes and the resolution
of its download URL is rejected. The `catch` of the completion callback logs and rejects
without `setUploading(false)`, so the submit terminates with the uploading flag still
true; when the upload task itself reports the error the flag is reset. -/
theorem uploading_stuck_after_url_failure :
    (ProductModal.handleSubmit sampleParseFloat urlDownStorage
        (handleAddEditProduct reliableGateway createScreen) [.setIsModalOpen false]
        { ringModal with imageFiles := [⟨"c.png"⟩] }).result
      = .error "storage/retry-limit-exceeded" ∧
    (ProductModal.handleSubmit sampleParseFloat urlDownStorage
        (handleAddEditProduct reliableGateway createScreen) [.setIsModalOpen false]
        { ringModal with imageFiles := [⟨"c.png"⟩] }).trace
      = [.preventDefault, .setUploading true,
          .uploadBytesResumable "productImages/c.png" ⟨"c.png"⟩,
          .getDownloadURL "productImages/c.png",
          .consoleError "storage/retry-limit-exceeded"] ∧
    (({ ringModal with imageFiles := [⟨"c.png"⟩] } : ProductModalState).applyEffects
        (ProductModal.handleSubmit sampleParseFloat urlDownStorage
          (handleAddEditProduct reliableGateway createScreen) [.setIsModalOpen false]
          { ringModal with imageFiles := [⟨"c.png"⟩] }).trace).uploading
      = true ∧
    (({ ringModal with imageFiles := [⟨"c.png"⟩, ⟨"d.png"⟩] } : ProductModalState).applyEffects
        (ProductModal.handleSubmit sampleParseFloat flakyStorage
          (handleAddEditProduct reliableGateway createScreen) [.setIsModalOpen false]
          { ringModal with imageFiles := [⟨"c.png"⟩, ⟨"d.png"⟩] }).trace).uploading
      = false := by
  refine ⟨rfl, rfl, rfl, rfl⟩

/-! ## Package controller -/

theorem recordsWritten_append (a b : List Effect) :
    recordsWritten (a ++ b) = recordsWritten a ++ recordsWritten b := by
  simp [recordsWritten, List.filterMap_append]

theorem Packages.uploadImage_records (env : StorageEnv) (st : PackagesState) :
    recordsWritten (Packages.uploadImage env st).2 = [] := by
  unfold Packages.uploadImage
  cases st.imageFile with
  | none => rfl
  | some f =>
    simp only
    cases env.uploadBytes ("packages/" ++ f.name) f with
    | error e => rfl
    | ok _ => cases env.getDownloadURL 0 ("packages/" ++ f.name) <;> rfl

/-- Once the image step has resolved to `v`, the one record `Packages.onSubmit` writes is
the form data with `imageUrl` set to `v`, and the only uploads are those of the image
step. -/
theorem Packages.onSubmit_records (env : StorageEnv) (g : GatewayEnv) (st : PackagesState)
    (data : Obj) (v : JSValue) (h : (Packages.uploadImage env st).1 = .ok v) :
    recordsWritten (Packages.onSubmit env g st data).trace = [data.set "imageUrl" v] ∧
    uploadsStarted (Packages.onSubmit env g st data).trace
      = uploadsStarted (Packages.uploadImage env st).2 := by
  have hrec := Packages.uploadImage_records env st
  unfold Packages.onSubmit
  cases hu : Packages.uploadImage env st with
  | mk r tr =>
    rw [hu] at h hrec
    simp only at h hrec
    subst h
    simp only [Run.emit_andThen]
    have hw : recordsWritten (Packages.write g st.editId (data.set "imageUrl" v)).trace
          = [data.set "imageUrl" v] ∧
        uploadsStarted (Packages.write g st.editId (data.set "imageUrl" v)).trace = [] := by
      unfold Packages.write
      split <;> exact ⟨rfl, rfl⟩
    cases hwr : (Packages.write g st.editId (data.set "imageUrl" v)).result with
    | error e =>
      simp only [Run.andThen, hwr, recordsWritten_append, uploadsStarted_append, hrec, hw.1,
        hw.2]
      simp
    | ok _ =>
      cases hd : g.getDocs "packages" with
      | error e =>
        simp only [Run.andThen, hwr, Packages.relist, hd, recordsWritten_append,
          uploadsStarted_append, hrec, hw.1, hw.2]
        simp [recordsWritten, uploadsStarted, Effect.writtenFields]
      | ok docs =>
        simp only [Run.andThen, Run.emit, hwr, Packages.relist, hd, recordsWritten_append,
          uploadsStarted_append, hrec, hw.1, hw.2]
        simp [recordsWritten, uploadsStarted, Effect.writtenFields, Packages.closeModal]

/-- A run of `Packages.onSubmit` either leaves the modal part of the state as it was or
ends with `closeModal`. -/
theorem Packages.onSubmit_modal_state (env : StorageEnv) (g : GatewayEnv)
    (closure : PackagesState) (data : Obj) (st : PackagesState) :
    ((st.applyEffects (Packages.onSubmit env g closure data).trace).isModalOpen
        = st.isModalOpen ∧
      (st.applyEffects (Packages.onSubmit env g closure data).trace).editId = st.editId ∧
      (st.applyEffects (Packages.onSubmit env g closure data).trace).imageFile
        = st.imageFile) ∨
    ((st.applyEffects (Packages.onSubmit env g closure data).trace).isModalOpen = false ∧
      (st.applyEffects (Packages.onSubmit env g closure data).trace).editId = .null ∧
      (st.applyEffects (Packages.onSubmit env g closure data).trace).imageFile = none) := by
  have hup := Packages.uploadImage_state env closure
  unfold Packages.onSubmit
  cases hu : Packages.uploadImage env closure with
  | mk r tr =>
    rw [hu] at hup
    simp only at hup
    cases r with
    | error e =>
      left
      simp only [hup]
      refine ⟨?_, ?_, ?_⟩ <;> first | rfl | trivial
    | ok v =>
      simp only [Run.emit_andThen]
      cases hwr : (Packages.write g closure.editId (data.set "imageUrl" v)).result with
      | error e =>
        left
        simp only [Run.andThen, hwr, packagesState_applyEffects_append, hup,
          Packages.write_state]
        refine ⟨?_, ?_, ?_⟩ <;> first | rfl | trivial
      | ok _ =>
        cases hd : g.getDocs "packages" with
        | error e =>
          left
          simp only [Run.andThen, hwr, Packages.relist, hd,
            packagesState_applyEffects_append, hup, Packages.write_state]
          exact ⟨rfl, rfl, rfl⟩
        | ok docs =>
          right
          simp only [Run.andThen, Run.emit, hwr, Packages.relist, hd,
            packagesState_applyEffects_append, hup, Packages.write_state]
          exact ⟨rfl, rfl, rfl⟩

/-- A run of `Packages.confirmDelete` leaves the modal part of the state as it was. -/
theorem Packages.confirmDelete_modal_state (g : GatewayEnv) (confirmed : Bool) (id : String)
    (st : PackagesState) :
    (st.applyEffects (Packages.confirmDelete g confirmed id).trace).isModalOpen
      = st.isModalOpen ∧
    (st.applyEffects (Packages.confirmDelete g confirmed id).trace).editId = st.editId ∧
    (st.applyEffects (Packages.confirmDelete g confirmed id).trace).imageFile
      = st.imageFile := by
  unfold Packages.confirmDelete
  cases confirmed with
  | false => exact ⟨rfl, rfl, rfl⟩
  | true =>
    simp only [if_true]
    cases hd : g.deleteDoc "packages" id with
    | error e =>
      simp only [Run.andThen, hd]
      exact ⟨rfl, rfl, rfl⟩
    | ok _ =>
      cases hg : g.getDocs "packages" with
      | error e =>
        simp only [Run.andThen, hd, Packages.relist, hg]
        exact ⟨rfl, rfl, rfl⟩
      | ok docs =>
        simp only [Run.andThen, hd, Packages.relist, hg]
        exact ⟨rfl, rfl, rfl⟩

/-- A run of `Packages.fetchData` leaves the modal part of the state as it was. -/
theorem Packages.fetchData_modal_state (g : GatewayEnv) (st : PackagesState) :
    (st.applyEffects (Packages.fetchData g).trace).isModalOpen = st.isModalOpen ∧
    (st.applyEffects (Packages.fetchData g).trace).editId = st.editId ∧
    (st.applyEffects (Packages.fetchData g).trace).imageFile = st.imageFile := by
  unfold Packages.fetchData
  cases hg : g.getDocs "packages" with
  | error e =>
    simp only [Run.andThen, Packages.relist, hg]
    exact ⟨rfl, rfl, rfl⟩
  | ok docs =>
    cases ht : g.getDocs "teams" with
    | error e =>
      simp only [Run.andThen, Packages.relist, hg]
      exact ⟨rfl, rfl, rfl⟩
    | ok teams =>
      simp only [Run.andThen, Packages.relist, hg]
      exact ⟨rfl, rfl, rfl⟩

/-- One event keeps the invariant: while the modal is closed, no record is being edited and
no file is selected. -/
theorem PackagesController.step_closed (c : PackagesController) (e : PackagesEvent)
    (h : c.state.isModalOpen = false → c.state.editId = .null ∧ c.state.imageFile = none) :
    (c.step e).state.isModalOpen = false →
      (c.step e).state.editId = .null ∧ (c.step e).state.imageFile = none := by
  cases e with
  | openModal p =>
    cases p with
    | none =>
      intro hclosed
      simp [PackagesController.step, Packages.openModal, PackagesState.applyEffects,
        PackagesState.apply] at hclosed
    | some p =>
      intro hclosed
      simp [PackagesController.step, Packages.openModal, PackagesState.applyEffects,
        PackagesState.apply] at hclosed
  | closeModal =>
    intro _
    simp [PackagesController.step, Packages.closeModal, PackagesState.applyEffects,
      PackagesState.apply]
  | imageChange file =>
    by_cases hopen : c.state.isModalOpen = true
    · intro hclosed
      cases file <;>
        simp [PackagesController.step, hopen, Packages.handleImageChange,
          PackagesState.applyEffects, PackagesState.apply] at hclosed
    · simpa [PackagesController.step, hopen] using h
  | previewLoaded file result =>
    by_cases hmem : file ∈ c.pendingReads
    · simpa [PackagesController.step, hmem, Packages.previewLoaded,
        PackagesState.applyEffects, PackagesState.apply] using h
    · simpa [PackagesController.step, hmem] using h
  | submitSettled env g closure data =>
    intro hclosed
    simp only [PackagesController.step] at hclosed ⊢
    rcases Packages.onSubmit_modal_state env g closure data c.state with ⟨h1, h2, h3⟩ | ⟨_, h2, h3⟩
    · rw [h1] at hclosed
      rw [h2, h3]
      exact h hclosed
    · exact ⟨h2, h3⟩
  | deleteSettled g confirmed id =>
    intro hclosed
    simp only [PackagesController.step] at hclosed ⊢
    obtain ⟨h1, h2, h3⟩ := Packages.confirmDelete_modal_state g confirmed id c.state
    rw [h1] at hclosed
    rw [h2, h3]
    exact h hclosed
  | dataFetched g =>
    intro hclosed
    simp only [PackagesController.step] at hclosed ⊢
    obtain ⟨h1, h2, h3⟩ := Packages.fetchData_modal_state g c.state
    rw [h1] at hclosed
    rw [h2, h3]
    exact h hclosed

/-- In every reachable state of the package controller in which the modal is closed, no
record is being edited and no file is selected. -/
theorem PackagesController.run_closed (events : List PackagesEvent) :
    (PackagesController.run events).state.isModalOpen = false →
      (PackagesController.run events).state.editId = .null ∧
      (PackagesController.run events).state.imageFile = none := by
  have hgen : ∀ (evs : List PackagesEvent) (c : PackagesController),
      (c.state.isModalOpen = false → c.state.editId = .null ∧ c.state.imageFile = none) →
      (evs.foldl PackagesController.step c).state.isModalOpen = false →
        (evs.foldl PackagesController.step c).state.editId = .null ∧
        (evs.foldl PackagesController.step c).state.imageFile = none := by
    intro evs
    induction evs with
    | nil => intro c hc; exact hc
    | cons e rest ih =>
      intro c hc
      exact ih (c.step e) (PackagesController.step_closed c e hc)
  exact hgen events ⟨PackagesState.initial, []⟩ (fun _ => ⟨rfl, rfl⟩)

/-- The state `openModal()` produces: the modal open, `imageUrl` null, the rest as it was. -/
theorem Packages.openModal_create (st : PackagesState) :
    (st.applyEffects (Packages.openModal none)).isModalOpen = true ∧
    (st.applyEffects (Packages.openModal none)).imageUrl = .null ∧
    (st.applyEffects (Packages.openModal none)).editId = st.editId ∧
    (st.applyEffects (Packages.openModal none)).imageFile = st.imageFile := by
  simp [Packages.openModal, PackagesState.applyEffects, PackagesState.apply]

/-- The state `openModal(record)` produces: the modal open on the record's id and image
reference, the selected file as it was. -/
theorem Packages.openModal_edit (st : PackagesState) (p : Obj) :
    (st.applyEffects (Packages.openModal (some p))).isModalOpen = true ∧
    (st.applyEffects (Packages.openModal (some p))).imageUrl = p.get "imageUrl" ∧
    (st.applyEffects (Packages.openModal (some p))).editId = p.get "id" ∧
    (st.applyEffects (Packages.openModal (some p))).imageFile = st.imageFile := by
  simp [Packages.openModal, PackagesState.applyEffects, PackagesState.apply]

/-- Without a selected file the image step is empty and resolves to the current
`imageUrl`. -/
theorem Packages.uploadImage_no_file (env : StorageEnv) (st : PackagesState)
    (h : st.imageFile = none) : Packages.uploadImage env st = (.ok st.imageUrl, []) := by
  simp [Packages.uploadImage, h]

/-- What holds of the record `Packages.onSubmit` writes: it is the form data with `imageUrl`
replaced. Without a selected file no upload is started, `imageUrl` is the controller's
current image reference, and the submit resolves whenever the gateway write and the re-list
do; in the state `openModal()` enters from a closed modal that reference is null, in the
state `openModal(record)` enters it is the record's `imageUrl`. With a selected file whose
upload succeeds, the one upload goes to `packages/<file name>` and `imageUrl` is the
download URL of that path. Nothing is said here of the states reached once a preview read
has completed. -/
theorem package_record_image_reference :
    (∀ (env : StorageEnv) (g : GatewayEnv) (st : PackagesState) (data : Obj),
      st.imageFile = none →
      uploadsStarted (Packages.onSubmit env g st data).trace = [] ∧
      recordsWritten (Packages.onSubmit env g st data).trace
        = [data.set "imageUrl" st.imageUrl] ∧
      ((Packages.write g st.editId (data.set "imageUrl" st.imageUrl)).result = .ok () →
        (Packages.relist g).result = .ok () →
        (Packages.onSubmit env g st data).result = .ok ())) ∧
    (∀ (env : StorageEnv) (g : GatewayEnv) (st : PackagesState) (data : Obj) (f : File)
      (url : String),
      st.imageFile = some f →
      env.uploadBytes ("packages/" ++ f.name) f = .ok () →
      env.getDownloadURL 0 ("packages/" ++ f.name) = .ok url →
      uploadsStarted (Packages.onSubmit env g st data).trace = ["packages/" ++ f.name] ∧
      recordsWritten (Packages.onSubmit env g st data).trace
        = [data.set "imageUrl" (.str url)]) ∧
    (∀ (data : Obj) (v : JSValue),
      (data.set "imageUrl" v).get "imageUrl" = v ∧
      ∀ k, k ≠ "imageUrl" → (data.set "imageUrl" v).get k = data.get k) ∧
    (∀ (events : List PackagesEvent) (env : StorageEnv) (g : GatewayEnv) (data : Obj),
      (PackagesController.run events).state.isModalOpen = false →
      uploadsStarted (Packages.onSubmit env g
          ((PackagesController.run events).state.applyEffects (Packages.openModal none))
          data).trace = [] ∧
      recordsWritten (Packages.onSubmit env g
          ((PackagesController.run events).state.applyEffects (Packages.openModal none))
          data).trace = [data.set "imageUrl" .null]) ∧
    (∀ (events : List PackagesEvent) (env : StorageEnv) (g : GatewayEnv) (data p : Obj),
      (PackagesController.run events).state.isModalOpen = false →
      uploadsStarted (Packages.onSubmit env g
          ((PackagesController.run events).state.applyEffects (Packages.openModal (some p)))
          data).trace = [] ∧
      recordsWritten (Packages.onSubmit env g
          ((PackagesController.run events).state.applyEffects (Packages.openModal (some p)))
          data).trace = [data.set "imageUrl" (p.get "imageUrl")]) := by
  have hnofile : ∀ (env : StorageEnv) (g : GatewayEnv) (st : PackagesState) (data : Obj),
      st.imageFile = none →
      uploadsStarted (Packages.onSubmit env g st data).trace = [] ∧
      recordsWritten (Packages.onSubmit env g st data).trace
        = [data.set "imageUrl" st.imageUrl] := by
    intro env g st data hfile
    have hu := Packages.uploadImage_no_file env st hfile
    have h := Packages.onSubmit_records env g st data st.imageUrl (by rw [hu])
    rw [hu] at h
    exact ⟨by simpa [uploadsStarted] using h.2, h.1⟩
  refine ⟨?_, ?_, ?_, ?_, ?_⟩
  · intro env g st data hfile
    refine ⟨(hnofile env g st data hfile).1, (hnofile env g st data hfile).2, ?_⟩
    intro hw hr
    simp [Packages.onSubmit, Packages.uploadImage_no_file env st hfile, Run.andThen, Run.emit,
      hw, hr]
  · intro env g st data f url hfile hup hurl
    have hu : Packages.uploadImage env st
        = (.ok (.str url), [.uploadBytes ("packages/" ++ f.name) f,
            .getDownloadURL ("packages/" ++ f.name)]) := by
      simp [Packages.uploadImage, hfile, hup, hurl]
    have h := Packages.onSubmit_records env g st data (.str url) (by rw [hu])
    rw [hu] at h
    exact ⟨by simpa [uploadsStarted] using h.2, h.1⟩
  · intro data v
    exact ⟨Obj.get_set_self data "imageUrl" v,
      fun k hk => Obj.get_set_ne data "imageUrl" k v hk⟩
  · intro events env g data hclosed
    have hinv := PackagesController.run_closed events hclosed
    obtain ⟨_, hurl, _, hfile⟩ :=
      Packages.openModal_create (PackagesController.run events).state
    have h := hnofile env g
      ((PackagesController.run events).state.applyEffects (Packages.openModal none)) data
      (by rw [hfile, hinv.2])
    rw [hurl] at h
    exact h
  · intro events env g data p hclosed
    have hinv := PackagesController.run_closed events hclosed
    obtain ⟨_, hurl, _, hfile⟩ :=
      Packages.openModal_edit (PackagesController.run events).state p
    have h := hnofile env g
      ((PackagesController.run events).state.applyEffects (Packages.openModal (some p))) data
      (by rw [hfile, hinv.2])
    rw [hurl] at h
    exact h

/-- The example scenario: the create form submitted with no image selected. -/
theorem package_record_image_reference_witness :
    uploadsStarted (Packages.onSubmit reliableStorage reliableGateway createPackageScreen
        goldPackage).trace = [] ∧
    recordsWritten (Packages.onSubmit reliableStorage reliableGateway createPackageScreen
        goldPackage).trace = [goldPackage.set "imageUrl" .null] ∧
    (Packages.onSubmit reliableStorage reliableGateway createPackageScreen
        goldPackage).result = .ok () :=
  have h := package_record_image_reference.1 reliableStorage reliableGateway
    createPackageScreen goldPackage rfl
  ⟨h.1, h.2.1, h.2.2 rfl rfl⟩

/-- C15, the failing input: in the create form a file is selected, its preview read
completes, and the selection is then emptied. `handleImageChange` stores the empty
selection, but `imageUrl` still holds the data URL that `reader.onload` put there: the modal
is in create mode with no file selected, and `onSubmit` starts no upload, resolves, and
writes a record whose `imageUrl` is the data URL of the preview, not null. The same record
is written when the modal is closed and the create form opened again before the preview
read completes. -/
theorem cleared_selection_writes_preview :
    (PackagesController.run clearedSelection).state.isModalOpen = true ∧
    (PackagesController.run clearedSelection).state.editId = .null ∧
    (PackagesController.run clearedSelection).state.imageFile = none ∧
    (PackagesController.run clearedSelection).state.imageUrl
      = .str "data:image/png;base64,iVBORw0KGgo=" ∧
    uploadsStarted (Packages.onSubmit reliableStorage reliableGateway
        (PackagesController.run clearedSelection).state goldPackage).trace = [] ∧
    (Packages.onSubmit reliableStorage reliableGateway
        (PackagesController.run clearedSelection).state goldPackage).result = .ok () ∧
    recordsWritten (Packages.onSubmit reliableStorage reliableGateway
        (PackagesController.run clearedSelection).state goldPackage).trace
      = [goldPackage.set "imageUrl" (.str "data:image/png;base64,iVBORw0KGgo=")] ∧
    recordsWritten (Packages.onSubmit reliableStorage reliableGateway
        (PackagesController.run clearedSelection).state goldPackage).trace
      ≠ [goldPackage.set "imageUrl" .null] ∧
    (PackagesController.run reopenedBeforePreview).state.editId = .null ∧
    (PackagesController.run reopenedBeforePreview).state.imageFile = none ∧
    recordsWritten (Packages.onSubmit reliableStorage reliableGateway
        (PackagesController.run reopenedBeforePreview).state goldPackage).trace
      = [goldPackage.set "imageUrl" (.str "data:image/png;base64,iVBORw0KGgo=")] := by
  refine ⟨by decide, by decide, by decide, by decide, by decide, rfl, by decide, by decide,
    by decide, by decide, by decide⟩

/-- What holds of the modal states of the package controller: `closeModal` from any state
yields the closed state with `editId`, `imageFile` and `imageUrl` null. In every state
reachable from the initial state in which the modal is closed, `editId` and `imageFile` are
null. From such a state `openModal()` enters create mode, with `editId` null, `imageUrl`
null and no selected file, and `openModal(record)` enters edit mode with
`editId = record.id` and `imageUrl = record.imageUrl`. -/
theorem package_modal_states :
    (∀ st : PackagesState,
      (st.applyEffects Packages.closeModal).isModalOpen = false ∧
      (st.applyEffects Packages.closeModal).editId = .null ∧
      (st.applyEffects Packages.closeModal).imageFile = none ∧
      (st.applyEffects Packages.closeModal).imageUrl = .null) ∧
    (∀ events : List PackagesEvent,
      (PackagesController.run events).state.isModalOpen = false →
      (PackagesController.run events).state.editId = .null ∧
      (PackagesController.run events).state.imageFile = none) ∧
    (∀ events : List PackagesEvent,
      (PackagesController.run events).state.isModalOpen = false →
      ((PackagesController.run events).step (.openModal none)).state.isModalOpen = true ∧
      ((PackagesController.run events).step (.openModal none)).state.editId = .null ∧
      ((PackagesController.run events).step (.openModal none)).state.imageUrl = .null ∧
      ((PackagesController.run events).step (.openModal none)).state.imageFile = none) ∧
    (∀ (events : List PackagesEvent) (record : Obj),
      (PackagesController.run events).state.isModalOpen = false →
      ((PackagesController.run events).step (.openModal (some record))).state.isModalOpen
        = true ∧
      ((PackagesController.run events).step (.openModal (some record))).state.editId
        = record.get "id" ∧
      ((PackagesController.run events).step (.openModal (some record))).state.imageUrl
        = record.get "imageUrl" ∧
      ((PackagesController.run events).step (.openModal (some record))).state.imageFile
        = none) := by
  refine ⟨?_, ?_, ?_, ?_⟩
  · intro st
    simp [Packages.closeModal, PackagesState.applyEffects, PackagesState.apply]
  · intro events hclosed
    exact PackagesController.run_closed events hclosed
  · intro events hclosed
    have hinv := PackagesController.run_closed events hclosed
    obtain ⟨h1, h2, h3, h4⟩ := Packages.openModal_create (PackagesController.run events).state
    simp only [PackagesController.step]
    exact ⟨h1, by rw [h3, hinv.1], h2, by rw [h4, hinv.2]⟩
  · intro events record hclosed
    have hinv := PackagesController.run_closed events hclosed
    obtain ⟨h1, h2, h3, h4⟩ :=
      Packages.openModal_edit (PackagesController.run events).state record
    simp only [PackagesController.step]
    exact ⟨h1, h3, h2, by rw [h4, hinv.2]⟩

/-- C16, the failing input: a file is selected in the create form and the modal is closed
before the preview read completes. `closeModal` resets `imageUrl`, but the pending
`reader.onload` is not cancelled: when it runs, the modal is closed and `imageUrl` is the
data URL of the preview, not null. -/
theorem closed_modal_keeps_late_preview :
    (PackagesController.run
        [.openModal none, .imageChange (some goldPhoto), .closeModal,
          .previewLoaded goldPhoto "data:image/png;base64,iVBORw0KGgo="]).state.isModalOpen
      = false ∧
    (PackagesController.run
        [.openModal none, .imageChange (some goldPhoto), .closeModal,
          .previewLoaded goldPhoto "data:image/png;base64,iVBORw0KGgo="]).state.imageUrl
      = .str "data:image/png;base64,iVBORw0KGgo=" ∧
    (PackagesController.run
        [.openModal none, .imageChange (some goldPhoto), .closeModal,
          .previewLoaded goldPhoto "data:image/png;base64,iVBORw0KGgo="]).state.imageUrl
      ≠ .null := by
  refine ⟨by decide, by decide, by decide⟩

/-! ## Identity holder -/

/-- C17: after the provider has processed an auth-state report whose profile lookup
succeeds, the ambient user is none when no identity is reported, the identity itself when
no profile record exists under `users/<uid>`, and otherwise the identity merged with the
profile record: every key of the profile carries the profile's value, every other key the
identity's. -/
theorem ambient_user_after_report (g : GatewayEnv) (st : AuthState) :
    (st.applyEffects (AuthProvider.onAuthStateChanged g none).trace).user = none ∧
    (∀ identity : Obj, g.getDoc "users" (identity.get "uid") = .ok none →
      (st.applyEffects (AuthProvider.onAuthStateChanged g (some identity)).trace).user
        = some identity) ∧
    (∀ identity profile : Obj,
      g.getDoc "users" (identity.get "uid") = .ok (some profile) →
      profile.keys.Nodup →
      ∃ merged,
        (st.applyEffects (AuthProvider.onAuthStateChanged g (some identity)).trace).user
          = some merged ∧
        (∀ k, k ∈ profile.keys → merged.get k = profile.get k) ∧
        (∀ k, k ∉ profile.keys → merged.get k = identity.get k)) := by
  refine ⟨rfl, ?_, ?_⟩
  · intro identity hdoc
    simp [AuthProvider.onAuthStateChanged, hdoc, AuthState.applyEffects, AuthState.apply]
  · intro identity profile hdoc hnd
    refine ⟨Obj.assign identity profile, ?_, ?_, ?_⟩
    · simp [AuthProvider.onAuthStateChanged, hdoc, AuthState.applyEffects, AuthState.apply]
    · intro k hk
      exact Obj.assign_get_of_mem identity profile k hnd hk
    · intro k hk
      exact Obj.assign_get_of_not_mem identity profile k hk

/-- C17, witness: an identity whose profile record holds its own `email` and a `role`. -/
theorem ambient_user_after_report_witness :
    ∃ merged,
      (AuthState.initial.applyEffects
          (AuthProvider.onAuthStateChanged profileGateway (some adaIdentity)).trace).user
        = some merged ∧
      (∀ k, k ∈ ["email", "role"] → merged.get k
        = (Obj.mk [("email", .str "ada@shop.test"), ("role", .str "admin")]).get k) ∧
      (∀ k, k ∉ ["email", "role"] → merged.get k = adaIdentity.get k) :=
  (ambient_user_after_report profileGateway AuthState.initial).2.2 adaIdentity
    ⟨[("email", .str "ada@shop.test"), ("role", .str "admin")]⟩ rfl (by decide)

/-! ## Resolved data -/

theorem castObject_foldl_get_of_not_mem (c : Coercions) (values : Obj)
    (l : List (String × FieldSchema)) :
    ∀ (o : Obj) (k : String), k ∉ l.map Prod.fst →
      (l.foldl (fun o rule =>
        match validateField c rule.2 (values.get rule.1) with
        | .ok v => o.set rule.1 v
        | .error _ => o) o).get k = o.get k := by
  induction l with
  | nil => intro o k _; rfl
  | cons hd tl ih =>
    intro o k hk
    simp only [List.map_cons, List.mem_cons, not_or] at hk
    rw [List.foldl_cons, ih _ k hk.2]
    cases validateField c hd.2 (values.get hd.1) with
    | error e => rfl
    | ok v => exact Obj.get_set_ne o hd.1 k v hk.1

theorem castObject_foldl_get_of_mem (c : Coercions) (values : Obj)
    (l : List (String × FieldSchema)) :
    ∀ (o : Obj) (rule : String × FieldSchema) (v : JSValue),
      (l.map Prod.fst).Nodup → rule ∈ l →
      validateField c rule.2 (values.get rule.1) = .ok v →
      (l.foldl (fun o rule =>
        match validateField c rule.2 (values.get rule.1) with
        | .ok v => o.set rule.1 v
        | .error _ => o) o).get rule.1 = v := by
  induction l with
  | nil => intro o rule v _ hr; simp at hr
  | cons hd tl ih =>
    intro o rule v hnd hr hv
    simp only [List.map_cons, List.nodup_cons] at hnd
    rcases List.mem_cons.mp hr with rfl | hr
    · rw [List.foldl_cons, castObject_foldl_get_of_not_mem c values tl _ rule.1 hnd.1, hv]
      exact Obj.get_set_self o rule.1 v
    · rw [List.foldl_cons]
      exact ih _ rule v hnd.2 hr hv

/-- The data a resolver returns holds, under each key of the schema, the cast value its
rule accepted, and under every other key the value of the form. -/
theorem yupResolver_data (c : Coercions) (schema : List (String × FieldSchema))
    (values data : Obj) (hnd : (schema.map Prod.fst).Nodup)
    (h : yupResolver c schema values = .ok data) :
    (∀ rule ∈ schema, validateField c rule.2 (values.get rule.1) = .ok (data.get rule.1)) ∧
    (∀ k, k ∉ schema.map Prod.fst → data.get k = values.get k) := by
  have hall := (yupResolver_ok_iff c schema values).mp ⟨data, h⟩
  have hdata : data = castObject c schema values := by
    unfold yupResolver at h
    cases hfe : fieldErrors c schema values with
    | nil => rw [hfe] at h; simpa using h.symm
    | cons a l => rw [hfe] at h; simp at h
  subst hdata
  constructor
  · intro rule hr
    obtain ⟨v, hv⟩ := hall rule hr
    rw [hv]
    congr 1
    exact (castObject_foldl_get_of_mem c values schema values rule v hnd hr hv).symm
  · intro k hk
    exact castObject_foldl_get_of_not_mem c values schema values k hk

/-- A required e-mail rule accepts exactly the values whose cast is a non-empty string
matching the e-mail pattern. -/
theorem validateField_required_email (c : Coercions) (msg msg' : String) (raw v : JSValue) :
    validateField c (.string (some msg) (some msg')) raw = .ok v ↔
      ∃ s, castString c raw = .str s ∧ s ≠ "" ∧ c.isEmail s = true ∧ v = .str s := by
  cases hc : castString c raw with
  | str s =>
    by_cases hs : s = ""
    · simp [validateField, hc, hs]
    · by_cases he : c.isEmail s = true
      · have hv : validateField c (.string (some msg) (some msg')) raw = .ok (.str s) := by
          simp [validateField, hc, hs, he]
        rw [hv]
        constructor
        · intro h
          have hvs : v = .str s := by simpa using h.symm
          exact ⟨s, rfl, hs, he, hvs⟩
        · rintro ⟨s', hs', _, _, rfl⟩
          have hss : s' = s := by simpa using hs'.symm
          rw [hss]
      · have hv : validateField c (.string (some msg) (some msg')) raw = .error msg := by
          simp [validateField, hc, hs, he]
        rw [hv]
        constructor
        · intro h
          cases h
        · rintro ⟨s', hs', _, he', _⟩
          have hss : s' = s := by simpa using hs'.symm
          rw [hss] at he'
          exact absurd he' he
  | _ => simp [validateField, hc]

/-- The data the checkout schema resolves to holds a non-empty string under each of its
eleven keys: the cast of what was entered. -/
theorem checkout_data_strings (c : Coercions) (values data : Obj)
    (h : yupResolver c CheckoutPage.schema values = .ok data) :
    ∀ k ∈ CheckoutPage.schema.map Prod.fst,
      ∃ s, castString c (values.get k) = .str s ∧ s ≠ "" ∧ data.get k = .str s := by
  have hd := (yupResolver_data c CheckoutPage.schema values data (by decide) h).1
  simp only [CheckoutPage.schema, List.mem_cons, List.mem_singleton, List.not_mem_nil,
    or_false, forall_eq_or_imp, forall_eq, validateField_required_string,
    validateField_required_email] at hd
  obtain ⟨⟨s1, a1, b1, e1⟩, ⟨s2, a2, b2, _, e2⟩, ⟨s3, a3, b3, e3⟩, ⟨s4, a4, b4, e4⟩,
    ⟨s5, a5, b5, e5⟩, ⟨s6, a6, b6, e6⟩, ⟨s7, a7, b7, e7⟩, ⟨s8, a8, b8, e8⟩,
    ⟨s9, a9, b9, e9⟩, ⟨s10, a10, b10, e10⟩, ⟨s11, a11, b11, e11⟩⟩ := hd
  simp only [CheckoutPage.schema, List.map_cons, List.map_nil, List.mem_cons,
    List.mem_singleton, List.not_mem_nil, or_false, forall_eq_or_imp, forall_eq]
  exact ⟨⟨s1, a1, b1, e1⟩, ⟨s2, a2, b2, e2⟩, ⟨s3, a3, b3, e3⟩, ⟨s4, a4, b4, e4⟩,
    ⟨s5, a5, b5, e5⟩, ⟨s6, a6, b6, e6⟩, ⟨s7, a7, b7, e7⟩, ⟨s8, a8, b8, e8⟩,
    ⟨s9, a9, b9, e9⟩, ⟨s10, a10, b10, e10⟩, ⟨s11, a11, b11, e11⟩⟩

/-! ## Checkout: notification and card fields -/

/-- The template parameters read six fields of the form data and no other. -/
theorem templateParams_congr (env : CheckoutEnv) (cart : List CartItem) (total : JSNumber)
    (d1 d2 : Obj)
    (h : ∀ k ∈ ["fullName", "email", "address", "city", "postalCode", "country"],
      d1.get k = d2.get k) :
    templateParams env cart total d1 = templateParams env cart total d2 := by
  simp only [List.mem_cons, List.mem_singleton, List.not_mem_nil, or_false,
    forall_eq_or_imp, forall_eq] at h
  obtain ⟨h1, h2, h3, h4, h5, h6⟩ := h
  simp [templateParams, h1, h2, h3, h4, h5, h6]

theorem templateText_orderId (env : CheckoutEnv) (orderId' : String) (v : JSValue) :
    templateText { env with generateOrderId := orderId' } v = templateText env v := by
  cases v <;> rfl

/-- Another order id changes the template parameters in the field `order_id` only. -/
theorem templateParams_orderId (env : CheckoutEnv) (orderId' : String) (cart : List CartItem)
    (total : JSNumber) (data : Obj) :
    templateParams { env with generateOrderId := orderId' } cart total data
      = (templateParams env cart total data).set "order_id" (.str orderId') := by
  simp [templateParams, Obj.set, setField, templateText_orderId]

/-- The e-mails of a checkout submit: the template parameters once the order is persisted,
none otherwise. -/
theorem onSubmit_emailsSent (env : CheckoutEnv) (calculateTotal : List CartItem → JSNumber)
    (cart : List CartItem) (data : Obj) :
    emailsSent (CheckoutPage.onSubmit env calculateTotal cart data).trace
      = match CheckoutPage.persisted env calculateTotal cart data with
        | .ok _ => [templateParams env cart (calculateTotal cart) data]
        | .error _ => [] := by
  rw [onSubmit_trace]
  cases CheckoutPage.persisted env calculateTotal cart data with
  | error e => simp [emailsSent, CheckoutPage.persistEffect, CheckoutPage.errorAlert]
  | ok _ =>
    cases CheckoutPage.notified env calculateTotal cart data <;>
      simp [emailsSent, CheckoutPage.persistEffect, CheckoutPage.notifyEffect,
        CheckoutPage.errorAlert, CheckoutPage.scheduledNavigation, CheckoutPage.successAlert]

/-- A form the checkout schema accepts reaches `onSubmit` with the resolved data. -/
theorem CheckoutPage.submitForm_valid (c : Coercions) (env : CheckoutEnv)
    (calculateTotal : List CartItem → JSNumber) (cart : List CartItem) (values data : Obj)
    (h : yupResolver c CheckoutPage.schema values = .ok data) :
    (CheckoutPage.submitForm c env calculateTotal cart values).trace
      = .preventDefault :: (CheckoutPage.onSubmit env calculateTotal cart data).trace := by
  simp [CheckoutPage.submitForm, formHandleSubmit, h, Run.emit_andThen]

/-- C18: for every form the checkout schema accepts and every cart, the template
parameters built by `CheckoutPage.onSubmit` are exactly the eight fields `to_name`,
`to_email`, `to_shop`, `from_name`, `order_id`, `order_details`, `total_amount`,
`shipping_address`: name and e-mail as entered, the id and the total of the order record,
the cart lines rendered "name (quantity)", the quantity as `String(quantity)` gives it, and
joined by ", ", and the address, city, postal code and country joined by ", ". They are what
the one `emailjs.send` of the submit carries, once the order is persisted. -/
theorem notification_template_fields (c : Coercions) (env : CheckoutEnv)
    (calculateTotal : List CartItem → JSNumber) (cart : List CartItem) (values data : Obj)
    (hvalid : yupResolver c CheckoutPage.schema values = .ok data) :
    ∃ fullName email address city postalCode country : String,
      data.get "fullName" = .str fullName ∧ data.get "email" = .str email ∧
      data.get "address" = .str address ∧ data.get "city" = .str city ∧
      data.get "postalCode" = .str postalCode ∧ data.get "country" = .str country ∧
      templateParams env cart (calculateTotal cart) data
        = ⟨[("to_name", .str fullName),
            ("to_email", .str email),
            ("to_shop", .str "capturerings653@gmail.com"),
            ("from_name", .str "Capture Shop"),
            ("order_id", .str env.generateOrderId),
            ("order_details",
              .str (", ".intercalate
                (cart.map (fun item =>
                  item.name ++ " (" ++ env.stringOf (.num item.quantity) ++ ")")))),
            ("total_amount", .num (calculateTotal cart)),
            ("shipping_address",
              .str (address ++ ", " ++ city ++ ", " ++ postalCode ++ ", " ++ country))]⟩ ∧
      (orderData env cart (calculateTotal cart) data).get "id" = .str env.generateOrderId ∧
      (orderData env cart (calculateTotal cart) data).get "total"
        = .num (calculateTotal cart) ∧
      (CheckoutPage.persisted env calculateTotal cart data = .ok () →
        emailsSent (CheckoutPage.submitForm c env calculateTotal cart values).trace
          = [templateParams env cart (calculateTotal cart) data]) := by
  have hs := checkout_data_strings c values data hvalid
  simp only [CheckoutPage.schema, List.map_cons, List.map_nil, List.mem_cons,
    List.mem_singleton, List.not_mem_nil, or_false, forall_eq_or_imp, forall_eq] at hs
  obtain ⟨⟨s1, _, _, e1⟩, ⟨s2, _, _, e2⟩, ⟨s3, _, _, e3⟩, ⟨s4, _, _, e4⟩, ⟨s5, _, _, e5⟩,
    ⟨s6, _, _, e6⟩, _⟩ := hs
  refine ⟨s1, s2, s3, s4, s5, s6, e1, e2, e3, e4, e5, e6, ?_, ?_, ?_, ?_⟩
  · simp [templateParams, templateText, e1, e2, e3, e4, e5, e6]
  · unfold orderData
    rw [Obj.get_set_ne _ _ _ _ (by decide), Obj.get_set_ne _ _ _ _ (by decide),
      Obj.get_set_ne _ _ _ _ (by decide), Obj.get_set_ne _ _ _ _ (by decide),
      Obj.get_set_self]
  · unfold orderData
    rw [Obj.get_set_ne _ _ _ _ (by decide), Obj.get_set_ne _ _ _ _ (by decide),
      Obj.get_set_self]
  · intro hp
    rw [CheckoutPage.submitForm_valid c env calculateTotal cart values data hvalid]
    have h := onSubmit_emailsSent env calculateTotal cart data
    rw [hp] at h
    simpa [emailsSent] using h

/-- With the quantity `1e21` in the cart, the summary reads as the template literal renders
the number. -/
theorem order_details_of_bulk_cart :
    (templateParams reliableCheckout bulkCart (bulkTotal bulkCart) ringOrderForm).get
        "order_details"
      = .str "Ring A (2), Big (1e+21)" := by
  decide

/-- C18, witness: a cart with two units of "Ring A" and a line of quantity `1e21`. -/
theorem notification_template_fields_witness :
    ∃ fullName email address city postalCode country : String,
      ringOrderForm.get "fullName" = .str fullName ∧ ringOrderForm.get "email" = .str email ∧
      ringOrderForm.get "address" = .str address ∧ ringOrderForm.get "city" = .str city ∧
      ringOrderForm.get "postalCode" = .str postalCode ∧
      ringOrderForm.get "country" = .str country ∧
      templateParams reliableCheckout bulkCart (bulkTotal bulkCart) ringOrderForm
        = ⟨[("to_name", .str fullName),
            ("to_email", .str email),
            ("to_shop", .str "capturerings653@gmail.com"),
            ("from_name", .str "Capture Shop"),
            ("order_id", .str reliableCheckout.generateOrderId),
            ("order_details",
              .str (", ".intercalate
                (bulkCart.map (fun item =>
                  item.name ++ " (" ++ reliableCheckout.stringOf (.num item.quantity)
                    ++ ")")))),
            ("total_amount", .num (bulkTotal bulkCart)),
            ("shipping_address",
              .str (address ++ ", " ++ city ++ ", " ++ postalCode ++ ", " ++ country))]⟩ ∧
      (orderData reliableCheckout bulkCart (bulkTotal bulkCart) ringOrderForm).get "id"
        = .str reliableCheckout.generateOrderId ∧
      (orderData reliableCheckout bulkCart (bulkTotal bulkCart) ringOrderForm).get "total"
        = .num (bulkTotal bulkCart) ∧
      (CheckoutPage.persisted reliableCheckout bulkTotal bulkCart ringOrderForm = .ok () →
        emailsSent (CheckoutPage.submitForm sampleCoercions reliableCheckout bulkTotal
            bulkCart ringOrderForm).trace
          = [templateParams reliableCheckout bulkCart (bulkTotal bulkCart) ringOrderForm]) :=
  notification_template_fields sampleCoercions reliableCheckout bulkTotal bulkCart
    ringOrderForm ringOrderForm rfl

/-- C20: for every form the checkout schema accepts, the order record persisted by
`CheckoutPage.onSubmit` holds `cardNumber`, `expiryDate` and `cvv` as resolved from the
form, that is exactly the text entered; and the template parameters do not depend on
them: for form data that agrees on every other field, they are the same, apart from the
order id when the ids differ. -/
theorem card_fields_persisted_not_mailed (c : Coercions) (env : CheckoutEnv)
    (calculateTotal : List CartItem → JSNumber) (cart : List CartItem) (values data : Obj)
    (hvalid : yupResolver c CheckoutPage.schema values = .ok data) :
    gatewayWrites (CheckoutPage.submitForm c env calculateTotal cart values).trace
      = [.setDoc "orders" env.generateOrderId
          (orderData env cart (calculateTotal cart) data)] ∧
    (∀ k ∈ ["cardNumber", "expiryDate", "cvv"],
      (orderData env cart (calculateTotal cart) data).get k = data.get k ∧
      ∃ s, castString c (values.get k) = .str s ∧ s ≠ "" ∧
        (orderData env cart (calculateTotal cart) data).get k = .str s) ∧
    (∀ k ∈ ["cardNumber", "expiryDate", "cvv"], ∀ entered : String,
      values.get k = .str entered →
      (orderData env cart (calculateTotal cart) data).get k = .str entered) ∧
    (∀ data' : Obj,
      (∀ k, k ∉ ["cardNumber", "expiryDate", "cvv"] → data'.get k = data.get k) →
      templateParams env cart (calculateTotal cart) data'
        = templateParams env cart (calculateTotal cart) data) ∧
    (∀ (orderId' : String) (data' : Obj),
      (∀ k, k ∉ ["cardNumber", "expiryDate", "cvv"] → data'.get k = data.get k) →
      ∀ key, key ≠ "order_id" →
        (templateParams { env with generateOrderId := orderId' } cart (calculateTotal cart)
            data').get key
          = (templateParams env cart (calculateTotal cart) data).get key) := by
  have hs := checkout_data_strings c values data hvalid
  have horder : ∀ k ∈ ["cardNumber", "expiryDate", "cvv"],
      (orderData env cart (calculateTotal cart) data).get k = data.get k := by
    intro k hk
    simp only [List.mem_cons, List.mem_singleton, List.not_mem_nil, or_false] at hk
    unfold orderData
    rcases hk with rfl | rfl | rfl <;>
      rw [Obj.get_set_ne _ _ _ _ (by decide), Obj.get_set_ne _ _ _ _ (by decide),
        Obj.get_set_ne _ _ _ _ (by decide), Obj.get_set_ne _ _ _ _ (by decide),
        Obj.get_set_ne _ _ _ _ (by decide)]
  have hkeys : ∀ k ∈ ["cardNumber", "expiryDate", "cvv"],
      k ∈ CheckoutPage.schema.map Prod.fst := by decide
  have hcongr : ∀ data' : Obj,
      (∀ k, k ∉ ["cardNumber", "expiryDate", "cvv"] → data'.get k = data.get k) →
      templateParams env cart (calculateTotal cart) data'
        = templateParams env cart (calculateTotal cart) data := by
    intro data' hsame
    apply templateParams_congr
    intro k hk
    apply hsame
    revert k
    decide
  refine ⟨?_, ?_, ?_, hcongr, ?_⟩
  · rw [CheckoutPage.submitForm_valid c env calculateTotal cart values data hvalid]
    have h := (order_fields_written env calculateTotal cart data)
    simpa [gatewayWrites, Effect.isGatewayWrite] using h
  · intro k hk
    obtain ⟨s, hcast, hne, hdata⟩ := hs k (hkeys k hk)
    exact ⟨horder k hk, s, hcast, hne, by rw [horder k hk, hdata]⟩
  · intro k hk entered hentered
    obtain ⟨s, hcast, _, hdata⟩ := hs k (hkeys k hk)
    rw [hentered] at hcast
    simp only [castString, JSValue.str.injEq] at hcast
    rw [horder k hk, hdata, hcast]
  · intro orderId' data' hsame key hkey
    rw [← hcongr data' hsame, templateParams_orderId, Obj.get_set_ne _ _ _ _ hkey]

/-- C20, witness: the example order, paid by card. -/
theorem card_fields_persisted_not_mailed_witness :
    gatewayWrites (CheckoutPage.submitForm sampleCoercions reliableCheckout ringTotal ringCart
        ringOrderForm).trace
      = [.setDoc "orders" reliableCheckout.generateOrderId
          (orderData reliableCheckout ringCart (ringTotal ringCart) ringOrderForm)] ∧
    (orderData reliableCheckout ringCart (ringTotal ringCart) ringOrderForm).get "cvv"
      = .str "123" :=
  have h := card_fields_persisted_not_mailed sampleCoercions reliableCheckout ringTotal
    ringCart ringOrderForm ringOrderForm rfl
  ⟨h.1, h.2.2.1 "cvv" (by decide) "123" rfl⟩

/-! ## Product modal: removal and cancel -/

/-- A trace without gateway write leaves the documents as they were. -/
theorem documentsAfter_of_no_write (generatedKey : String) (tr : List Effect) :
    ∀ docs : Documents, gatewayWrites tr = [] →
      documentsAfter generatedKey docs tr = docs := by
  induction tr with
  | nil => intro docs _; rfl
  | cons e rest ih =>
    intro docs h
    have he : e.isGatewayWrite = false := by
      cases hw : e.isGatewayWrite with
      | false => rfl
      | true => simp [gatewayWrites, List.filter_cons, hw] at h
    have hrest : gatewayWrites rest = [] := by
      simpa [gatewayWrites, List.filter_cons, he] using h
    have hstep : commitWrite generatedKey docs e = docs := by
      cases e <;> first | rfl | simp [Effect.isGatewayWrite] at he
    simp only [documentsAfter, List.foldl_cons] at ih ⊢
    rw [hstep]
    exact ih docs hrest

/-- C19: `handleRemoveImage` issues the storage delete first and, when it resolves, calls
no setter but `setImageUrls`; it issues no gateway write. Hence for every stored product
and every image url of its gallery, opening the modal on the product, removing the url
(the storage delete resolving) and cancelling leaves the documents of the gateway, the
product's record with the url in its `imageUrls` among them, and the in-memory list of
the screen as they were, while the url is gone from the modal's gallery. -/
theorem remove_then_cancel_keeps_record (env : StorageEnv) (generatedKey : String)
    (docs : Documents) (st : ProductManagementState) (doc : DocSnapshot)
    (gallery : List String) (url : String)
    (hdoc : ("products", doc) ∈ docs)
    (hgallery : doc.data.get "imageUrls" = .strs gallery)
    (hurl : url ∈ gallery)
    (hdel : env.deleteObject url = .ok ()) :
    (ProductModalState.initial (some (withId doc))).imageUrls = gallery ∧
    (ProductModal.handleRemoveImage env (ProductModalState.initial (some (withId doc)))
        url).trace
      = [.deleteObject url, .setImageUrls (gallery.filter (fun imageUrl => imageUrl != url))] ∧
    gatewayWrites
        ((ProductModal.handleRemoveImage env (ProductModalState.initial (some (withId doc)))
          url).trace ++ [.setIsModalOpen false]) = [] ∧
    documentsAfter generatedKey docs
        ((ProductModal.handleRemoveImage env (ProductModalState.initial (some (withId doc)))
          url).trace ++ [.setIsModalOpen false]) = docs ∧
    (∃ d, ("products", d) ∈ documentsAfter generatedKey docs
          ((ProductModal.handleRemoveImage env (ProductModalState.initial (some (withId doc)))
            url).trace ++ [.setIsModalOpen false]) ∧
      d.id = doc.id ∧ d.data.get "imageUrls" = .strs gallery ∧ url ∈ gallery) ∧
    url ∉ ((ProductModalState.initial (some (withId doc))).applyEffects
        ((ProductModal.handleRemoveImage env (ProductModalState.initial (some (withId doc)))
          url).trace ++ [.setIsModalOpen false])).imageUrls ∧
    (st.applyEffects
        ((ProductModal.handleRemoveImage env (ProductModalState.initial (some (withId doc)))
          url).trace ++ [.setIsModalOpen false])).products = st.products ∧
    (st.applyEffects
        ((ProductModal.handleRemoveImage env (ProductModalState.initial (some (withId doc)))
          url).trace ++ [.setIsModalOpen false])).editProduct = st.editProduct := by
  have hinit : (ProductModalState.initial (some (withId doc))).imageUrls = gallery := by
    have hget : (withId doc).get "imageUrls" = .strs gallery := by
      rw [withId, Obj.get_set_ne _ _ _ _ (by decide), hgallery]
    simp [ProductModalState.initial, hget]
  have htr : (ProductModal.handleRemoveImage env
        (ProductModalState.initial (some (withId doc))) url).trace
      = [.deleteObject url,
          .setImageUrls (gallery.filter (fun imageUrl => imageUrl != url))] := by
    simp [ProductModal.handleRemoveImage, hdel, hinit]
  have hnow : gatewayWrites
      ((ProductModal.handleRemoveImage env (ProductModalState.initial (some (withId doc)))
        url).trace ++ [.setIsModalOpen false]) = [] := by
    rw [htr]
    simp [gatewayWrites, Effect.isGatewayWrite]
  have hdocs := documentsAfter_of_no_write generatedKey _ docs hnow
  refine ⟨hinit, htr, hnow, hdocs, ⟨doc, ?_, rfl, hgallery, hurl⟩, ?_, ?_, ?_⟩
  · rw [hdocs]
    exact hdoc
  · rw [htr]
    simp [ProductModalState.applyEffects, ProductModalState.apply]
  · rw [htr]
    simp [ProductManagementState.applyEffects, ProductManagementState.apply]
  · rw [htr]
    simp [ProductManagementState.applyEffects, ProductManagementState.apply]

/-- C19, witness: the first image of the stored product `p1` is removed and the modal is
cancelled. -/
theorem remove_then_cancel_keeps_record_witness :
    documentsAfter "generated-key" [("products", ringDoc)]
        ((ProductModal.handleRemoveImage reliableStorage
          (ProductModalState.initial (some (withId ringDoc)))
          "https://cdn.test/productImages/a.png").trace ++ [.setIsModalOpen false])
      = [("products", ringDoc)] :=
  (remove_then_cancel_keeps_record reliableStorage "generated-key" [("products", ringDoc)]
    editScreen ringDoc
    ["https://cdn.test/productImages/a.png", "https://cdn.test/productImages/b.png"]
    "https://cdn.test/productImages/a.png" (by decide) rfl (by decide) rfl).2.2.2.1

/-! ## Checkout: card fields and payment method -/

/-- A field a rule of the schema rejects makes the resolver fail, with that field among
the errors. -/
theorem yupResolver_error_of_field (c : Coercions) (schema : List (String × FieldSchema))
    (values : Obj) (rule : String × FieldSchema) (msg : String) (hr : rule ∈ schema)
    (hv : validateField c rule.2 (values.get rule.1) = .error msg) :
    ∃ errs, yupResolver c schema values = .error errs ∧ (rule.1, msg) ∈ errs := by
  have hmem : (rule.1, msg) ∈ fieldErrors c schema values := by
    unfold fieldErrors
    rw [List.mem_filterMap]
    exact ⟨rule, hr, by simp [hv]⟩
  unfold yupResolver
  cases hfe : fieldErrors c schema values with
  | nil => rw [hfe] at hmem; simp at hmem
  | cons a l => exact ⟨a :: l, rfl, hfe ▸ hmem⟩

/-- A required string rule rejects the empty text and an absent value. -/
theorem validateField_required_string_empty (c : Coercions) (msg : String) (raw : JSValue)
    (h : raw = .str "" ∨ raw = .undefined ∨ raw = .null) :
    validateField c (.string none (some msg)) raw = .error msg := by
  rcases h with rfl | rfl | rfl <;> simp [validateField, castString]

/-- C21: the checkout schema requires `cardNumber`, `expiryDate` and `cvv` whatever the
payment method. For every form, those with `paymentMethod = "paypal"` included, in which
one of the three card fields is empty or absent, the resolver fails with an error on that
field and `CheckoutPage.onSubmit` is not run: the submit only attaches the errors, no
order is persisted and no e-mail is sent. -/
theorem card_fields_required_for_every_method (c : Coercions) (env : CheckoutEnv)
    (calculateTotal : List CartItem → JSNumber) (cart : List CartItem) (values : Obj)
    (k : String) (hk : k ∈ ["cardNumber", "expiryDate", "cvv"])
    (hempty : values.get k = .str "" ∨ values.get k = .undefined ∨ values.get k = .null) :
    ∃ errs,
      yupResolver c CheckoutPage.schema values = .error errs ∧
      (∃ msg, (k, msg) ∈ errs) ∧
      (CheckoutPage.submitForm c env calculateTotal cart values).trace
        = [.preventDefault, .setFormErrors errs] ∧
      Effect.setLoading true ∉ (CheckoutPage.submitForm c env calculateTotal cart values).trace ∧
      gatewayWrites (CheckoutPage.submitForm c env calculateTotal cart values).trace = [] ∧
      emailsSent (CheckoutPage.submitForm c env calculateTotal cart values).trace = [] := by
  have hfield : ∃ errs msg, yupResolver c CheckoutPage.schema values = .error errs ∧
      (k, msg) ∈ errs := by
    simp only [List.mem_cons, List.mem_singleton, List.not_mem_nil, or_false] at hk
    rcases hk with rfl | rfl | rfl
    · obtain ⟨errs, h1, h2⟩ := yupResolver_error_of_field c CheckoutPage.schema values
        ("cardNumber", .string none (some "Card number is required"))
        "Card number is required" (by decide)
        (validateField_required_string_empty c _ _ hempty)
      exact ⟨errs, _, h1, h2⟩
    · obtain ⟨errs, h1, h2⟩ := yupResolver_error_of_field c CheckoutPage.schema values
        ("expiryDate", .string none (some "Expiry date is required"))
        "Expiry date is required" (by decide)
        (validateField_required_string_empty c _ _ hempty)
      exact ⟨errs, _, h1, h2⟩
    · obtain ⟨errs, h1, h2⟩ := yupResolver_error_of_field c CheckoutPage.schema values
        ("cvv", .string none (some "CVV is required"))
        "CVV is required" (by decide)
        (validateField_required_string_empty c _ _ hempty)
      exact ⟨errs, _, h1, h2⟩
  obtain ⟨errs, msg, herr, hmem⟩ := hfield
  have htr : (CheckoutPage.submitForm c env calculateTotal cart values).trace
      = [.preventDefault, .setFormErrors errs] := by
    simp [CheckoutPage.submitForm, formHandleSubmit, herr, Run.emit]
  refine ⟨errs, herr, ⟨msg, hmem⟩, htr, ?_, ?_, ?_⟩
  · rw [htr]; simp
  · rw [htr]; simp [gatewayWrites, Effect.isGatewayWrite]
  · rw [htr]; simp [emailsSent]

/-- C21, witness: the form filled for PayPal, the card fields absent. -/
theorem card_fields_required_for_every_method_witness :
    paypalOrderForm.get "paymentMethod" = .str "paypal" ∧
    ∃ errs,
      yupResolver sampleCoercions CheckoutPage.schema paypalOrderForm = .error errs ∧
      (∃ msg, ("cvv", msg) ∈ errs) ∧
      (CheckoutPage.submitForm sampleCoercions reliableCheckout ringTotal ringCart
          paypalOrderForm).trace = [.preventDefault, .setFormErrors errs] ∧
      Effect.setLoading true ∉ (CheckoutPage.submitForm sampleCoercions reliableCheckout
          ringTotal ringCart paypalOrderForm).trace ∧
      gatewayWrites (CheckoutPage.submitForm sampleCoercions reliableCheckout ringTotal
          ringCart paypalOrderForm).trace = [] ∧
      emailsSent (CheckoutPage.submitForm sampleCoercions reliableCheckout ringTotal
          ringCart paypalOrderForm).trace = [] :=
  ⟨rfl, card_fields_required_for_every_method sampleCoercions reliableCheckout ringTotal
    ringCart paypalOrderForm "cvv" (by decide) (Or.inr (Or.inl rfl))⟩

/-! ## Identity holder: failed profile lookup -/

/-- Every processed report ends with the loading flag false. -/
theorem report_clears_loading (g : GatewayEnv) (st : AuthState) (user : Option Obj) :
    (st.applyEffects (AuthProvider.onAuthStateChanged g user).trace).loading = false := by
  cases user with
  | none => rfl
  | some u =>
    cases hd : g.getDoc "users" (u.get "uid") with
    | error e =>
      simp [AuthProvider.onAuthStateChanged, hd, AuthState.applyEffects, AuthState.apply]
    | ok r =>
      cases r <;>
        simp [AuthProvider.onAuthStateChanged, hd, AuthState.applyEffects, AuthState.apply]

/-- After at least one processed report the loading flag is false. -/
theorem afterReports_loading (reports : List (GatewayEnv × Option Obj)) :
    ∀ st : AuthState, reports ≠ [] → (st.afterReports reports).loading = false := by
  induction reports with
  | nil => intro st h; exact absurd rfl h
  | cons r rest ih =>
    intro st _
    cases hrest : rest with
    | nil => exact report_clears_loading r.1 st r.2
    | cons r' rest' =>
      have h := ih (st.applyEffects (AuthProvider.onAuthStateChanged r.1 r.2).trace)
        (by rw [hrest]; simp)
      rw [hrest] at h
      exact h

/-- C22: when the provider reports an identity and the profile lookup throws, the handler
logs, leaves the ambient user at its previous value and still sets loading to false. So in
the run where this is the first report, the children are rendered with user null although
an identity is authenticated. Loading is true, and the children are not rendered, before
the first report; loading is false after any report has been processed. -/
theorem failed_lookup_keeps_previous_user :
    (∀ (g : GatewayEnv) (st : AuthState) (identity : Obj) (e : Err),
      g.getDoc "users" (identity.get "uid") = .error e →
      (AuthProvider.onAuthStateChanged g (some identity)).trace
        = [.getDoc "users" (identity.get "uid"), .consoleError e, .setLoading false] ∧
      (st.applyEffects (AuthProvider.onAuthStateChanged g (some identity)).trace).user
        = st.user ∧
      (st.applyEffects (AuthProvider.onAuthStateChanged g (some identity)).trace).loading
        = false) ∧
    ((AuthState.initial.afterReports [(profileDownGateway, some adaIdentity)]).user = none ∧
      AuthProvider.childrenRendered
        (AuthState.initial.afterReports [(profileDownGateway, some adaIdentity)]) = true) ∧
    (AuthState.initial.loading = true ∧
      AuthProvider.childrenRendered AuthState.initial = false) ∧
    (∀ (st : AuthState) (reports : List (GatewayEnv × Option Obj)), reports ≠ [] →
      (st.afterReports reports).loading = false ∧
      AuthProvider.childrenRendered (st.afterReports reports) = true) := by
  refine ⟨?_, ⟨rfl, rfl⟩, ⟨rfl, rfl⟩, ?_⟩
  · intro g st identity e hdoc
    simp [AuthProvider.onAuthStateChanged, hdoc, AuthState.applyEffects, AuthState.apply]
  · intro st reports hne
    have h := afterReports_loading reports st hne
    exact ⟨h, by simp [AuthProvider.childrenRendered, h]⟩

/-- C22, witness: a signed-in user, then a report of the same identity with the profile
lookup failing. -/
theorem failed_lookup_keeps_previous_user_witness :
    ((AuthState.mk (some adaIdentity) false).applyEffects
        (AuthProvider.onAuthStateChanged profileDownGateway (some adaIdentity)).trace).user
      = some adaIdentity ∧
    ((AuthState.mk (some adaIdentity) false).applyEffects
        (AuthProvider.onAuthStateChanged profileDownGateway (some adaIdentity)).trace).loading
      = false :=
  (failed_lookup_keeps_previous_user.1 profileDownGateway ⟨some adaIdentity, false⟩
    adaIdentity "unavailable" rfl).2

/-! ## Product page: carousel -/

theorem jsElementAt_natCast (arr : List String) (k : Nat) :
    jsElementAt arr (some (k : Int)) = arr[k]? := rfl

/-- In an array without repetition, `indexOf` of the element at index `i` is `i`. -/
theorem jsIndexOf_of_getElem? (arr : List String) (s : String) (i : Nat)
    (hnd : arr.Nodup) (hi : arr[i]? = some s) : jsIndexOf arr (some s) = (i : Int) := by
  obtain ⟨hlt, hget⟩ := List.getElem?_eq_some.mp hi
  have hmem : s ∈ arr := hget ▸ List.getElem_mem hlt
  have hidx : arr.indexOf s = i := by
    rw [← hget]
    exact List.indexOf_getElem hnd i hlt
  simp [jsIndexOf, hmem, hidx]

/-- The next button at index `i` selects the element at index `(i + 1) % n`. -/
theorem nextImage_at (arr : List String) (s : String) (i : Nat)
    (hnd : arr.Nodup) (hi : arr[i]? = some s) :
    SingleProductPage.nextImage arr (some s) = arr[(i + 1) % arr.length]? := by
  obtain ⟨hlt, _⟩ := List.getElem?_eq_some.mp hi
  have hn : (arr.length : Int) ≠ 0 := by omega
  have hrem : jsRem ((i : Int) + 1) arr.length
      = some (((i + 1) % arr.length : Nat) : Int) := by
    simp only [jsRem, hn, if_false]
    rw [Int.ofNat_tmod]
    push_cast
    rfl
  unfold SingleProductPage.nextImage
  rw [jsIndexOf_of_getElem? arr s i hnd hi, hrem, jsElementAt_natCast]

/-- The previous button at index `i` selects the element at index `(i + n - 1) % n`, the
index `(i - 1 + n) % n` of the handler. -/
theorem previousImage_at (arr : List String) (s : String) (i : Nat)
    (hnd : arr.Nodup) (hi : arr[i]? = some s) :
    SingleProductPage.previousImage arr (some s) = arr[(i + arr.length - 1) % arr.length]? := by
  obtain ⟨hlt, _⟩ := List.getElem?_eq_some.mp hi
  have hn : (arr.length : Int) ≠ 0 := by omega
  have hcast : (i : Int) - 1 + (arr.length : Int) = ((i + arr.length - 1 : Nat) : Int) := by
    omega
  have hrem : jsRem ((i : Int) - 1 + arr.length) arr.length
      = some (((i + arr.length - 1) % arr.length : Nat) : Int) := by
    simp only [jsRem, hn, if_false]
    rw [Int.ofNat_tmod, hcast]
  unfold SingleProductPage.previousImage
  rw [jsIndexOf_of_getElem? arr s i hnd hi, hrem, jsElementAt_natCast]

theorem succ_mod_pred_mod (i n : Nat) (h : i < n) : ((i + 1) % n + n - 1) % n = i := by
  rcases Nat.lt_or_ge (i + 1) n with h1 | h1
  · rw [Nat.mod_eq_of_lt h1]
    have : i + 1 + n - 1 = i + n := by omega
    rw [this, Nat.add_mod_right, Nat.mod_eq_of_lt h]
  · have hn : i + 1 = n := by omega
    rw [hn, Nat.mod_self]
    have : 0 + n - 1 = i := by omega
    rw [this, Nat.mod_eq_of_lt h]

theorem pred_mod_succ_mod (i n : Nat) (h : i < n) : ((i + n - 1) % n + 1) % n = i := by
  rcases Nat.eq_zero_or_pos i with h0 | h0
  · subst h0
    have h1 : (0 + n - 1) % n = n - 1 := by
      have : 0 + n - 1 = n - 1 := by omega
      rw [this]
      exact Nat.mod_eq_of_lt (by omega)
    have h2 : n - 1 + 1 = n := by omega
    rw [h1, h2, Nat.mod_self]
  · have h1 : i + n - 1 = (i - 1) + n := by omega
    rw [h1, Nat.add_mod_right, Nat.mod_eq_of_lt (by omega : i - 1 < n)]
    have h2 : i - 1 + 1 = i := by omega
    rw [h2, Nat.mod_eq_of_lt h]

/-- After `k` presses of the next button from index `i` the element at index `(i + k) % n`
is selected. -/
theorem nextImage_iterate (arr : List String) (s : String) (i : Nat)
    (hnd : arr.Nodup) (hi : arr[i]? = some s) :
    ∀ k, (SingleProductPage.nextImage arr)^[k] (some s) = arr[(i + k) % arr.length]? := by
  obtain ⟨hlt, _⟩ := List.getElem?_eq_some.mp hi
  intro k
  induction k with
  | zero => rw [Function.iterate_zero, id, Nat.add_zero, Nat.mod_eq_of_lt hlt, hi]
  | succ k ih =>
    have hlt' : (i + k) % arr.length < arr.length := Nat.mod_lt _ (by omega)
    rw [Function.iterate_succ_apply', ih, List.getElem?_eq_getElem hlt',
      nextImage_at arr _ ((i + k) % arr.length) hnd (List.getElem?_eq_getElem hlt'),
      Nat.mod_add_mod, Nat.add_assoc]

/-- C23: in the carousel, for every gallery without repeated entries and every selected
image that is its element at index `i` (length `n`), the next button selects the element
at index `(i + 1) mod n` and the previous button the element at index `(i - 1 + n) mod n`,
both in bounds; previous after next and next after previous give back the original image;
and pressing next `n` times gives back the original image, the images shown on the way
being the gallery from index `i` on, cyclically: every image exactly once. -/
theorem carousel_next_previous (imageUrls : List String) (selectedImage : String) (i : Nat)
    (hnd : imageUrls.Nodup) (hi : imageUrls[i]? = some selectedImage) :
    (i + 1) % imageUrls.length < imageUrls.length ∧
    (i + imageUrls.length - 1) % imageUrls.length < imageUrls.length ∧
    SingleProductPage.nextImage imageUrls (some selectedImage)
      = imageUrls[(i + 1) % imageUrls.length]? ∧
    SingleProductPage.previousImage imageUrls (some selectedImage)
      = imageUrls[(i + imageUrls.length - 1) % imageUrls.length]? ∧
    (((i : Int) - 1 + imageUrls.length) % imageUrls.length
      = ((i + imageUrls.length - 1) % imageUrls.length : Nat)) ∧
    (SingleProductPage.nextImage imageUrls (some selectedImage)).isSome = true ∧
    (SingleProductPage.previousImage imageUrls (some selectedImage)).isSome = true ∧
    SingleProductPage.previousImage imageUrls
        (SingleProductPage.nextImage imageUrls (some selectedImage)) = some selectedImage ∧
    SingleProductPage.nextImage imageUrls
        (SingleProductPage.previousImage imageUrls (some selectedImage)) = some selectedImage ∧
    (SingleProductPage.nextImage imageUrls)^[imageUrls.length] (some selectedImage)
      = some selectedImage ∧
    SingleProductPage.shownWhilePressingNext imageUrls (some selectedImage) imageUrls.length
      = (imageUrls.rotate i).map some ∧
    (SingleProductPage.shownWhilePressingNext imageUrls (some selectedImage)
        imageUrls.length).Perm (imageUrls.map some) ∧
    (SingleProductPage.shownWhilePressingNext imageUrls (some selectedImage)
        imageUrls.length).Nodup := by
  obtain ⟨hlt, hget⟩ := List.getElem?_eq_some.mp hi
  have hpos : 0 < imageUrls.length := by omega
  have hnext_lt : (i + 1) % imageUrls.length < imageUrls.length := Nat.mod_lt _ hpos
  have hprev_lt : (i + imageUrls.length - 1) % imageUrls.length < imageUrls.length :=
    Nat.mod_lt _ hpos
  have hnext := nextImage_at imageUrls selectedImage i hnd hi
  have hprev := previousImage_at imageUrls selectedImage i hnd hi
  have hshown : SingleProductPage.shownWhilePressingNext imageUrls (some selectedImage)
      imageUrls.length = (imageUrls.rotate i).map some := by
    apply List.ext_getElem?
    intro k
    by_cases hk : k < imageUrls.length
    · have hk' : (k + i) % imageUrls.length < imageUrls.length := Nat.mod_lt _ hpos
      simp only [SingleProductPage.shownWhilePressingNext, List.getElem?_map,
        List.getElem?_range hk, Option.map_some', List.getElem?_rotate hk,
        nextImage_iterate imageUrls selectedImage i hnd hi k, Nat.add_comm i k,
        List.getElem?_eq_getElem hk']
    · have h1 : (SingleProductPage.shownWhilePressingNext imageUrls (some selectedImage)
          imageUrls.length)[k]? = none := by
        apply List.getElem?_eq_none
        simp [SingleProductPage.shownWhilePressingNext]
        omega
      have h2 : ((imageUrls.rotate i).map some)[k]? = none := by
        apply List.getElem?_eq_none
        simp
        omega
      rw [h1, h2]
  refine ⟨hnext_lt, hprev_lt, hnext, hprev, ?_, ?_, ?_, ?_, ?_, ?_, hshown, ?_, ?_⟩
  · have hcast : (i : Int) - 1 + (imageUrls.length : Int)
        = ((i + imageUrls.length - 1 : Nat) : Int) := by omega
    rw [hcast]
    norm_cast
  · rw [hnext, List.getElem?_eq_getElem hnext_lt]; rfl
  · rw [hprev, List.getElem?_eq_getElem hprev_lt]; rfl
  · rw [hnext, List.getElem?_eq_getElem hnext_lt,
      previousImage_at imageUrls _ ((i + 1) % imageUrls.length) hnd
        (List.getElem?_eq_getElem hnext_lt),
      succ_mod_pred_mod i imageUrls.length hlt, hi]
  · rw [hprev, List.getElem?_eq_getElem hprev_lt,
      nextImage_at imageUrls _ ((i + imageUrls.length - 1) % imageUrls.length) hnd
        (List.getElem?_eq_getElem hprev_lt),
      pred_mod_succ_mod i imageUrls.length hlt, hi]
  · rw [nextImage_iterate imageUrls selectedImage i hnd hi imageUrls.length,
      Nat.add_mod_right, Nat.mod_eq_of_lt hlt, hi]
  · rw [hshown]
    exact (List.rotate_perm imageUrls i).map some
  · rw [hshown]
    exact ((List.nodup_rotate).mpr hnd).map (Option.some_injective String)

/-- C23, witness: a gallery of three images, the last one selected. -/
theorem carousel_next_previous_witness :
    SingleProductPage.nextImage ringGallery (some "c.png") = ringGallery[(2 + 1) % 3]? ∧
    SingleProductPage.previousImage ringGallery (some "c.png") = ringGallery[(2 + 3 - 1) % 3]? ∧
    SingleProductPage.shownWhilePressingNext ringGallery (some "c.png") 3
      = (ringGallery.rotate 2).map some :=
  have h := carousel_next_previous ringGallery "c.png" 2 (by decide) rfl
  ⟨h.2.2.1, h.2.2.2.1, h.2.2.2.2.2.2.2.2.2.2.1⟩

end CaptureRing
